import Mathlib

/-!
# ISHA assistant: action executor and intent classifier

A shallow embedding of `server/src/services/actionExecutor.js`, of the
classification cascade of `server/src/services/intentClassifier.js`, of
`fallbackExtraction` and the model calls of `handleChat` in
`server/src/controllers/aiController.js`, and of the corpus and the vector
index of `server/src/services/embeddingService.js`.

Modelling conventions.

* JavaScript values are the type `JsVal`.  Numbers are the integers (the
  part of the JavaScript numbers on which `String(n)` is the plain decimal
  numeral); a number that is not an integer is carried as its decimal numeral
  (`dec`); `NaN` and the infinities are not values (an operation that would
  give `NaN` returns `none`).  `parseInt` rounds what it reads to the 53
  significant bits of a JavaScript number.
* `toLowerCase`/`toUpperCase` act on the ASCII letters, and a text is taken
  to hold none of the few letters outside ASCII whose other case is an ASCII
  letter (the Kelvin sign, the dotted capital I); `trim` removes the
  ECMAScript white space characters.
* The relational store is a record of tables; a table is a list of rows and a
  row maps column names to values.  Every statement is appended to the
  store's `log`, a statement that the server rejects included, so "no
  statement was issued" is `log` being unchanged.
* The schema is the DDL of the repository (`columns`).  A statement that names
  a column its table does not have is rejected; the type `INTEGER` of
  `steps.steps` and the type `DECIMAL(5,2)` of the measurement columns are
  enforced on what the steps and measurement handlers write.  The other column
  types, the length limits of `VARCHAR`, `NOT NULL` and the validity of date
  and time texts are not enforced.  A row that a statement returns is given by
  the values of its columns, not by the text in which the driver hands some
  of them over.
* `new Date()` is the field `now` of the environment, the same instant
  throughout one handler call; `new Date(x)` is the environment's `dateCtor`.
* Embedding vectors and similarities are exact rationals; `Math.sqrt` is a
  parameter.  The asynchronous build of the index is a state machine whose
  events are the calls of `initializeEmbeddings` and the outcomes of the
  awaited `getEmbedding` requests, in any interleaving.
-/

set_option autoImplicit false

namespace Isha

/-! ## JavaScript values -/

/-- A JavaScript value: the JSON values together with `undefined`. -/
inductive JsVal where
  | undefined
  | null
  | bool (b : Bool)
  | num (n : Int)
  /-- A number that is not an integer, by its shortest decimal numeral. -/
  | dec (numeral : String)
  | str (s : String)
  | arr (xs : List JsVal)
  | obj (fields : List (String × JsVal))

namespace JsVal

/-- ToBoolean. -/
def truthy : JsVal → Bool
  | undefined => false
  | null => false
  | bool b => b
  | num n => n != 0
  | dec _ => true
  | str s => s != ""
  | arr _ => true
  | obj _ => true

/-- The expression `a || b`. -/
def orElse (a b : JsVal) : JsVal := if a.truthy then a else b

/-- Own property `k` of an object given by its list of fields. -/
def lookup (k : String) : List (String × JsVal) → JsVal
  | [] => undefined
  | (k', v) :: r => if k' = k then v else lookup k r

/-- The property read `v.k`, for the property names the handlers use (none of
them is a built-in property of strings, arrays, numbers or booleans). -/
def get (v : JsVal) (k : String) : JsVal :=
  match v with
  | obj fs => lookup k fs
  | _ => undefined

/-- The test `typeof v === 'object'`. -/
def isObjectType : JsVal → Bool
  | null => true
  | arr _ => true
  | obj _ => true
  | _ => false

/-- The test `v === undefined`. -/
def isUndefined : JsVal → Bool
  | undefined => true
  | _ => false

/-- The test `v === undefined || v === null`. -/
def isNullish : JsVal → Bool
  | undefined => true
  | null => true
  | _ => false

/-- The test `v === 'literal'`. -/
def isStr (v : JsVal) (lit : String) : Bool :=
  match v with
  | str s => s == lit
  | _ => false

mutual
/-- The conversion `String(v)`. -/
def toStr : JsVal → String
  | undefined => "undefined"
  | null => "null"
  | bool true => "true"
  | bool false => "false"
  | num n => toString n
  | dec s => s
  | str s => s
  | arr xs => joinWith "," xs
  | obj _ => "[object Object]"
/-- The method `xs.join(sep)`: `null` and `undefined` elements give the empty string. -/
def joinWith (sep : String) : List JsVal → String
  | [] => ""
  | [x] => (match x with
    | undefined => ""
    | null => ""
    | _ => toStr x)
  | x :: y :: r => (match x with
    | undefined => ""
    | null => ""
    | _ => toStr x) ++ sep ++ joinWith sep (y :: r)
end

end JsVal

open JsVal

/-! ## Text -/

/-- ECMAScript white space and line terminators, as removed by `trim`. -/
def isJsSpace (c : Char) : Bool :=
  let n := c.toNat
  n == 9 || n == 10 || n == 11 || n == 12 || n == 13 || n == 32 || n == 160 ||
  n == 5760 || (8192 ≤ n && n ≤ 8202) || n == 8232 || n == 8233 || n == 8239 ||
  n == 8287 || n == 12288 || n == 65279

/-- The method `s.toLowerCase()`. -/
def lower (s : String) : String := String.mk (s.data.map Char.toLower)

/-- The method `s.toUpperCase()`. -/
def upper (s : String) : String := String.mk (s.data.map Char.toUpper)

/-- Drop trailing white space. -/
def dropSpaceEnd (cs : List Char) : List Char :=
  (cs.reverse.dropWhile isJsSpace).reverse

/-- The method `s.trim()`. -/
def trim (s : String) : String :=
  String.mk (dropSpaceEnd (s.data.dropWhile isJsSpace))

/-- Does `cs` start with `p`? -/
def startsWith : List Char → List Char → Bool
  | _, [] => true
  | [], _ :: _ => false
  | c :: cs, p :: ps => c == p && startsWith cs ps

/-- Does `sub` occur in `cs`? -/
def containsSub (cs sub : List Char) : Bool :=
  match cs with
  | [] => startsWith [] sub
  | c :: r => startsWith (c :: r) sub || containsSub r sub

/-- The method `s.includes(sub)`. -/
def includes (s sub : String) : Bool := containsSub s.data sub.data

/-- The method `s.padStart(2, '0')`. -/
def pad2 (s : String) : String :=
  match s.data with
  | [] => "00"
  | [c] => String.mk ['0', c]
  | _ => s

/-- The longest run of decimal digits at the start. -/
def leadingDigits : List Char → List Char
  | [] => []
  | c :: r => if c.isDigit then c :: leadingDigits r else []

/-- The number written by a list of decimal digits. -/
def digitsToNat (ds : List Char) : Nat :=
  ds.foldl (fun a c => 10 * a + (c.toNat - 48)) 0

/-- The number of low bits that `n` has beyond 53 significant ones; `fuel`
bounds the count. -/
def excessBits : Nat → Nat → Nat
  | 0, _ => 0
  | fuel + 1, n => if n < 2 ^ 53 then 0 else excessBits fuel (n / 2) + 1

/-- The number that a JavaScript number holds for the integer `n`: `n` itself
below `2 ^ 53`, and otherwise the nearest integer with 53 significant bits, a
tie going to the even one. -/
def toDouble (n : Nat) : Nat :=
  if n < 2 ^ 53 then n
  else
    let shift := excessBits n n
    let q := n / 2 ^ shift
    let r := n % 2 ^ shift
    let half := 2 ^ (shift - 1)
    (if r > half || (r = half && q % 2 = 1) then q + 1 else q) * 2 ^ shift

/-- The number read from a list of decimal digits, as `parseInt` returns it. -/
def digitsToNumber (ds : List Char) : Nat := toDouble (digitsToNat ds)

/-- An optional sign and the longest run of digits after it, white space in
front skipped, read exactly; `none` when there is no digit. -/
def readIntChars (cs : List Char) : Option Int :=
  match cs.dropWhile isJsSpace with
  | '-' :: r =>
    (match leadingDigits r with
    | [] => none
    | ds => some (-(digitsToNat ds : Int)))
  | '+' :: r =>
    (match leadingDigits r with
    | [] => none
    | ds => some (digitsToNat ds : Int))
  | r =>
    (match leadingDigits r with
    | [] => none
    | ds => some (digitsToNat ds : Int))

/-- The function `parseInt(s, 10)` on text; `none` is `NaN`. -/
def parseIntChars (cs : List Char) : Option Int :=
  (readIntChars cs).map (fun z => if z < 0 then -(toDouble z.natAbs : Int) else toDouble z.natAbs)

/-- The function `parseInt(v, 10)`; `none` is `NaN`.  An integer is read back
from its own decimal numeral. -/
def parseInt : JsVal → Option Int
  | num n => some n
  | v => parseIntChars v.toStr.data

/-! ## Regular expressions -/

/-- A regular expression of the JavaScript dialect, as far as the sources use
it: classes, sequence, alternation, greedy and lazy repetition, capture groups
and the anchors `^` and `$`. -/
inductive Re where
  | chr (p : Char → Bool)
  | eps
  | seq (a b : Re)
  | alt (a b : Re)
  | star (a : Re)
  | lazyStar (a : Re)
  | group (i : Nat) (a : Re)
  | bos
  | eos

/-- The state of a match attempt: the text still to read, whether the attempt
stands at the start of the input, and the groups captured so far (latest first). -/
structure ReState where
  rest : List Char
  atStart : Bool
  caps : List (Nat × List Char)

/-- The first alternative that succeeds. -/
def firstOf {α : Type} (a b : Option α) : Option α :=
  match a with
  | some x => some x
  | none => b

/-- Repetition of `step` with backtracking; an iteration that reads nothing is
rejected.  `fuel` bounds the number of iterations by the length of the text. -/
def starLoop (step : ReState → (ReState → Option ReState) → Option ReState) (greedy : Bool) :
    Nat → ReState → (ReState → Option ReState) → Option ReState
  | 0, st, k => k st
  | fuel + 1, st, k =>
    let again := step st (fun st' =>
      if st'.rest.length < st.rest.length then starLoop step greedy fuel st' k else none)
    if greedy then firstOf again (k st) else firstOf (k st) again

namespace Re

/-- Backtracking matcher in continuation-passing style: `k` is what remains to
be matched after this expression. -/
def run : Re → ReState → (ReState → Option ReState) → Option ReState
  | chr p, st, k =>
    (match st.rest with
    | [] => none
    | c :: r => if p c then k { st with rest := r, atStart := false } else none)
  | eps, st, k => k st
  | seq a b, st, k => run a st (fun st' => run b st' k)
  | alt a b, st, k => firstOf (run a st k) (run b st k)
  | star a, st, k => starLoop (run a) true (st.rest.length + 1) st k
  | lazyStar a, st, k => starLoop (run a) false (st.rest.length + 1) st k
  | group i a, st, k =>
    run a st (fun st' =>
      k { st' with caps := (i, st.rest.take (st.rest.length - st'.rest.length)) :: st'.caps })
  | bos, st, k => if st.atStart then k st else none
  | eos, st, k => if st.rest.isEmpty then k st else none

/-- The optional `a?`. -/
def opt (a : Re) : Re := alt a eps

/-- The repetition `a+`. -/
def plus (a : Re) : Re := seq a (star a)

/-- The lazy repetition `a+?`. -/
def lazyPlus (a : Re) : Re := seq a (lazyStar a)

/-- A sequence of expressions. -/
def cat : List Re → Re
  | [] => eps
  | [a] => a
  | a :: r => seq a (cat r)

/-- An alternation of expressions. -/
def any : List Re → Re
  | [] => chr (fun _ => false)
  | [a] => a
  | a :: r => alt a (any r)

/-- A literal character. -/
def lit (c : Char) : Re := chr (fun x => x == c)

/-- A literal character under the flag `i`. -/
def litI (c : Char) : Re := chr (fun x => x.toLower == c.toLower)

/-- A literal text. -/
def text (s : String) : Re := cat (s.data.map lit)

/-- A literal text under the flag `i`. -/
def textI (s : String) : Re := cat (s.data.map litI)

/-- The class `\d`. -/
def digit : Re := chr Char.isDigit

/-- The class `\w`. -/
def word : Re := chr (fun c => c.isAlphanum || c == '_')

/-- The class `\s`. -/
def space : Re := chr isJsSpace

/-- The class `.`: any character but a line terminator. -/
def dot : Re := chr (fun c => !(c == '\n' || c == '\r' || c.toNat == 8232 || c.toNat == 8233))

end Re

/-- A match: the text before it, the matched text, the text after it, and
the captured groups. -/
structure ReMatch where
  pre : List Char
  matched : List Char
  post : List Char
  caps : List (Nat × List Char)

/-- Try to match at the head of `s`, `pre` (reversed) being the text before it. -/
def Re.matchHere (re : Re) (pre : List Char) (s : List Char) : Option ReMatch :=
  match re.run { rest := s, atStart := pre.isEmpty, caps := [] } some with
  | none => none
  | some st =>
    some { pre := pre.reverse, matched := s.take (s.length - st.rest.length), post := st.rest,
           caps := st.caps }

/-- The leftmost match at or after the head of `s`. -/
def Re.searchFrom (re : Re) (pre : List Char) : List Char → Option ReMatch
  | [] => re.matchHere pre []
  | c :: s => firstOf (re.matchHere pre (c :: s)) (re.searchFrom (c :: pre) s)

/-- The method `s.match(re)` without the flag `g`. -/
def Re.search (re : Re) (s : String) : Option ReMatch := re.searchFrom [] s.data

/-- The method `re.test(s)`. -/
def Re.test (re : Re) (s : String) : Bool := (re.search s).isSome

/-- The element `m[i]` of a match: `none` when the group took no part. -/
def ReMatch.group (m : ReMatch) (i : Nat) : Option String :=
  match m.caps.find? (fun p => p.1 == i) with
  | some p => some (String.mk p.2)
  | none => none

/-- The successive matches of `re` in `s`, each search starting where the
previous match ended (a match of the empty text moves on by one character);
`fuel` bounds the number of matches by the length of the text. -/
def Re.matchesFrom (re : Re) : Nat → List Char → List Char → List ReMatch
  | 0, _, _ => []
  | fuel + 1, pre, s =>
    match re.searchFrom pre s with
    | none => []
    | some m =>
      match m.matched, m.post with
      | [], [] => [m]
      | [], c :: rest => m :: re.matchesFrom fuel (c :: m.pre.reverse) rest
      | _ :: _, post => m :: re.matchesFrom fuel (m.matched.reverse ++ m.pre.reverse) post

/-- The method `s.match(re)` with the flag `g`: the matched texts, `none` when
there is no match. -/
def Re.matchAll (re : Re) (s : String) : Option (List String) :=
  match re.matchesFrom (s.length + 1) [] s.data with
  | [] => none
  | ms => some (ms.map (fun m => String.mk m.matched))

/-- The pieces of `s` between the successive matches of a separator that
never matches the empty text. -/
def Re.splitFrom (re : Re) : Nat → List Char → List Char → List String
  | 0, _, s => [String.mk s]
  | fuel + 1, pre, s =>
    match re.searchFrom pre s with
    | none => [String.mk s]
    | some m =>
      String.mk (s.take (m.pre.length - pre.length)) ::
        re.splitFrom fuel (m.matched.reverse ++ m.pre.reverse) m.post

/-- The method `s.split(re)`. -/
def Re.split (re : Re) (s : String) : List String := re.splitFrom (s.length + 1) [] s.data

/-- The method `s.replace(re, by)` without the flag `g`. -/
def Re.replaceFirst (re : Re) (s : String) (by_ : String) : String :=
  match re.search s with
  | none => s
  | some m => String.mk (m.pre ++ by_.data ++ m.post)

/-- The method `s.replace(re, by)` with the flag `g`, for an expression that
never matches the empty text. -/
def Re.replaceAll (re : Re) (s : String) (by_ : String) : String :=
  String.intercalate by_ (re.split s)

/-! ## Dates -/

/-- A `Date` in local time: the calendar day counted from 1970-01-01 and the
milliseconds elapsed since local midnight. -/
structure JsDate where
  day : Int
  ms : Nat

/-- Proleptic Gregorian year, month (1 to 12) and day of month of a day number. -/
def civilFromDays (z0 : Int) : Int × Nat × Nat :=
  let z := z0 + 719468
  let era := z / 146097
  let doe := z - era * 146097
  let yoe := (doe - doe / 1460 + doe / 36524 - doe / 146096) / 365
  let doy := doe - (365 * yoe + yoe / 4 - yoe / 100)
  let mp := (5 * doy + 2) / 153
  let d := doy - (153 * mp + 2) / 5 + 1
  let m := if mp < 10 then mp + 3 else mp - 9
  let y := yoe + era * 400 + (if m ≤ 2 then 1 else 0)
  (y, m.toNat, d.toNat)

/-- Day number of day `d` of month `m` (1 to 12) of year `y0`; a day outside
the month runs over into the neighbouring months, as in `new Date(y, m, d)`. -/
def daysFromCivil (y0 : Int) (m : Nat) (d : Int) : Int :=
  let y := if m ≤ 2 then y0 - 1 else y0
  let era := y / 400
  let yoe := y - era * 400
  let mp : Int := if m > 2 then (m : Int) - 3 else (m : Int) + 9
  let doy := (153 * mp + 2) / 5 + d - 1
  let doe := yoe * 365 + yoe / 4 - yoe / 100 + doy
  era * 146097 + doe - 719468

namespace JsDate

/-- The method `getDay()`: 0 is Sunday. -/
def getDay (d : JsDate) : Nat := ((d.day + 4) % 7).toNat

/-- The method `getFullYear()`. -/
def getFullYear (d : JsDate) : Int := (civilFromDays d.day).1

/-- The method `getMonth()`: 0 is January. -/
def getMonth (d : JsDate) : Nat := (civilFromDays d.day).2.1 - 1

/-- The method `getDate()`: the day of the month. -/
def getDate (d : JsDate) : Nat := (civilFromDays d.day).2.2

/-- The update `d.setDate(d.getDate() + k)`. -/
def addDays (d : JsDate) (k : Int) : JsDate := { d with day := d.day + k }

end JsDate

/-- What the handlers read from their surroundings. -/
structure Env where
  /-- The value of `new Date()`. -/
  now : JsDate
  /-- The value of `new Date(x)`; `none` is an invalid date. -/
  dateCtor : JsVal → Option JsDate

/-! ## The relational store -/

/-- The tables the handlers touch. -/
inductive Tbl where
  | workouts
  | diet_logs
  | steps
  | body_measurements
  | food_recipes
  | reminders
  | shopping_list
  | wishlist
  deriving DecidableEq, Repr

/-- The kinds of statement. -/
inductive Op where
  | select
  | insert
  | update
  | delete
  deriving DecidableEq, Repr

/-- A row: column names with their values. -/
abbrev Row := List (String × JsVal)

/-- The value of column `c`; a column the row does not list is `NULL`. -/
def colGet (r : Row) (c : String) : JsVal :=
  match r with
  | [] => null
  | (c', v) :: rest => if c' = c then v else colGet rest c

/-- Assign column `c`. -/
def colSet (r : Row) (c : String) (v : JsVal) : Row :=
  match r with
  | [] => [(c, v)]
  | (c', w) :: rest => if c' = c then (c', v) :: rest else (c', w) :: colSet rest c v

/-- Is column `c` listed? -/
def colHas (r : Row) (c : String) : Bool :=
  match r with
  | [] => false
  | (c', _) :: rest => c' == c || colHas rest c

/-- A statement parameter as the driver sends it: `undefined` becomes `NULL`. -/
def toSql : JsVal → JsVal
  | undefined => null
  | v => v

/-- The comparison `a = b` of SQL on scalar values; `NULL` equals nothing. -/
def sqlEq : JsVal → JsVal → Bool
  | .num a, .num b => a == b
  | .str a, .str b => a == b
  | .bool a, .bool b => a == b
  | _, _ => false

/-- A table: its rows in insertion order and the next value of its `SERIAL`. -/
structure Table where
  rows : List Row
  nextId : Nat

/-- The store, with the clock behind `CURRENT_TIMESTAMP` and the log of the
statements issued so far (latest last). -/
structure Store where
  workouts : Table
  diet_logs : Table
  steps : Table
  body_measurements : Table
  food_recipes : Table
  reminders : Table
  shopping_list : Table
  wishlist : Table
  clock : Nat
  log : List (Op × Tbl)

namespace Store

/-- The table named `t`. -/
def table (db : Store) : Tbl → Table
  | .workouts => db.workouts
  | .diet_logs => db.diet_logs
  | .steps => db.steps
  | .body_measurements => db.body_measurements
  | .food_recipes => db.food_recipes
  | .reminders => db.reminders
  | .shopping_list => db.shopping_list
  | .wishlist => db.wishlist

/-- Replace the table named `t`. -/
def setTable (db : Store) (t : Tbl) (x : Table) : Store :=
  match t with
  | .workouts => { db with workouts := x }
  | .diet_logs => { db with diet_logs := x }
  | .steps => { db with steps := x }
  | .body_measurements => { db with body_measurements := x }
  | .food_recipes => { db with food_recipes := x }
  | .reminders => { db with reminders := x }
  | .shopping_list => { db with shopping_list := x }
  | .wishlist => { db with wishlist := x }

/-- Record a statement and let the clock advance. -/
def tick (db : Store) (op : Op) (t : Tbl) : Store :=
  { db with clock := db.clock + 1, log := db.log ++ [(op, t)] }

end Store

/-- Columns with a non-null default in the DDL, apart from the key. -/
def defaults (t : Tbl) (now : Nat) : Row :=
  let stamps : Row := [("created_at", num now), ("updated_at", num now)]
  match t with
  | .workouts => stamps
  | .diet_logs => ("calories", num 0) :: stamps
  | .steps => ("steps", num 0) :: stamps
  | .body_measurements => ("recorded_at", num now) :: stamps
  | .food_recipes =>
    [("ingredients", arr []), ("servings", num 1), ("protein", num 0), ("fat", num 0),
      ("carbs", num 0)] ++ stamps
  | .reminders => stamps
  | .shopping_list => ("price_rupees", num 0) :: stamps
  | .wishlist => [("priority", str "medium"), ("status", str "wished")] ++ stamps

/-- The row an `INSERT` builds: the fresh key, the columns named by the
statement, and the defaults of the columns it does not name. -/
def newRow (t : Tbl) (id now : Nat) (cols : Row) : Row :=
  ("id", num id) :: (cols.map (fun p => (p.1, toSql p.2)) ++
    (defaults t now).filter (fun p => !colHas cols p.1))

namespace Store

/-- The statement `SELECT * FROM t WHERE p`. -/
def select (db : Store) (t : Tbl) (p : Row → Bool) : List Row × Store :=
  ((db.table t).rows.filter p, db.tick .select t)

/-- The statement `INSERT INTO t (cols) VALUES (...) RETURNING *`. -/
def insert (db : Store) (t : Tbl) (cols : Row) : Row × Store :=
  let tb := db.table t
  let row := newRow t tb.nextId db.clock cols
  (row, (db.setTable t { rows := tb.rows ++ [row], nextId := tb.nextId + 1 }).tick .insert t)

/-- The statement `UPDATE t SET f WHERE p RETURNING *`. -/
def update (db : Store) (t : Tbl) (p : Row → Bool) (f : Row → Row) : List Row × Store :=
  let tb := db.table t
  (((tb.rows.filter p).map f),
    (db.setTable t { tb with rows := tb.rows.map (fun r => if p r then f r else r) }).tick .update t)

/-- The statement `DELETE FROM t WHERE p RETURNING *`. -/
def delete (db : Store) (t : Tbl) (p : Row → Bool) : List Row × Store :=
  let tb := db.table t
  (tb.rows.filter p,
    (db.setTable t { tb with rows := tb.rows.filter (fun r => !p r) }).tick .delete t)

/-- A statement that the server rejects: it has been issued, and no table
changes. -/
def reject (db : Store) (op : Op) (t : Tbl) : Store := db.tick op t

end Store

/-! ## The schema -/

/-- The columns that the DDL of the repository declares: `dbConfig.js` for six
of the tables, `bodyMeasurementsModel.js` and `wishlistModel.js` for theirs. -/
def columns : Tbl → List String
  | .workouts =>
    ["id", "workout_name", "sets", "reps", "weights", "day", "date", "created_at",
      "updated_at"]
  | .diet_logs =>
    ["id", "food_name", "meal_type", "week", "day", "calories", "recipe_id", "created_at",
      "updated_at"]
  | .steps => ["id", "day", "steps", "date", "created_at", "updated_at"]
  | .body_measurements =>
    ["id", "height", "weight", "left_bicep", "right_bicep", "left_forearm", "right_forearm",
      "left_leg", "right_leg", "waist", "neck", "stomach", "chest", "left_calf", "right_calf",
      "shoulder_width", "recorded_at", "created_at", "updated_at"]
  | .food_recipes =>
    ["id", "week", "day", "meal_type", "food_name", "ingredients", "servings", "recipe",
      "approx_calories", "protein", "fat", "carbs", "created_at", "updated_at"]
  | .reminders =>
    ["id", "reminder_name", "reminder_time", "day", "date", "created_at", "updated_at"]
  | .shopping_list =>
    ["id", "grocery_name", "amount", "price_rupees", "day", "date", "created_at",
      "updated_at"]
  | .wishlist =>
    ["id", "item_name", "description", "category", "estimated_price", "actual_price",
      "priority", "status", "satisfaction_rating", "purchase_date", "notes", "image_url",
      "link_url", "created_at", "updated_at"]

/-- The name of a table in a statement. -/
def Tbl.text : Tbl → String
  | .workouts => "workouts"
  | .diet_logs => "diet_logs"
  | .steps => "steps"
  | .body_measurements => "body_measurements"
  | .food_recipes => "food_recipes"
  | .reminders => "reminders"
  | .shopping_list => "shopping_list"
  | .wishlist => "wishlist"

/-- The error of the server for a condition that names a column the table
does not have. -/
def noColumn (c : String) : String := "column \"" ++ c ++ "\" does not exist"

/-- The error of the server for an `INSERT` or `UPDATE` that assigns a column
the table does not have. -/
def noColumnOf (c : String) (t : Tbl) : String :=
  "column \"" ++ c ++ "\" of relation \"" ++ t.text ++ "\" does not exist"

/-- Does the number lie in the type `INTEGER`? -/
def inInteger (n : Int) : Bool := decide (-2147483648 ≤ n) && decide (n ≤ 2147483647)

/-- The error of the server for a parameter outside the type `INTEGER`. -/
def integerRange (n : Int) : String :=
  "value \"" ++ toString n ++ "\" is out of range for type integer"

/-- The error of the server for a sum outside the type `INTEGER`. -/
def integerOverflow : String := "integer out of range"

/-- The sum `a + b` in the type `INTEGER`, `b` being a parameter within the
type: `NULL` when `a` is not a number, `none` when the sum leaves the type. -/
def intAdd (a : JsVal) (b : Int) : Option JsVal :=
  match a with
  | .num x => if inInteger (x + b) then some (.num (x + b)) else none
  | _ => some .null

/-- The digits of an exponent `[+-]digits` that ends a numeral. -/
def readExponent (cs : List Char) : Option Int :=
  let digits (r : List Char) : Option Int :=
    if !r.isEmpty && r.all Char.isDigit then some (digitsToNat r : Int) else none
  match cs with
  | '-' :: r => (digits r).map (fun k => -k)
  | '+' :: r => digits r
  | r => digits r

/-- A decimal numeral `[+-]digits[.digits][e[+-]digits]`, the form of
`String(x)` for a number `x` and of the numeric input of the server: the
integer `m` that its digits spell and the exponent `e`, the numeral standing
for `m * 10 ^ e`. -/
def readDecimal (cs : List Char) : Option (Int × Int) :=
  let signed : Bool × List Char :=
    match cs with
    | '-' :: r => (true, r)
    | '+' :: r => (false, r)
    | r => (false, r)
  let whole := leadingDigits signed.2
  let afterWhole := signed.2.drop whole.length
  let fraction : List Char × List Char :=
    match afterWhole with
    | '.' :: r => (leadingDigits r, r.drop (leadingDigits r).length)
    | r => ([], r)
  if whole.isEmpty && fraction.1.isEmpty then none
  else
    let exponent : Option Int :=
      match fraction.2 with
      | [] => some 0
      | c :: r => if c = 'e' || c = 'E' then readExponent r else none
    exponent.map (fun e =>
      let digits : Int := (digitsToNat (whole ++ fraction.1) : Int)
      (if signed.1 then -digits else digits, e - (fraction.1.length : Int)))

/-- The number `m * 10 ^ e` in hundredths, a tie rounded away from zero, as the
type `NUMERIC` rounds to its scale. -/
def toHundredths (m e : Int) : Int :=
  if 0 ≤ e + 2 then m * 10 ^ (e + 2).toNat
  else
    let d : Nat := 10 ^ (-(e + 2)).toNat
    let q : Nat := (2 * m.natAbs + d) / (2 * d)
    if m < 0 then -(q : Int) else (q : Int)

/-- The shortest decimal numeral of `h` hundredths, `h` not a multiple of 100. -/
def hundredthsText (h : Int) : String :=
  (if h < 0 then "-" else "") ++ toString (h.natAbs / 100) ++ "." ++
    (if h.natAbs % 10 = 0 then toString (h.natAbs % 100 / 10)
      else pad2 (toString (h.natAbs % 100)))

/-- The number of `h` hundredths as a value. -/
def ofHundredths (h : Int) : JsVal :=
  if h % 100 = 0 then num (h / 100) else dec (hundredthsText h)

/-- The error of the server for a number outside the type `DECIMAL(5,2)`. -/
def numericOverflow : String := "numeric field overflow"

/-- The error of the server for a parameter that is no number; for an array or
an object the message is cut before the text of the parameter. -/
def numericSyntax (text : String) : String :=
  "invalid input syntax for type numeric: \"" ++ text ++ "\""

/-- White space as the server skips it around a number. -/
def isSqlSpace (c : Char) : Bool :=
  c = ' ' || c = '\t' || c = '\n' || c = '\r' || c.toNat = 11 || c.toNat = 12

/-- The text `s` read as a number of the type `DECIMAL(5,2)`: two decimals are
kept, and three digits before the point are the most the type holds.  The text
`NaN` is a number of the type. -/
def decimalOfText (s : String) : Except String JsVal :=
  let body := ((s.data.dropWhile isSqlSpace).reverse.dropWhile isSqlSpace).reverse
  if String.mk (body.map Char.toLower) = "nan" then .ok (dec "NaN")
  else
    match readDecimal body with
    | none => .error (numericSyntax s)
    | some (m, e) =>
      if -99999 ≤ toHundredths m e ∧ toHundredths m e ≤ 99999 then
        .ok (ofHundredths (toHundredths m e))
      else .error numericOverflow

/-- The conversion of a statement parameter to the type `DECIMAL(5,2)` of the
measurement columns: the value that the column then holds, or the error of
the server.  The driver sends a number as `String(x)`. -/
def decimal52 (v : JsVal) : Except String JsVal :=
  match v with
  | .undefined => .ok null
  | .null => .ok null
  | .num n => if -999 ≤ n ∧ n ≤ 999 then .ok (num n) else .error numericOverflow
  | .dec s => decimalOfText s
  | .str s => decimalOfText s
  | .bool b => .error (numericSyntax (bool b).toStr)
  | _ => .error "invalid input syntax for type numeric"

/-- The conversion of the parameters of an `INSERT` into measurement columns. -/
def decimalColumns : List (String × JsVal) → Except String Row
  | [] => .ok []
  | (c, v) :: rest =>
    match decimal52 v, decimalColumns rest with
    | .ok x, .ok r => .ok ((c, x) :: r)
    | .error msg, _ => .error msg
    | _, .error msg => .error msg

/-- The value that a statement assigns to the column `column` of
`body_measurements`, as the table then holds it: the server rejects a column
that the table does not have, and converts the parameter to `DECIMAL(5,2)`,
the type of every column that `measurementColumnMap` names and the table has. -/
def measurementValue (column : String) (value : JsVal) : Except String JsVal :=
  if (columns .body_measurements).contains column then decimal52 value
  else .error (noColumnOf column .body_measurements)

/-- A value of a `DECIMAL(5,2)` column as the driver hands it over, in text
with two decimals. -/
def decimalShown (v : JsVal) : String :=
  match v with
  | .num n => toString n ++ ".00"
  | .dec s =>
    (match s.data.reverse with
    | _ :: '.' :: _ => s ++ "0"
    | _ => s)
  | v => v.toStr

namespace Store

/-- The statement `SELECT * FROM t WHERE p`, the condition naming the columns
`named`: the server rejects it when the table lacks one of them. -/
def selectNamed (db : Store) (t : Tbl) (named : List String) (p : Row → Bool) :
    Except String (List Row) × Store :=
  match named.find? (fun c => !(columns t).contains c) with
  | some c => (.error (noColumn c), db.reject .select t)
  | none => (.ok (db.select t p).1, (db.select t p).2)

/-- The statement `UPDATE t SET f WHERE p RETURNING *` where the new value of
a row may leave the type of its column (`f` is then `none`): the server rejects
the statement as a whole, with the error `msg`. -/
def updateTyped (db : Store) (t : Tbl) (p : Row → Bool) (f : Row → Option Row)
    (msg : String) : Except String (List Row) × Store :=
  if ((db.table t).rows.filter p).all (fun r => (f r).isSome) then
    (.ok (db.update t p (fun r => (f r).getD r)).1, (db.update t p (fun r => (f r).getD r)).2)
  else (.error msg, db.reject .update t)

end Store

/-! ## Results -/

/-- The object a handler returns; a field left out is `undefined`/`none`. -/
structure ActionResult where
  success : Bool
  action : Option String := none
  data : JsVal := undefined
  message : Option String := none
  error : Option String := none

/-- What the body of a `try` block does: it returns, or it throws. -/
inductive Outcome where
  | ret (r : ActionResult)
  | threw (msg : String)

/-- The handlers' `catch (error)` clause: `{ success: false, error: error.message }`. -/
def caught (o : Outcome × Store) : ActionResult × Store :=
  match o.1 with
  | .ret r => (r, o.2)
  | .threw msg => ({ success := false, error := some msg }, o.2)

/-- A list of rows as the value of `result.rows`. -/
def rowsVal (rs : List Row) : JsVal := arr (rs.map obj)

/-! ## Date helpers of the executor -/

/-- Source: `getDayName`. -/
def getDayName (date : JsDate) : String :=
  match date.getDay with
  | 0 => "Sunday"
  | 1 => "Monday"
  | 2 => "Tuesday"
  | 3 => "Wednesday"
  | 4 => "Thursday"
  | 5 => "Friday"
  | _ => "Saturday"

/-- Source: `formatDateLocal`. -/
def formatDateLocal (date : JsDate) : String :=
  toString date.getFullYear ++ "-" ++ pad2 (toString (date.getMonth + 1)) ++ "-" ++
    pad2 (toString date.getDate)

/-- Lower-case weekday names, Sunday first. -/
def dayNames : List String :=
  ["sunday", "monday", "tuesday", "wednesday", "thursday", "friday", "saturday"]

/-- The method `xs.indexOf(s)` on a list of strings; `none` is `-1`. -/
def indexOf (xs : List String) (s : String) : Option Nat :=
  match xs with
  | [] => none
  | x :: r => if x = s then some 0 else (indexOf r s).map (· + 1)

/-- Source: `parseDate`. -/
def parseDate (env : Env) (dateRef : JsVal) : JsDate :=
  if !dateRef.truthy then env.now
  else
    let lowerRef := trim (lower dateRef.toStr)
    let now := env.now
    if lowerRef = "today" || lowerRef = "now" then now
    else if lowerRef = "yesterday" then now.addDays (-1)
    else if lowerRef = "tomorrow" then now.addDays 1
    else
      match indexOf dayNames lowerRef with
      | some dayIndex =>
        let currentDay := now.getDay
        let daysToAdd : Int := (dayIndex : Int) - (currentDay : Int)
        let daysToAdd := if daysToAdd ≤ 0 then daysToAdd + 7 else daysToAdd
        let daysToAdd := if dayIndex = currentDay then 0 else daysToAdd
        now.addDays daysToAdd
      | none =>
        match env.dateCtor dateRef with
        | some parsed => parsed
        | none => env.now

/-! ## Steps -/

/-- The filter `WHERE date = $1` of the steps statements. -/
def onDate (dateStr : String) (r : Row) : Bool := sqlEq (colGet r "date") (str dateStr)

/-- Source: the `try` block of `addSteps`. -/
def addStepsBody (env : Env) (values : JsVal) (db : Store) : Outcome × Store :=
  let v := if (values.get "steps").truthy && (values.get "steps").isObjectType
    then values.get "steps" else values
  let rawSteps := (((v.get "steps").orElse (v.get "count")).orElse (v.get "step")).orElse (num 0)
  let stepsCount : Int := (parseInt rawSteps).getD 0
  if stepsCount ≤ 0 then
    (.ret { success := false, error := some "Please specify a valid number of steps" }, db)
  else
    let date := parseDate env ((v.get "date").orElse (values.get "date"))
    let dateStr := formatDateLocal date
    let day := getDayName date
    let existing := db.select .steps (onDate dateStr)
    if existing.1.length > 0 then
      if !inInteger stepsCount then
        (.threw (integerRange stepsCount), existing.2.reject .update .steps)
      else
        match existing.2.updateTyped .steps (onDate dateStr)
            (fun r => (intAdd (colGet r "steps") stepsCount).map (colSet r "steps"))
            integerOverflow with
        | (.error msg, db') => (.threw msg, db')
        | (.ok [], db') => (.threw "Cannot read properties of undefined (reading 'steps')", db')
        | (.ok (row :: _), db') =>
          (.ret { success := true, action := some "updated", data := obj row,
                  message := some ("Added " ++ toString stepsCount ++ " steps. New total: " ++
                    (colGet row "steps").toStr) }, db')
    else if !inInteger stepsCount then
      (.threw (integerRange stepsCount), existing.2.reject .insert .steps)
    else
      let result := existing.2.insert .steps
        [("day", str day), ("steps", num stepsCount), ("date", str dateStr)]
      (.ret { success := true, action := some "added", data := obj result.1,
              message := some ("Logged " ++ toString stepsCount ++ " steps for " ++ day) },
        result.2)

/-- Source: `addSteps`. -/
def addSteps (env : Env) (values : JsVal) (db : Store) : ActionResult × Store :=
  caught (addStepsBody env values db)

/-- The value of `result.rows[0]`. -/
def firstRow (rs : List Row) : JsVal :=
  match rs with
  | [] => undefined
  | r :: _ => obj r

/-- Source: the `try` block of `updateSteps`. -/
def updateStepsBody (env : Env) (values : JsVal) (db : Store) : Outcome × Store :=
  let v := if (values.get "steps").truthy && (values.get "steps").isObjectType
    then values.get "steps" else values
  let rawSteps := ((v.get "steps").orElse (v.get "count")).orElse (num 0)
  let stepsCount : Int := (parseInt rawSteps).getD 0
  if stepsCount ≤ 0 then
    (.ret { success := false, error := some "Please specify a valid number of steps" }, db)
  else
    let date := parseDate env ((v.get "date").orElse (values.get "date"))
    let dateStr := formatDateLocal date
    let day := getDayName date
    let existing := db.select .steps (onDate dateStr)
    if existing.1.length > 0 then
      if !inInteger stepsCount then
        (.threw (integerRange stepsCount), existing.2.reject .update .steps)
      else
        let result := existing.2.update .steps (onDate dateStr)
          (fun r => colSet r "steps" (num stepsCount))
        (.ret { success := true, action := some "updated", data := firstRow result.1,
                message := some ("Updated steps to " ++ toString stepsCount) }, result.2)
    else if !inInteger stepsCount then
      (.threw (integerRange stepsCount), existing.2.reject .insert .steps)
    else
      let result := existing.2.insert .steps
        [("day", str day), ("steps", num stepsCount), ("date", str dateStr)]
      (.ret { success := true, action := some "added", data := obj result.1,
              message := some ("Set " ++ toString stepsCount ++ " steps for " ++ day) },
        result.2)

/-- Source: `updateSteps`. -/
def updateSteps (env : Env) (values : JsVal) (db : Store) : ActionResult × Store :=
  caught (updateStepsBody env values db)

/-! ## Workouts -/

/-- The pattern match `s LIKE pat` of SQL: `%` is any run of characters, `_`
any one character, and a backslash takes the next character literally. -/
def likeMatch : List Char → List Char → Bool
  | [], s => s.isEmpty
  | '%' :: p, s => anySuffix (likeMatch p) s
  | '_' :: p, s =>
    (match s with
    | [] => false
    | _ :: s' => likeMatch p s')
  | ['\\'], _ => false
  | '\\' :: q :: p, s =>
    (match s with
    | [] => false
    | c :: s' => c == q && likeMatch p s')
  | a :: p, s =>
    (match s with
    | [] => false
    | c :: s' => c == a && likeMatch p s')
where
  /-- Does `f` hold of some suffix of the text? -/
  anySuffix (f : List Char → Bool) : List Char → Bool
    | [] => f []
    | c :: s => f (c :: s) || anySuffix f s

/-- The filter `WHERE LOWER(col) LIKE '%' || name || '%'`, with `name` already
lower-cased by the caller. -/
def nameLike (col : String) (name : String) (r : Row) : Bool :=
  match colGet r col with
  | .str s => likeMatch ('%' :: (name.data ++ ['%'])) (lower s).data
  | _ => false

/-- An integer parameter as the server reads it from text. -/
def sqlInt : JsVal → Option Int
  | .num n => some n
  | .str s => readIntChars s.data
  | _ => none

/-- The filter `WHERE id = $1`. -/
def idIs (id : JsVal) (r : Row) : Bool :=
  match colGet r "id", sqlInt id with
  | .num a, some b => a == b
  | _, _ => false

/-- The method call `v.toLowerCase()`; `none` when `v` has no such method and
the call throws a `TypeError`. -/
def toLowerCase : JsVal → Option String
  | .str s => some (lower s)
  | _ => none

/-- The message of the `TypeError` for a missing `toLowerCase`. -/
def noLowerCase : String := "toLowerCase is not a function"

/-- The shared shape of the name-based delete handlers: delete by `id` when
it is given, else by name pattern when a name is given, else do nothing.  The
result is `result.rows`, `none` when no statement ran. -/
def deleteByIdOrName (t : Tbl) (col : String) (id name : JsVal) (db : Store) :
    Except String (Option (List Row)) × Store :=
  if id.truthy then
    let result := db.delete t (idIs id)
    (.ok (some result.1), result.2)
  else if name.truthy then
    match toLowerCase name with
    | none => (.error noLowerCase, db)
    | some l =>
      let result := db.delete t (nameLike col l)
      (.ok (some result.1), result.2)
  else (.ok none, db)

/-- Source: the `try` block of `addWorkout`. -/
def addWorkoutBody (env : Env) (values : JsVal) (db : Store) : Outcome × Store :=
  let workout_name := (values.get "workout_name").orElse (values.get "name")
  if !workout_name.truthy then
    let hint :=
      "Please tell me the workout name. Example: \"add squats\" or \"did 3 sets of bench press\""
    (.ret { success := false, error := some hint }, db)
  else
    let date := parseDate env (values.get "date")
    let sets := (values.get "sets").orElse null
    let reps := (values.get "reps").orElse null
    let weights := ((values.get "weights").orElse (values.get "weight")).orElse null
    let day := getDayName date
    let dateStr := formatDateLocal date
    let result := db.insert .workouts
      [("workout_name", workout_name), ("sets", sets), ("reps", reps), ("weights", weights),
        ("day", str day), ("date", str dateStr)]
    (.ret { success := true, action := some "added", data := obj result.1,
            message := some ("Added workout: " ++ workout_name.toStr) }, result.2)

/-- Source: `addWorkout`. -/
def addWorkout (env : Env) (values : JsVal) (db : Store) : ActionResult × Store :=
  caught (addWorkoutBody env values db)

/-- Source: the `try` block of `deleteWorkout`. -/
def deleteWorkoutBody (values : JsVal) (db : Store) : Outcome × Store :=
  let workoutName := (values.get "name").orElse (values.get "workout_name")
  match deleteByIdOrName .workouts "workout_name" (values.get "id") workoutName db with
  | (.error msg, db') => (.threw msg, db')
  | (.ok (some (r :: rs)), db') =>
    (.ret { success := true, action := some "deleted", data := rowsVal (r :: rs),
            message := some ("Deleted " ++ toString (r :: rs).length ++ " workout(s)") }, db')
  | (.ok _, db') => (.ret { success := false, error := some "No matching workout found" }, db')

/-- Source: `deleteWorkout`. -/
def deleteWorkout (values : JsVal) (db : Store) : ActionResult × Store :=
  caught (deleteWorkoutBody values db)

/-! ## Diet -/

/-- Source: `Math.ceil(todayDayOfMonth / 7)`. -/
def weekOf (dayOfMonth : Nat) : Nat := (dayOfMonth + 6) / 7

/-- Source: `((todayDayOfMonth - 1) % 7) + 1`. -/
def dayInWeekOf (dayOfMonth : Nat) : Nat := ((dayOfMonth - 1) % 7) + 1

/-- Source: the template `Day ${dayInWeek}`. -/
def dayStrOf (dayOfMonth : Nat) : String := "Day " ++ toString (dayInWeekOf dayOfMonth)

/-- The expression `m.charAt(0).toUpperCase() + m.slice(1)`. -/
def capitalize (m : String) : String :=
  match m.data with
  | [] => ""
  | c :: r => String.mk (c.toUpper :: r)

/-- Source: the normalisation of one meal type in `markMealAsEaten`, on a string. -/
def mealLabel (m : String) : String :=
  let l := lower m
  if includes l "break" then "Breakfast"
  else if includes l "lunch" then "Lunch"
  else if includes l "snack" then "Snack"
  else if includes l "dinner" then "Dinner"
  else capitalize m

/-- The callback of `mealTypes.map`; `none` when `m.toLowerCase` is not a
function and the call throws. -/
def normalizeMeal : JsVal → Option String
  | .str s => some (mealLabel s)
  | _ => none

/-- Normalise every meal type; `none` when one of them makes the callback throw. -/
def normalizeMeals : List JsVal → Option (List String)
  | [] => some []
  | m :: r =>
    match normalizeMeal m, normalizeMeals r with
    | some x, some xs => some (x :: xs)
    | _, _ => none

/-- The filter `WHERE meal_type = $1 AND week = $2 AND day = $3`. -/
def mealKey (mealType : String) (week : Nat) (dayStr : String) (r : Row) : Bool :=
  sqlEq (colGet r "meal_type") (str mealType) && sqlEq (colGet r "week") (num week) &&
    sqlEq (colGet r "day") (str dayStr)

/-- The filter `WHERE day_of_month = $1 AND meal_type = $2` on the recipes.
The DDL of `dbConfig.js` declares no column `day_of_month`: the recipe model
derives it from `week` and `day` in its own queries, and `checkRecipeExists`
converts a day of the month to `week` and `day` before it looks a recipe up. -/
def recipeFor (dayOfMonth : Nat) (mealType : String) (r : Row) : Bool :=
  sqlEq (colGet r "day_of_month") (num dayOfMonth) && sqlEq (colGet r "meal_type") (str mealType)

/-- Source: the `for` loop of `markMealAsEaten`, carrying `results` and
`alreadyLogged`; `.error` when a statement throws.  The lookup of the recipe
names the column `day_of_month`. -/
def markLoop (dayOfMonth : Nat) :
    List String → Store → List Row → List String →
      Except String (List Row × List String) × Store
  | [], db, results, alreadyLogged => (.ok (results, alreadyLogged), db)
  | mealType :: rest, db, results, alreadyLogged =>
    let existing := db.select .diet_logs (mealKey mealType (weekOf dayOfMonth) (dayStrOf dayOfMonth))
    if existing.1.length > 0 then
      markLoop dayOfMonth rest existing.2 results (alreadyLogged ++ [mealType])
    else
      match existing.2.selectNamed .food_recipes ["day_of_month", "meal_type"]
          (recipeFor dayOfMonth mealType) with
      | (.error msg, db') => (.error msg, db')
      | (.ok recipeRows, db') =>
        let insertResult :=
          match recipeRows with
          | [] => db'.insert .diet_logs
              [("food_name", str mealType), ("meal_type", str mealType),
                ("week", num (weekOf dayOfMonth)), ("day", str (dayStrOf dayOfMonth)),
                ("calories", num 0), ("recipe_id", null)]
          | recipe :: _ => db'.insert .diet_logs
              [("food_name", colGet recipe "food_name"), ("meal_type", str mealType),
                ("week", num (weekOf dayOfMonth)), ("day", str (dayStrOf dayOfMonth)),
                ("calories", (colGet recipe "approx_calories").orElse (num 0)),
                ("recipe_id", (colGet recipe "id").orElse null)]
        markLoop dayOfMonth rest insertResult.2 (results ++ [insertResult.1]) alreadyLogged

/-- Source: the `try` block of `markMealAsEaten`. -/
def markMealAsEatenBody (env : Env) (values : JsVal) (db : Store) : Outcome × Store :=
  let todayDayOfMonth := env.now.getDate
  let mealTypes : List JsVal :=
    match values.get "meal_types" with
    | .arr xs => xs
    | _ => if (values.get "meal_type").truthy then [values.get "meal_type"] else []
  if mealTypes.length = 0 then
    let hint := "Please specify which meal(s) you had (breakfast, lunch, snack, dinner)"
    (.ret { success := false, error := some hint }, db)
  else
    match normalizeMeals mealTypes with
    | none => (.threw noLowerCase, db)
    | some mealTypes =>
      match markLoop todayDayOfMonth mealTypes db [] [] with
      | (.error msg, db') => (.threw msg, db')
      | (.ok (results, alreadyLogged), db') =>
        if results.length = 0 && alreadyLogged.length > 0 then
          (.ret { success := true, action := some "skipped",
                  message := some (String.intercalate ", " alreadyLogged ++
                    " already marked as eaten ✓") }, db')
        else
          let markedMeals := joinWith ", " (results.map (fun r => colGet r "meal_type"))
          let message := "Marked " ++ markedMeals ++ " as eaten! 🍽️"
          let message := if alreadyLogged.length > 0
            then message ++ " (" ++ String.intercalate ", " alreadyLogged ++
              " was already logged)"
            else message
          (.ret { success := true, action := some "added", data := rowsVal results,
                  message := some message }, db')

/-- Source: `markMealAsEaten`. -/
def markMealAsEaten (env : Env) (values : JsVal) (db : Store) : ActionResult × Store :=
  caught (markMealAsEatenBody env values db)

/-- A destructuring default `{ k = d } = values`: the default replaces `undefined` only. -/
def withDefault (v d : JsVal) : JsVal := if v.isUndefined then d else v

/-- Source: the `try` block of `addDietLog`. -/
def addDietLogBody (env : Env) (values : JsVal) (db : Store) : Outcome × Store :=
  if (values.get "action").isStr "mark_eaten" then
    let r := markMealAsEaten env values db
    (.ret r.1, r.2)
  else
    let food_name := withDefault (values.get "food_name")
      (((values.get "name").orElse (values.get "food")).orElse (str "Food"))
    let meal_type := withDefault (values.get "meal_type")
      (((values.get "meal_type").orElse (values.get "meal")).orElse (str "snack"))
    let calories := withDefault (values.get "calories") ((values.get "calories").orElse (num 0))
    let week := withDefault (values.get "week")
      ((values.get "week").orElse (num (weekOf env.now.getDate)))
    let day := withDefault (values.get "day")
      ((values.get "day").orElse (str (getDayName env.now)))
    let recipe_id := withDefault (values.get "recipe_id") ((values.get "recipe_id").orElse null)
    let result := db.insert .diet_logs
      [("food_name", food_name), ("meal_type", meal_type), ("week", week), ("day", day),
        ("calories", calories), ("recipe_id", recipe_id)]
    (.ret { success := true, action := some "added", data := obj result.1,
            message := some ("Logged " ++ food_name.toStr ++ " (" ++ calories.toStr ++ " cal)") },
      result.2)

/-- Source: `addDietLog`. -/
def addDietLog (env : Env) (values : JsVal) (db : Store) : ActionResult × Store :=
  caught (addDietLogBody env values db)

/-- Source: the `try` block of `deleteDietLog`. -/
def deleteDietLogBody (env : Env) (values : JsVal) (db : Store) : Outcome × Store :=
  let meal_type := values.get "meal_type"
  let foodName := (values.get "food_name").orElse (values.get "name")
  if (values.get "action").isStr "unmark_eaten" && meal_type.truthy then
    let todayDayOfMonth := env.now.getDate
    let result := db.delete .diet_logs (fun r =>
      sqlEq (colGet r "meal_type") (toSql meal_type) &&
      sqlEq (colGet r "week") (num (weekOf todayDayOfMonth)) &&
      sqlEq (colGet r "day") (str (dayStrOf todayDayOfMonth)))
    if result.1.length > 0 then
      (.ret { success := true, action := some "deleted", data := rowsVal result.1,
              message := some ("Unmarked " ++ meal_type.toStr ++ " as eaten") }, result.2)
    else
      (.ret { success := false, error := some (meal_type.toStr ++ " was not marked as eaten") },
        result.2)
  else
    match deleteByIdOrName .diet_logs "food_name" (values.get "id") foodName db with
    | (.error msg, db') => (.threw msg, db')
    | (.ok (some (r :: rs)), db') =>
      (.ret { success := true, action := some "deleted", data := rowsVal (r :: rs),
              message := some ("Deleted " ++ toString (r :: rs).length ++ " diet log(s)") }, db')
    | (.ok _, db') => (.ret { success := false, error := some "No matching diet log found" }, db')

/-- Source: `deleteDietLog`. -/
def deleteDietLog (env : Env) (values : JsVal) (db : Store) : ActionResult × Store :=
  caught (deleteDietLogBody env values db)

/-! ## Measurements -/

/-- The outcome of reading `table[key]` on an object literal: an own entry, a
member inherited from `Object.prototype`, or nothing (`undefined`). -/
inductive Looked (α : Type) where
  | own (v : α)
  | inherited (prop : String)
  | absent

/-- The property names an object literal inherits from `Object.prototype`;
each of them holds a function or an object, so it is truthy. -/
def objectProtoNames : List String :=
  ["constructor", "__proto__", "hasOwnProperty", "isPrototypeOf", "propertyIsEnumerable",
    "toLocaleString", "toString", "valueOf", "__defineGetter__", "__defineSetter__",
    "__lookupGetter__", "__lookupSetter__"]

/-- First own entry under key `k`. -/
def ownGet {α : Type} (own : List (String × α)) (k : String) : Option α :=
  match own with
  | [] => none
  | (k', v) :: r => if k' = k then some v else ownGet r k

/-- The read `table[k]` on the object literal with the entries `own`. -/
def literalGet {α : Type} (own : List (String × α)) (k : String) : Looked α :=
  match ownGet own k with
  | some v => .own v
  | none => if objectProtoNames.contains k then .inherited k else .absent

/-- Source: `measurementColumnMap`. -/
def measurementColumnMap : List (String × String) :=
  [("weight", "weight"), ("height", "height"), ("left bicep", "left_bicep"),
    ("leftbicep", "left_bicep"), ("left_bicep", "left_bicep"), ("right bicep", "right_bicep"),
    ("rightbicep", "right_bicep"), ("right_bicep", "right_bicep"),
    ("left forearm", "left_forearm"), ("leftforearm", "left_forearm"),
    ("left_forearm", "left_forearm"), ("right forearm", "right_forearm"),
    ("rightforearm", "right_forearm"), ("right_forearm", "right_forearm"), ("chest", "chest"),
    ("neck", "neck"), ("waist", "waist"), ("stomach", "stomach"), ("left leg", "left_leg"),
    ("leftleg", "left_leg"), ("left_leg", "left_leg"), ("right leg", "right_leg"),
    ("rightleg", "right_leg"), ("right_leg", "right_leg"), ("left calf", "left_calf"),
    ("leftcalf", "left_calf"), ("left_calf", "left_calf"), ("right calf", "right_calf"),
    ("rightcalf", "right_calf"), ("right_calf", "right_calf"), ("shoulder", "shoulder_width"),
    ("shoulders", "shoulder_width"), ("shoulder width", "shoulder_width"),
    ("shoulderwidth", "shoulder_width"), ("shoulder_width", "shoulder_width"),
    ("bench", "bench_max"), ("bench press", "bench_max"), ("benchpress", "bench_max"),
    ("bench max", "bench_max"), ("bench_max", "bench_max"),
    ("overhead press", "overhead_press_max"), ("overheadpress", "overhead_press_max"),
    ("ohp", "overhead_press_max"), ("shoulder press", "overhead_press_max"),
    ("overhead press max", "overhead_press_max"), ("overhead_press_max", "overhead_press_max"),
    ("rows", "rows_max"), ("row", "rows_max"), ("barbell row", "rows_max"),
    ("rows max", "rows_max"), ("rows_max", "rows_max"), ("squats", "squats_max"),
    ("squat", "squats_max"), ("squats max", "squats_max"), ("squat max", "squats_max"),
    ("squats_max", "squats_max"), ("deadlift", "deadlift_max"), ("deadlifts", "deadlift_max"),
    ("deadlift max", "deadlift_max"), ("deadlift_max", "deadlift_max")]

/-- Source: `getMeasurementColumn`; `.error` when `name.toLowerCase` is not a
function.  `Looked.absent` is the result `null`. -/
def getMeasurementColumn (name : JsVal) : Except String (Looked String) :=
  if !name.truthy then .ok .absent
  else
    match toLowerCase name with
    | none => .error noLowerCase
    | some l => .ok (literalGet measurementColumnMap (trim l))

/-- The sort key of a column value: `none` is `NULL`. -/
def orderKey : JsVal → Option Int
  | .num x => some x
  | _ => none

/-- Does `a` come strictly before `b` in `ORDER BY ... DESC`?  `NULL` comes
before every number. -/
def descBefore (a b : JsVal) : Bool :=
  match orderKey a, orderKey b with
  | some x, some y => x > y
  | none, some _ => true
  | _, _ => false

/-- The first row in descending order of column `col`; among equal keys the
earliest row of the table. -/
def firstDesc (col : String) : List Row → Option Row
  | [] => none
  | r :: rest =>
    match firstDesc col rest with
    | none => some r
    | some b => if descBefore (colGet b col) (colGet r col) then some b else some r

/-- A located row as the value of `result.rows`. -/
def optRows (r : Option Row) : List Row :=
  match r with
  | none => []
  | some x => [x]

/-- The statement `SELECT * FROM t WHERE p ORDER BY col DESC LIMIT 1`. -/
def Store.selectFirst (db : Store) (t : Tbl) (p : Row → Bool) (col : String) :
    List Row × Store :=
  (optRows (firstDesc col ((db.table t).rows.filter p)), db.tick .select t)

/-- Source: the text after the name in the `Unknown measurement` error. -/
def validMeasurements : String :=
  ". Valid: weight, height, chest, waist, neck, left/right bicep, left/right forearm, " ++
  "left/right leg, left/right calf, shoulder, stomach"

/-- The error of the server for a statement whose column is not an identifier. -/
def badColumn : String := "syntax error in statement"

/-- Source: the part shared by `addMeasurement` and `updateMeasurement` after
the name has been read: resolve the column, read the latest row, then insert
(message `msgNew`) or update (message `msgOld`). -/
def writeMeasurement (name value : JsVal) (msgNew msgOld : String) (db : Store) :
    Outcome × Store :=
  match getMeasurementColumn name with
  | .error msg => (.threw msg, db)
  | .ok .absent =>
    (.ret { success := false,
            error := some ("Unknown measurement: " ++ name.toStr ++ validMeasurements) }, db)
  | .ok (.inherited _) =>
    let latest := db.selectFirst .body_measurements (fun _ => true) "created_at"
    match latest.1 with
    | [] => (.threw badColumn, latest.2.reject .insert .body_measurements)
    | _ :: _ => (.threw badColumn, latest.2.reject .update .body_measurements)
  | .ok (.own column) =>
    let latest := db.selectFirst .body_measurements (fun _ => true) "created_at"
    match latest.1 with
    | [] =>
      match measurementValue column value with
      | .error msg => (.threw msg, latest.2.reject .insert .body_measurements)
      | .ok stored =>
        let result := latest.2.insert .body_measurements [(column, stored)]
        (.ret { success := true, action := some "added", data := obj result.1,
                message := some msgNew }, result.2)
    | row :: _ =>
      match measurementValue column value with
      | .error msg => (.threw msg, latest.2.reject .update .body_measurements)
      | .ok stored =>
        let result := latest.2.update .body_measurements (idIs (colGet row "id"))
          (fun r => colSet (colSet r column stored) "updated_at" (num latest.2.clock))
        (.ret { success := true, action := some "updated", data := firstRow result.1,
                message := some msgOld }, result.2)

/-- Source: the `try` block of `addMeasurement`. -/
def addMeasurementBody (values : JsVal) (db : Store) : Outcome × Store :=
  let name := (values.get "name").orElse (values.get "measurement_name")
  let value := (values.get "value").orElse (values.get "measurement_value")
  if name.truthy && !value.isNullish then
    writeMeasurement name value ("Added " ++ name.toStr ++ ": " ++ value.toStr)
      ("Set " ++ name.toStr ++ " to " ++ value.toStr) db
  else
    let weight := withDefault (values.get "weight") null
    let height := withDefault (values.get "height") null
    let left_bicep := withDefault (values.get "left_bicep") null
    let right_bicep := withDefault (values.get "right_bicep") null
    let waist := withDefault (values.get "waist") null
    let neck := withDefault (values.get "neck") null
    let chest := withDefault (values.get "chest") null
    match decimalColumns
        [("height", height), ("weight", weight), ("left_bicep", left_bicep),
          ("right_bicep", right_bicep), ("waist", waist), ("neck", neck), ("chest", chest)] with
    | .error msg => (.threw msg, db.reject .insert .body_measurements)
    | .ok cols =>
      let result := db.insert .body_measurements cols
      let message := "Recorded measurements:"
      let message := if weight.truthy then message ++ " Weight: " ++ weight.toStr ++ "kg"
        else message
      let message := if height.truthy then message ++ " Height: " ++ height.toStr ++ "cm"
        else message
      (.ret { success := true, action := some "added", data := obj result.1,
              message := some message }, result.2)

/-- Source: `addMeasurement`. -/
def addMeasurement (values : JsVal) (db : Store) : ActionResult × Store :=
  caught (addMeasurementBody values db)

/-- Source: the `try` block of `updateMeasurement`. -/
def updateMeasurementBody (values : JsVal) (db : Store) : Outcome × Store :=
  let name := (values.get "name").orElse (values.get "measurement_name")
  let value := (values.get "value").orElse (values.get "measurement_value")
  if !name.truthy then
    (.ret { success := false,
            error := some "Measurement name is required (e.g., weight, height, chest)" }, db)
  else if value.isNullish then
    (.ret { success := false, error := some "Measurement value is required" }, db)
  else
    writeMeasurement name value ("Set " ++ name.toStr ++ " to " ++ value.toStr)
      ("Updated " ++ name.toStr ++ " to " ++ value.toStr) db

/-- Source: `updateMeasurement`. -/
def updateMeasurement (values : JsVal) (db : Store) : ActionResult × Store :=
  caught (updateMeasurementBody values db)

/-- Source: the `try` block of `deleteMeasurement`. -/
def deleteMeasurementBody (values : JsVal) (db : Store) : Outcome × Store :=
  let name := (values.get "name").orElse (values.get "measurement_name")
  if !name.truthy then
    let hint :=
      "Please specify which measurement to clear (e.g., \"clear neck\", \"delete weight\")"
    (.ret { success := false, error := some hint }, db)
  else
    match getMeasurementColumn name with
    | .error msg => (.threw msg, db)
    | .ok .absent =>
      (.ret { success := false,
              error := some ("Unknown measurement: " ++ name.toStr ++ validMeasurements) }, db)
    | .ok (.inherited _) =>
      let latest := db.selectFirst .body_measurements (fun _ => true) "created_at"
      match latest.1 with
      | [] =>
        (.ret { success := false, error := some "No measurements found to clear" }, latest.2)
      | _ :: _ => (.threw badColumn, latest.2.reject .update .body_measurements)
    | .ok (.own column) =>
      let latest := db.selectFirst .body_measurements (fun _ => true) "created_at"
      match latest.1 with
      | [] =>
        (.ret { success := false, error := some "No measurements found to clear" }, latest.2)
      | row :: _ =>
        if (columns .body_measurements).contains column then
          let currentValue := colGet row column
          match currentValue with
          | .null =>
            (.ret { success := true, action := some "none",
                    message := some (name.toStr ++ " is already empty") }, latest.2)
          | _ =>
            let result := latest.2.update .body_measurements (idIs (colGet row "id"))
              (fun r => colSet (colSet r column null) "updated_at" (num latest.2.clock))
            (.ret { success := true, action := some "deleted", data := firstRow result.1,
                    message := some ("Cleared " ++ name.toStr ++ " (was " ++
                      decimalShown currentValue ++ ")") }, result.2)
        else
          (.threw (noColumnOf column .body_measurements),
            latest.2.reject .update .body_measurements)

/-- Source: `deleteMeasurement`. -/
def deleteMeasurement (values : JsVal) (db : Store) : ActionResult × Store :=
  caught (deleteMeasurementBody values db)

/-! ## Reminders -/

/-- Source: `formatDateLocal` on a date that may be invalid: each field of an
invalid date is `NaN`. -/
def formatDateLocal? (date : Option JsDate) : String :=
  match date with
  | some d => formatDateLocal d
  | none => "NaN-NaN-NaN"

/-- Source: `getDayName` on a date that may be invalid: `days[NaN]` is `undefined`. -/
def getDayName? (date : Option JsDate) : JsVal :=
  match date with
  | some d => str (getDayName d)
  | none => undefined

/-- The value of `new Date(year, month, day)`, `month` counted from 0: years 0
to 99 stand for 1900 to 1999, and a day outside the month runs over. -/
def dateOfYMD (year : Int) (month : Nat) (day : Int) : JsDate :=
  { day := daysFromCivil (if 0 ≤ year ∧ year ≤ 99 then 1900 + year else year) (month + 1) day,
    ms := 0 }

/-- The update `d.setFullYear(year)`. -/
def JsDate.setFullYear (d : JsDate) (year : Int) : JsDate :=
  { d with day := daysFromCivil year (d.getMonth + 1) d.getDate }

/-- The comparison `a < b` of two dates. -/
def JsDate.before (a b : JsDate) : Bool :=
  a.day < b.day || (a.day == b.day && a.ms < b.ms)

/-- Source: the table `months` of `parseReminderDate`. -/
def reminderMonths : List (String × Nat) :=
  [("jan", 0), ("january", 0), ("feb", 1), ("february", 1), ("mar", 2), ("march", 2),
    ("apr", 3), ("april", 3), ("may", 4), ("jun", 5), ("june", 5), ("jul", 6), ("july", 6),
    ("aug", 7), ("august", 7), ("sep", 8), ("september", 8), ("oct", 9), ("october", 9),
    ("nov", 10), ("november", 10), ("dec", 11), ("december", 11)]

/-- The ordinal suffix `(?:st|nd|rd|th)?`. -/
def reOrdinal : Re := Re.opt (Re.any [Re.text "st", Re.text "nd", Re.text "rd", Re.text "th"])

/-- The group `(\d{1,2})`, numbered `i`. -/
def reDay (i : Nat) : Re := Re.group i (Re.seq Re.digit (Re.opt Re.digit))

/-- Source: `/(\d{1,2})(?:st|nd|rd|th)?\s*(?:of\s+)?(\w+)/`. -/
def reDayMonth : Re :=
  Re.cat [reDay 1, reOrdinal, Re.star Re.space,
    Re.opt (Re.seq (Re.text "of") (Re.plus Re.space)), Re.group 2 (Re.plus Re.word)]

/-- Source: `/(\w+)\s+(\d{1,2})(?:st|nd|rd|th)?/`. -/
def reMonthDay : Re :=
  Re.cat [Re.group 1 (Re.plus Re.word), Re.plus Re.space, reDay 2, reOrdinal]

/-- Source: `/^\d{4}-\d{2}-\d{2}$/`. -/
def reIsoDate : Re :=
  Re.cat [Re.bos, Re.digit, Re.digit, Re.digit, Re.digit, Re.lit '-', Re.digit, Re.digit,
    Re.lit '-', Re.digit, Re.digit, Re.eos]

/-- Source: the body shared by the two month patterns of `parseReminderDate`:
the date in the current year, moved to the next year when it is before now.
A month name inherited from `Object.prototype` gives an invalid date. -/
def monthTarget (now : JsDate) (monthStr : String) (day : Nat) : Option String :=
  match literalGet reminderMonths monthStr with
  | .absent => none
  | .inherited _ => some (formatDateLocal? none)
  | .own month =>
    let currentYear := now.getFullYear
    let targetDate := dateOfYMD currentYear month day
    let targetDate := if targetDate.before now then targetDate.setFullYear (currentYear + 1)
      else targetDate
    some (formatDateLocal targetDate)

/-- The method `s.replace('next ', '')`: the first occurrence is removed. -/
def dropFirst (sub : List Char) : List Char → List Char
  | [] => []
  | c :: r => if startsWith (c :: r) sub then (c :: r).drop sub.length else c :: dropFirst sub r

/-- Source: `parseReminderDate`. -/
def parseReminderDate (env : Env) (dateRef : JsVal) : String :=
  if !dateRef.truthy then formatDateLocal env.now
  else
    let lowerRef := trim (lower dateRef.toStr)
    let now := env.now
    if lowerRef = "today" || lowerRef = "now" then formatDateLocal now
    else if lowerRef = "tomorrow" then formatDateLocal (now.addDays 1)
    else if lowerRef = "yesterday" then formatDateLocal (now.addDays (-1))
    else
      match indexOf dayNames (String.mk (dropFirst "next ".data lowerRef.data)) with
      | some dayIndex =>
        let currentDay := now.getDay
        let daysToAdd : Int := (dayIndex : Int) - (currentDay : Int)
        let daysToAdd := if daysToAdd ≤ 0 || includes lowerRef "next" then daysToAdd + 7
          else daysToAdd
        formatDateLocal (now.addDays daysToAdd)
      | none =>
        let byDayMonth : Option String :=
          match reDayMonth.search lowerRef with
          | none => none
          | some m =>
            monthTarget now (lower ((m.group 2).getD "")) (digitsToNat ((m.group 1).getD "").data)
        match byDayMonth with
        | some r => r
        | none =>
          let byMonthDay : Option String :=
            match reMonthDay.search lowerRef with
            | none => none
            | some m =>
              monthTarget now (lower ((m.group 1).getD ""))
                (digitsToNat ((m.group 2).getD "").data)
          match byMonthDay with
          | some r => r
          | none =>
            if reIsoDate.test dateRef.toStr then dateRef.toStr
            else formatDateLocal now

/-- Source: `/^\d{1,2}:\d{2}$/`. -/
def reClock : Re :=
  Re.cat [Re.bos, Re.digit, Re.opt Re.digit, Re.lit ':', Re.digit, Re.digit, Re.eos]

/-- Source: `/(\d{1,2})(?::(\d{2}))?\s*(am|pm)/i`. -/
def reAmPm : Re :=
  Re.cat [reDay 1, Re.opt (Re.seq (Re.lit ':') (Re.group 2 (Re.seq Re.digit Re.digit))),
    Re.star Re.space, Re.group 3 (Re.alt (Re.textI "am") (Re.textI "pm"))]

/-- Source: `/^\d{4}$/`. -/
def reFourDigits : Re := Re.cat [Re.bos, Re.digit, Re.digit, Re.digit, Re.digit, Re.eos]

/-- Source: `parseReminderTime`. -/
def parseReminderTime (timeRef : JsVal) : String :=
  if !timeRef.truthy then "09:00"
  else
    let timeStr := trim (lower timeRef.toStr)
    if reClock.test timeStr then
      let hours := String.mk (timeStr.data.takeWhile (fun c => c != ':'))
      let minutes := String.mk ((timeStr.data.dropWhile (fun c => c != ':')).drop 1)
      pad2 hours ++ ":" ++ minutes
    else
      match reAmPm.search timeStr with
      | some ampmMatch =>
        let hours := digitsToNat ((ampmMatch.group 1).getD "").data
        let minutes := (ampmMatch.group 2).getD "00"
        let ampm := lower ((ampmMatch.group 3).getD "")
        let hours := if ampm = "pm" && hours != 12 then hours + 12 else hours
        let hours := if ampm = "am" && hours == 12 then 0 else hours
        pad2 (toString hours) ++ ":" ++ minutes
      | none =>
        if reFourDigits.test timeStr then
          String.mk (timeStr.data.take 2) ++ ":" ++ String.mk (timeStr.data.drop 2)
        else "09:00"

/-- Short month names of the locale `en-US`. -/
def monthShort (m : Nat) : String :=
  match m with
  | 0 => "Jan" | 1 => "Feb" | 2 => "Mar" | 3 => "Apr" | 4 => "May" | 5 => "Jun"
  | 6 => "Jul" | 7 => "Aug" | 8 => "Sep" | 9 => "Oct" | 10 => "Nov" | _ => "Dec"

/-- The call `d.toLocaleDateString('en-US', { month: 'short', day: 'numeric' })`. -/
def shortDate (d : Option JsDate) : String :=
  match d with
  | some d => monthShort d.getMonth ++ " " ++ toString d.getDate
  | none => "Invalid Date"

/-- Source: the `try` block of `addReminder`. -/
def addReminderBody (env : Env) (values : JsVal) (db : Store) : Outcome × Store :=
  let reminder_name :=
    ((values.get "reminder_name").orElse (values.get "title")).orElse (values.get "name")
  if !reminder_name.truthy then
    let hint := "Please tell me what to remind you about. " ++
      "Example: \"remind me to take vitamins at 8am\""
    (.ret { success := false, error := some hint }, db)
  else
    let reminder_time := parseReminderTime ((values.get "reminder_time").orElse (values.get "time"))
    let date := parseReminderDate env ((values.get "date").orElse (values.get "time_reference"))
    let day := getDayName? (env.dateCtor (str date))
    let result := db.insert .reminders
      [("reminder_name", reminder_name), ("reminder_time", str reminder_time), ("day", day),
        ("date", str date)]
    let formattedDate := shortDate (env.dateCtor (str date))
    (.ret { success := true, action := some "added", data := obj result.1,
            message := some ("Created reminder: \"" ++ reminder_name.toStr ++ "\" on " ++
              formattedDate ++ " at " ++ reminder_time ++ " ⏰") }, result.2)

/-- Source: `addReminder`. -/
def addReminder (env : Env) (values : JsVal) (db : Store) : ActionResult × Store :=
  caught (addReminderBody env values db)

/-- The shared first step of the update handlers: find the row by `id`, else
the latest row (by `orderCol`) whose name matches, else no row, without a
statement.  `.error` when the name has no `toLowerCase`. -/
def findByIdOrName (t : Tbl) (col orderCol : String) (id name : JsVal) (db : Store) :
    Except String (List Row) × Store :=
  if id.truthy then
    let result := db.select t (idIs id)
    (.ok result.1, result.2)
  else if name.truthy then
    match toLowerCase name with
    | none => (.error noLowerCase, db)
    | some l =>
      let result := db.selectFirst t (nameLike col l) orderCol
      (.ok result.1, result.2)
  else (.ok [], db)

/-- Source: the `try` block of `updateReminder`. -/
def updateReminderBody (env : Env) (values : JsVal) (db : Store) : Outcome × Store :=
  let enabled := values.get "enabled"
  let searchName :=
    ((values.get "reminder_name").orElse (values.get "title")).orElse (values.get "name")
  match findByIdOrName .reminders "reminder_name" "created_at" (values.get "id") searchName db with
  | (.error msg, db') => (.threw msg, db')
  | (.ok [], db') =>
    (.ret { success := false,
            error := some ("No reminder found matching \"" ++ searchName.toStr ++ "\"") }, db')
  | (.ok (reminder :: _), db') =>
    if !enabled.isUndefined then
      let status := if enabled.truthy then "enabled" else "disabled"
      (.ret { success := true, action := some "updated", data := obj reminder,
              message := some ("Reminder \"" ++ (colGet reminder "reminder_name").toStr ++
                "\" " ++ status ++ " ✓") }, db')
    else
      let timeRef := (values.get "reminder_time").orElse (values.get "time")
      let newTime := if timeRef.truthy then str (parseReminderTime timeRef)
        else colGet reminder "reminder_time"
      let newDate := if (values.get "date").truthy
        then str (parseReminderDate env (values.get "date")) else colGet reminder "date"
      let newName := (values.get "new_name").orElse (colGet reminder "reminder_name")
      let newDay := getDayName? (env.dateCtor newDate)
      let result := db'.update .reminders (idIs (colGet reminder "id")) (fun r =>
        colSet (colSet (colSet (colSet (colSet r "reminder_name" (toSql newName))
          "reminder_time" (toSql newTime)) "day" (toSql newDay)) "date" (toSql newDate))
          "updated_at" (num db'.clock))
      let formattedDate := shortDate (env.dateCtor newDate)
      (.ret { success := true, action := some "updated", data := firstRow result.1,
              message := some ("Updated reminder: \"" ++ newName.toStr ++ "\" → " ++
                formattedDate ++ " at " ++ newTime.toStr ++ " ✓") }, result.2)

/-- Source: `updateReminder`. -/
def updateReminder (env : Env) (values : JsVal) (db : Store) : ActionResult × Store :=
  caught (updateReminderBody env values db)

/-- Source: the `try` block of `deleteReminder`. -/
def deleteReminderBody (values : JsVal) (db : Store) : Outcome × Store :=
  let reminderName :=
    ((values.get "reminder_name").orElse (values.get "title")).orElse (values.get "name")
  match deleteByIdOrName .reminders "reminder_name" (values.get "id") reminderName db with
  | (.error msg, db') => (.threw msg, db')
  | (.ok (some (r :: rs)), db') =>
    (.ret { success := true, action := some "deleted", data := rowsVal (r :: rs),
            message := some ("Deleted reminder: \"" ++ (colGet r "reminder_name").toStr ++
              "\" 🗑️") }, db')
  | (.ok _, db') => (.ret { success := false, error := some "No matching reminder found" }, db')

/-- Source: `deleteReminder`. -/
def deleteReminder (values : JsVal) (db : Store) : ActionResult × Store :=
  caught (deleteReminderBody values db)

/-! ## Recipes -/

/-- The test `typeof v === 'string'`. -/
def isStringType : JsVal → Bool
  | .str _ => true
  | _ => false

/-- Source: the callback of `ingredients.map`: a string becomes `{ name, amount: '' }`. -/
def ingredientItem (i : JsVal) : JsVal :=
  match i with
  | .str s => obj [("name", str s), ("amount", str "")]
  | v => v

/-- Source: `ingredientsJson`.  The JSON text of an array is stored as the
array it denotes. -/
def ingredientsJson (ingredients : JsVal) : JsVal :=
  match ingredients with
  | .arr xs => arr (xs.map ingredientItem)
  | v => v

/-- Source: the merge `{ ...values, ...values.recipe }` at the head of `addRecipe`. -/
def mergeRecipe (values : JsVal) : JsVal :=
  match values, values.get "recipe" with
  | .obj fs, .obj rs => if (JsVal.lookup "food_name" rs).truthy then obj (rs ++ fs) else values
  | _, _ => values

/-- Source: the `try` block of `addRecipe`. -/
def addRecipeBody (env : Env) (values0 : JsVal) (db : Store) : Outcome × Store :=
  let values := mergeRecipe values0
  let food_name :=
    ((values.get "food_name").orElse (values.get "name")).orElse (values.get "recipe_name")
  if !food_name.truthy then
    let hint := "Please tell me the recipe name. Example: \"add chicken salad recipe\""
    (.ret { success := false, error := some hint }, db)
  else
    let week := withDefault (values.get "week") ((values.get "week").orElse (num 1))
    let day := withDefault (values.get "day")
      ((values.get "day").orElse (str (getDayName env.now)))
    let meal_type := withDefault (values.get "meal_type")
      ((values.get "meal_type").orElse (str "Snack"))
    let ingredients := withDefault (values.get "ingredients")
      ((values.get "ingredients").orElse (arr []))
    let servings := withDefault (values.get "servings") ((values.get "servings").orElse (num 1))
    let recipe := withDefault (values.get "recipe")
      (((values.get "recipe").orElse (values.get "instructions")).orElse (str ""))
    let approx_calories := withDefault (values.get "approx_calories")
      (((values.get "approx_calories").orElse (values.get "calories")).orElse null)
    let protein := withDefault (values.get "protein") ((values.get "protein").orElse null)
    let fat := withDefault (values.get "fat") ((values.get "fat").orElse null)
    let carbs := withDefault (values.get "carbs") ((values.get "carbs").orElse null)
    let result := db.insert .food_recipes
      [("week", week), ("day", day), ("meal_type", meal_type), ("food_name", food_name),
        ("ingredients", ingredientsJson ingredients), ("servings", servings), ("recipe", recipe),
        ("approx_calories", approx_calories), ("protein", protein), ("fat", fat),
        ("carbs", carbs)]
    (.ret { success := true, action := some "added", data := obj result.1,
            message := some ("Added recipe: " ++ food_name.toStr) }, result.2)

/-- Source: `addRecipe`. -/
def addRecipe (env : Env) (values : JsVal) (db : Store) : ActionResult × Store :=
  caught (addRecipeBody env values db)

/-- One optional assignment of a dynamic `UPDATE`: present when `cond` holds. -/
def setIf (cond : Bool) (col : String) (v : JsVal) : List (String × JsVal) :=
  if cond then [(col, toSql v)] else []

/-- Apply the assignments of an `UPDATE` to a row. -/
def applySets (sets : List (String × JsVal)) (r : Row) : Row :=
  sets.foldl (fun acc p => colSet acc p.1 p.2) r

/-- Source: the list `updates` of `updateRecipe`. -/
def recipeSets (values : JsVal) : List (String × JsVal) :=
  setIf (values.get "new_name").truthy "food_name" (values.get "new_name") ++
  setIf (!(values.get "week").isUndefined) "week" (values.get "week") ++
  setIf (values.get "day").truthy "day" (values.get "day") ++
  setIf (values.get "meal_type").truthy "meal_type" (values.get "meal_type") ++
  setIf (values.get "ingredients").truthy "ingredients"
    (ingredientsJson (values.get "ingredients")) ++
  setIf (!(values.get "servings").isUndefined) "servings" (values.get "servings") ++
  setIf ((values.get "recipe").truthy || (values.get "instructions").truthy) "recipe"
    ((values.get "recipe").orElse (values.get "instructions")) ++
  setIf (!(values.get "approx_calories").isUndefined || !(values.get "calories").isUndefined)
    "approx_calories" ((values.get "approx_calories").orElse (values.get "calories")) ++
  setIf (!(values.get "protein").isUndefined) "protein" (values.get "protein") ++
  setIf (!(values.get "fat").isUndefined) "fat" (values.get "fat") ++
  setIf (!(values.get "carbs").isUndefined) "carbs" (values.get "carbs")

/-- Source: the `try` block of `updateRecipe`. -/
def updateRecipeBody (values : JsVal) (db : Store) : Outcome × Store :=
  let food_name :=
    ((values.get "food_name").orElse (values.get "name")).orElse (values.get "recipe_name")
  if !food_name.truthy then
    let hint := "Recipe name (food_name) is required to identify which recipe to update"
    (.ret { success := false, error := some hint }, db)
  else
    match toLowerCase food_name with
    | none => (.threw noLowerCase, db)
    | some l =>
      let existing := db.selectFirst .food_recipes (nameLike "food_name" l) "created_at"
      match existing.1 with
      | [] =>
        (.ret { success := false,
                error := some ("No recipe found matching: " ++ food_name.toStr) }, existing.2)
      | currentRecipe :: _ =>
        let updates := recipeSets values
        if updates.length = 0 then
          (.ret { success := false, error := some "No fields to update provided" }, existing.2)
        else
          let result := existing.2.update .food_recipes (idIs (colGet currentRecipe "id"))
            (applySets updates)
          (.ret { success := true, action := some "updated", data := firstRow result.1,
                  message := some ("Updated recipe: " ++ food_name.toStr) }, result.2)

/-- Source: `updateRecipe`. -/
def updateRecipe (values : JsVal) (db : Store) : ActionResult × Store :=
  caught (updateRecipeBody values db)

/-- Source: the `try` block of `deleteRecipe`. -/
def deleteRecipeBody (values : JsVal) (db : Store) : Outcome × Store :=
  let id := values.get "id"
  let recipeName :=
    ((values.get "food_name").orElse (values.get "name")).orElse (values.get "recipe_name")
  if !id.truthy && !recipeName.truthy then
    (.ret { success := false, error := some "Recipe name or ID is required to delete" }, db)
  else
    match deleteByIdOrName .food_recipes "food_name" id recipeName db with
    | (.error msg, db') => (.threw msg, db')
    | (.ok (some (r :: rs)), db') =>
      (.ret { success := true, action := some "deleted", data := rowsVal (r :: rs),
              message := some ("Deleted " ++ toString (r :: rs).length ++ " recipe(s)") }, db')
    | (.ok _, db') => (.ret { success := false, error := some "No matching recipe found" }, db')

/-- Source: `deleteRecipe`. -/
def deleteRecipe (values : JsVal) (db : Store) : ActionResult × Store :=
  caught (deleteRecipeBody values db)

/-! ## Shopping list -/

/-- Source: the `for` loop of `addShoppingItem`: one `INSERT` per item, in order. -/
def insertItems (dayName dateStr : String) : List JsVal → Store → List Row → List Row × Store
  | [], db, results => (results, db)
  | itemName :: rest, db, results =>
    let result := db.insert .shopping_list
      [("grocery_name", itemName), ("amount", str "1 unit"), ("price_rupees", num 0),
        ("day", str dayName), ("date", str dateStr)]
    insertItems dayName dateStr rest result.2 (results ++ [result.1])

/-- The comparison `v > 0` on the value of a `length` property. -/
def isPositive : JsVal → Bool
  | .num n => n > 0
  | .bool b => b
  | .dec s => !startsWith s.data ['-']
  | .str s => (match parseIntChars s.data with
    | some n => n > 0
    | none => false)
  | _ => false

/-- Source: the single-item branch and the final error of `addShoppingItem`. -/
def addSingleItem (v : JsVal) (dayName dateStr : String) (db : Store) : Outcome × Store :=
  let singleItem := (((((v.get "item_name").orElse (v.get "name")).orElse (v.get "item")).orElse
    (v.get "grocery_name")).orElse (v.get "shopping_item")).orElse (v.get "product")
  if singleItem.truthy then
    let amount := ((v.get "quantity").orElse (v.get "amount")).orElse (str "1 unit")
    let price := ((v.get "price").orElse (v.get "price_rupees")).orElse (num 0)
    let result := db.insert .shopping_list
      [("grocery_name", singleItem), ("amount", amount), ("price_rupees", price),
        ("day", str dayName), ("date", str dateStr)]
    (.ret { success := true, action := some "added", data := obj result.1,
            message := some ("Added to shopping list: " ++ singleItem.toStr) }, result.2)
  else
    let hint := "Please tell me what item to add. Example: \"add milk to shopping list\""
    (.ret { success := false, error := some hint }, db)

/-- Source: the `try` block of `addShoppingItem`.  A string in `items` is
iterated character by character and then has no `join`; an object with a
positive `length` is not iterable. -/
def addShoppingItemBody (env : Env) (values : JsVal) (db : Store) : Outcome × Store :=
  let v := (values.get "shopping").orElse values
  let dayName := getDayName env.now
  let dateStr := formatDateLocal env.now
  let items := (v.get "items").orElse (arr [])
  match items with
  | .arr (x :: xs) =>
    let done := insertItems dayName dateStr (x :: xs) db []
    (.ret { success := true, action := some "added", data := rowsVal done.1,
            message := some ("Added " ++ toString (x :: xs).length ++
              " items to shopping list: " ++ joinWith ", " (x :: xs)) }, done.2)
  | .str s =>
    let done := insertItems dayName dateStr (s.data.map (fun c => str (String.mk [c]))) db []
    (.threw "items.join is not a function", done.2)
  | .obj fs =>
    if isPositive (JsVal.lookup "length" fs) then (.threw "items is not iterable", db)
    else addSingleItem v dayName dateStr db
  | _ => addSingleItem v dayName dateStr db

/-- Source: `addShoppingItem`. -/
def addShoppingItem (env : Env) (values : JsVal) (db : Store) : ActionResult × Store :=
  caught (addShoppingItemBody env values db)

/-- Source: the `try` block of `deleteShoppingItem`. -/
def deleteShoppingItemBody (values : JsVal) (db : Store) : Outcome × Store :=
  let v := (values.get "shopping").orElse values
  let itemName := ((v.get "item_name").orElse (v.get "name")).orElse (v.get "grocery_name")
  match deleteByIdOrName .shopping_list "grocery_name" (v.get "id") itemName db with
  | (.error msg, db') => (.threw msg, db')
  | (.ok (some (r :: rs)), db') =>
    (.ret { success := true, action := some "deleted", data := rowsVal (r :: rs),
            message := some "Removed from shopping list" }, db')
  | (.ok _, db') => (.ret { success := false, error := some "No matching item found" }, db')

/-- Source: `deleteShoppingItem`. -/
def deleteShoppingItem (values : JsVal) (db : Store) : ActionResult × Store :=
  caught (deleteShoppingItemBody values db)

/-- Source: the list `updates` of `updateShoppingItem`. -/
def shoppingSets (v : JsVal) : List (String × JsVal) :=
  setIf (v.get "new_name").truthy "grocery_name" (v.get "new_name") ++
  setIf (!(v.get "quantity").isUndefined || !(v.get "amount").isUndefined) "amount"
    (str ((v.get "quantity").orElse (v.get "amount")).toStr) ++
  setIf (!(v.get "price").isUndefined || !(v.get "price_rupees").isUndefined) "price_rupees"
    ((v.get "price").orElse (v.get "price_rupees"))

/-- Source: the `try` block of `updateShoppingItem`. -/
def updateShoppingItemBody (values : JsVal) (db : Store) : Outcome × Store :=
  let v := (values.get "shopping").orElse values
  let id := v.get "id"
  let searchName := (((v.get "old_name").orElse (v.get "item_name")).orElse (v.get "name")).orElse
    (v.get "grocery_name")
  if !searchName.truthy && !id.truthy then
    let hint := "Please tell me which item to update. " ++
      "Example: \"change milk to almond milk in shopping list\""
    (.ret { success := false, error := some hint }, db)
  else
    match findByIdOrName .shopping_list "grocery_name" "id" id searchName db with
    | (.error msg, db') => (.threw msg, db')
    | (.ok [], db') =>
      let msg := "Could not find \"" ++ searchName.toStr ++ "\" in shopping list"
      (.ret { success := false, error := some msg }, db')
    | (.ok (existingItem :: _), db') =>
      let updates := shoppingSets v
      if updates.length = 0 then
        (.ret { success := false,
                error := some "Please specify what to update (name, amount, or price)" }, db')
      else
        let result := db'.update .shopping_list (idIs (colGet existingItem "id"))
          (applySets updates)
        (.ret { success := true, action := some "updated", data := firstRow result.1,
                message := some "Updated shopping list item" }, result.2)

/-- Source: `updateShoppingItem`. -/
def updateShoppingItem (values : JsVal) (db : Store) : ActionResult × Store :=
  caught (updateShoppingItemBody values db)

/-! ## Wishlist -/

/-- Source: the `try` block of `addWishlistItem`. -/
def addWishlistItemBody (values : JsVal) (db : Store) : Outcome × Store :=
  let v := (values.get "wishlist").orElse values
  let item_name := ((v.get "item_name").orElse (v.get "name")).orElse (v.get "item")
  if !item_name.truthy then
    let hint := "Please tell me what to add to wishlist. " ++
      "Example: \"add running shoes to wishlist\""
    (.ret { success := false, error := some hint }, db)
  else
    let description := (v.get "description").orElse (str "")
    let category := (v.get "category").orElse null
    let estimated_price := ((v.get "estimated_price").orElse (v.get "price")).orElse null
    let priority := (v.get "priority").orElse (str "medium")
    let result := db.insert .wishlist
      [("item_name", item_name), ("description", description), ("category", category),
        ("estimated_price", estimated_price), ("priority", priority)]
    (.ret { success := true, action := some "added", data := obj result.1,
            message := some ("Added to wishlist: " ++ item_name.toStr) }, result.2)

/-- Source: `addWishlistItem`. -/
def addWishlistItem (values : JsVal) (db : Store) : ActionResult × Store :=
  caught (addWishlistItemBody values db)

/-- Source: the `try` block of `deleteWishlistItem`. -/
def deleteWishlistItemBody (values : JsVal) (db : Store) : Outcome × Store :=
  let v := (values.get "wishlist").orElse values
  let itemName := (v.get "item_name").orElse (v.get "name")
  match deleteByIdOrName .wishlist "item_name" (v.get "id") itemName db with
  | (.error msg, db') => (.threw msg, db')
  | (.ok (some (r :: rs)), db') =>
    (.ret { success := true, action := some "deleted", data := rowsVal (r :: rs),
            message := some "Removed from wishlist" }, db')
  | (.ok _, db') => (.ret { success := false, error := some "No matching item found" }, db')

/-- Source: `deleteWishlistItem`. -/
def deleteWishlistItem (values : JsVal) (db : Store) : ActionResult × Store :=
  caught (deleteWishlistItemBody values db)

/-- Source: the list `updates` of `updateWishlistItem`. -/
def wishlistSets (v : JsVal) : List (String × JsVal) :=
  setIf (v.get "new_name").truthy "item_name" (v.get "new_name") ++
  setIf (!(v.get "price").isUndefined || !(v.get "estimated_price").isUndefined)
    "estimated_price" ((v.get "price").orElse (v.get "estimated_price")) ++
  setIf (v.get "category").truthy "category" (v.get "category") ++
  setIf (v.get "priority").truthy "priority" (v.get "priority")

/-- Source: the `try` block of `updateWishlistItem`. -/
def updateWishlistItemBody (values : JsVal) (db : Store) : Outcome × Store :=
  let v := (values.get "wishlist").orElse values
  let id := v.get "id"
  let searchName := ((v.get "old_name").orElse (v.get "item_name")).orElse (v.get "name")
  if !searchName.truthy && !id.truthy then
    let hint := "Please tell me which wishlist item to update. " ++
      "Example: \"change running shoes price to 5000 in wishlist\""
    (.ret { success := false, error := some hint }, db)
  else
    match findByIdOrName .wishlist "item_name" "id" id searchName db with
    | (.error msg, db') => (.threw msg, db')
    | (.ok [], db') =>
      let msg := "Could not find \"" ++ searchName.toStr ++ "\" in wishlist"
      (.ret { success := false, error := some msg }, db')
    | (.ok (existingItem :: _), db') =>
      let updates := wishlistSets v
      if updates.length = 0 then
        let hint := "Please specify what to update (name, price, category, or priority)"
        (.ret { success := false, error := some hint }, db')
      else
        let result := db'.update .wishlist (idIs (colGet existingItem "id")) (applySets updates)
        (.ret { success := true, action := some "updated", data := firstRow result.1,
                message := some "Updated wishlist item" }, result.2)

/-- Source: `updateWishlistItem`. -/
def updateWishlistItem (values : JsVal) (db : Store) : ActionResult × Store :=
  caught (updateWishlistItemBody values db)

/-! ## The executor -/

/-- Source: `INTENTS`. -/
def INTENTS : List (String × String) :=
  [("QUERY", "query"), ("ADD", "add"), ("UPDATE", "update"), ("DELETE", "delete"),
    ("CHAT", "chat")]

/-- Source: `ENTITIES`. -/
def ENTITIES : List (String × String) :=
  [("WORKOUT", "workout"), ("DIET", "diet"), ("RECIPE", "recipe"), ("REMINDER", "reminder"),
    ("STEPS", "steps"), ("MEASUREMENT", "measurement"), ("SHOPPING", "shopping"),
    ("WISHLIST", "wishlist"), ("ANALYTICS", "analytics"), ("GENERAL", "general"),
    ("BOOK", "book"), ("ANIME", "anime")]

/-- The handlers of the executor. -/
inductive Handler where
  | addWorkout
  | deleteWorkout
  | addDietLog
  | deleteDietLog
  | addRecipe
  | updateRecipe
  | deleteRecipe
  | addSteps
  | updateSteps
  | addMeasurement
  | updateMeasurement
  | deleteMeasurement
  | addReminder
  | updateReminder
  | deleteReminder
  | addShoppingItem
  | updateShoppingItem
  | deleteShoppingItem
  | addWishlistItem
  | updateWishlistItem
  | deleteWishlistItem
  deriving DecidableEq, Repr

/-- The call `handler(values)`. -/
def Handler.run (h : Handler) (env : Env) (values : JsVal) (db : Store) : ActionResult × Store :=
  match h with
  | .addWorkout => Isha.addWorkout env values db
  | .deleteWorkout => Isha.deleteWorkout values db
  | .addDietLog => Isha.addDietLog env values db
  | .deleteDietLog => Isha.deleteDietLog env values db
  | .addRecipe => Isha.addRecipe env values db
  | .updateRecipe => Isha.updateRecipe values db
  | .deleteRecipe => Isha.deleteRecipe values db
  | .addSteps => Isha.addSteps env values db
  | .updateSteps => Isha.updateSteps env values db
  | .addMeasurement => Isha.addMeasurement values db
  | .updateMeasurement => Isha.updateMeasurement values db
  | .deleteMeasurement => Isha.deleteMeasurement values db
  | .addReminder => Isha.addReminder env values db
  | .updateReminder => Isha.updateReminder env values db
  | .deleteReminder => Isha.deleteReminder values db
  | .addShoppingItem => Isha.addShoppingItem env values db
  | .updateShoppingItem => Isha.updateShoppingItem values db
  | .deleteShoppingItem => Isha.deleteShoppingItem values db
  | .addWishlistItem => Isha.addWishlistItem values db
  | .updateWishlistItem => Isha.updateWishlistItem values db
  | .deleteWishlistItem => Isha.deleteWishlistItem values db

/-- Source: `actionMap`, keyed by entity and then by intent. -/
def actionMap : List (String × List (String × Handler)) :=
  [("workout", [("add", .addWorkout), ("update", .addWorkout), ("delete", .deleteWorkout)]),
    ("diet", [("add", .addDietLog), ("delete", .deleteDietLog)]),
    ("recipe", [("add", .addRecipe), ("update", .updateRecipe), ("delete", .deleteRecipe)]),
    ("steps", [("add", .addSteps), ("update", .updateSteps)]),
    ("measurement", [("add", .addMeasurement), ("update", .updateMeasurement),
      ("delete", .deleteMeasurement)]),
    ("reminder", [("add", .addReminder), ("update", .updateReminder),
      ("delete", .deleteReminder)]),
    ("shopping", [("add", .addShoppingItem), ("update", .updateShoppingItem),
      ("delete", .deleteShoppingItem)]),
    ("wishlist", [("add", .addWishlistItem), ("update", .updateWishlistItem),
      ("delete", .deleteWishlistItem)])]

/-- How a call of `executeAction` completes. -/
inductive Completion where
  /-- The promise resolves with an `ActionResult`. -/
  | result (r : ActionResult)
  /-- The promise resolves with a value that no handler produced. -/
  | value (v : JsVal)
  /-- The promise rejects: the call throws. -/
  | throws (msg : String)
  /-- The entity named a function inherited from `Object.prototype`; the
  second lookup then runs over that function's members, which are not
  enumerated here. -/
  | outside

/-- A run of `executeAction`: how it completes, the store it leaves, and the
handler it invoked, if any. -/
structure Execution where
  completion : Completion
  store : Store
  invoked : Option Handler

/-- The call `f(values)` where `f` is the member `prop` of `Object.prototype`,
called without a receiver. -/
def callInherited (prop : String) (values : JsVal) : Completion :=
  if prop = "constructor" then .value values
  else if prop = "toString" then .value (str "[object Undefined]")
  else if prop = "__proto__" then .throws "actionHandler is not a function"
  else if prop = "isPrototypeOf" then
    (match values with
    | .obj _ => .throws "Cannot convert undefined or null to object"
    | .arr _ => .throws "Cannot convert undefined or null to object"
    | _ => .value (bool false))
  else .throws "Cannot convert undefined or null to object"

/-- Source: the result `Unknown action: ${intent} for ${entity}`. -/
def unknownAction (intent entity : JsVal) : ActionResult :=
  { success := false,
    error := some ("Unknown action: " ++ intent.toStr ++ " for " ++ entity.toStr) }

/-- Source: the result `Unknown entity: ${entity}`. -/
def unknownEntity (entity : JsVal) : ActionResult :=
  { success := false, error := some ("Unknown entity: " ++ entity.toStr) }

/-- Source: `executeAction`. -/
def executeAction (env : Env) (intent entity details actionDetails : JsVal) (db : Store) :
    Execution :=
  let extracted := if details.isNullish then undefined else details.get "extracted_values"
  let values := (actionDetails.orElse extracted).orElse (obj [])
  if intent.isStr "query" || intent.isStr "chat" then
    { completion := .result { success := true, action := some "query",
                              message := some "No action needed for query" },
      store := db, invoked := none }
  else
    match literalGet actionMap entity.toStr with
    | .absent => { completion := .result (unknownEntity entity), store := db, invoked := none }
    | .inherited prop =>
      if prop = "__proto__" then
        -- `entityActions` is `Object.prototype`, whose own `__proto__` is `null`
        if intent.toStr = "__proto__" then
          { completion := .result (unknownAction intent entity), store := db, invoked := none }
        else if objectProtoNames.contains intent.toStr then
          { completion := callInherited intent.toStr values, store := db, invoked := none }
        else
          { completion := .result (unknownAction intent entity), store := db, invoked := none }
      else { completion := .outside, store := db, invoked := none }
    | .own entityActions =>
      match literalGet entityActions intent.toStr with
      | .absent =>
        { completion := .result (unknownAction intent entity), store := db, invoked := none }
      | .inherited prop =>
        { completion := callInherited prop values, store := db, invoked := none }
      | .own actionHandler =>
        let r := actionHandler.run env values db
        { completion := .result r.1, store := r.2, invoked := some actionHandler }

/-! ## The deterministic classifier -/

/-- An alternation of literal words under the flag `i`. -/
def reWords (ws : List String) : Re := Re.any (ws.map Re.textI)

/-- Source: the prefix `today'?s?\s+` of the "today's X" patterns. -/
def reTodays : Re :=
  Re.cat [Re.textI "today", Re.opt (Re.lit '\''), Re.opt (Re.litI 's'), Re.plus Re.space]

/-- Source: `/calorie.*(burn|burnt)|burn.*calorie|(how\s+many|what).*(burn|burnt)/i`. -/
def reCaloriesBurnt : Re :=
  Re.any [Re.cat [Re.textI "calorie", Re.star Re.dot, reWords ["burn", "burnt"]],
    Re.cat [Re.textI "burn", Re.star Re.dot, Re.textI "calorie"],
    Re.cat [Re.alt (Re.cat [Re.textI "how", Re.plus Re.space, Re.textI "many"]) (Re.textI "what"),
      Re.star Re.dot, reWords ["burn", "burnt"]]]

/-- Source: `/week\s*\d+\s*day\s*\d+|recipe|recipes|(for|to)\s+(breakfast|lunch|dinner|snack)/i`. -/
def reRecipeEntity : Re :=
  Re.any [Re.cat [Re.textI "week", Re.star Re.space, Re.plus Re.digit, Re.star Re.space,
      Re.textI "day", Re.star Re.space, Re.plus Re.digit],
    Re.textI "recipe", Re.textI "recipes",
    Re.cat [reWords ["for", "to"], Re.plus Re.space,
      reWords ["breakfast", "lunch", "dinner", "snack"]]]

/-- Source: the workout keywords, `push.?up` and `pull.?up` among them. -/
def reWorkoutEntity : Re :=
  Re.any [Re.textI "workout", Re.textI "exercise", Re.textI "gym", Re.textI "training",
    Re.textI "lift", Re.cat [Re.textI "push", Re.opt Re.dot, Re.textI "up"],
    Re.cat [Re.textI "pull", Re.opt Re.dot, Re.textI "up"], Re.textI "squat", Re.textI "bench",
    Re.textI "deadlift", Re.textI "curl"]

/-- Source: the diet keywords, `calories\s*(consumed|eaten|intake)` among them. -/
def reDietEntity : Re :=
  Re.any [Re.textI "diet", Re.textI "meal", Re.textI "food", Re.textI "eat", Re.textI "ate",
    Re.cat [Re.textI "calories", Re.star Re.space, reWords ["consumed", "eaten", "intake"]],
    Re.textI "breakfast", Re.textI "lunch", Re.textI "dinner", Re.textI "snack"]

/-- Source: the entity ladder of `fallbackClassification`. -/
def fallbackEntity (lowerMessage : String) : String :=
  if reCaloriesBurnt.test lowerMessage then "analytics"
  else if (Re.seq reTodays (reWords ["workout", "exercise"])).test lowerMessage then "workout"
  else if (Re.seq reTodays (reWords ["meal", "food", "diet"])).test lowerMessage then "diet"
  else if (Re.seq reTodays (reWords ["analytic", "calorie", "macro", "burnt", "summary",
      "stats"])).test lowerMessage then "analytics"
  else if (Re.seq reTodays (Re.textI "reminder")).test lowerMessage then "reminder"
  else if reRecipeEntity.test lowerMessage then "recipe"
  else if (reWords ["remind", "reminder", "alert", "notify"]).test lowerMessage then "reminder"
  else if reWorkoutEntity.test lowerMessage then "workout"
  else if (reWords ["analytic", "stats", "summary", "progress", "macro"]).test lowerMessage
    then "analytics"
  else if reDietEntity.test lowerMessage then "diet"
  else if (reWords ["step", "walk", "walking", "distance"]).test lowerMessage then "steps"
  else if (reWords ["weight", "height", "measure", "bmi", "body", "neck", "bicep", "forearm",
      "waist", "chest", "shoulder", "calf", "leg", "stomach"]).test lowerMessage
    then "measurement"
  else if (Re.any [Re.textI "shop", Re.textI "grocery",
      Re.cat [Re.textI "shopping", Re.opt Re.dot, Re.textI "list"]]).test lowerMessage
    then "shopping"
  else if (reWords ["wish", "wishlist"]).test lowerMessage then "wishlist"
  else if (reWords ["book", "read", "reading", "page", "chapter", "author"]).test lowerMessage
    then "book"
  else if (reWords ["anime", "manga", "watch", "episode", "season"]).test lowerMessage
    then "anime"
  else "general"

/-- Source: the intent ladder of `fallbackClassification`. -/
def fallbackIntent (lowerMessage entity : String) : String :=
  if (Re.seq reTodays (reWords ["workout", "meal", "food", "diet", "analytic", "reminder",
      "calorie", "macro"])).test lowerMessage then "query"
  else if entity = "reminder" then
    if (Re.any [Re.textI "set", Re.textI "add", Re.textI "create",
        Re.cat [Re.textI "remind", Re.star Re.space, Re.textI "me"],
        Re.cat [Re.textI "new", Re.star Re.space, Re.textI "reminder"]]).test lowerMessage
      then "add"
    else if (reWords ["update", "change", "modify", "edit", "move", "reschedule"]).test
        lowerMessage then "update"
    else if (reWords ["delete", "remove", "cancel", "clear"]).test lowerMessage then "delete"
    else if (reWords ["show", "what", "list", "get", "display"]).test lowerMessage then "query"
    else "add"
  else if (Re.seq Re.bos (reWords ["show", "what", "how many", "list", "get", "display",
      "tell me", "check"])).test lowerMessage then "query"
  else if (Re.seq Re.bos (Re.any [Re.textI "add", Re.textI "log", Re.textI "record",
      Re.textI "create",
      Re.seq (Re.textI "i ") (reWords ["did", "ate", "walked", "ran", "weigh"])])).test
      lowerMessage then "add"
  else if (Re.seq Re.bos (reWords ["update", "change", "modify", "edit", "set"])).test
      lowerMessage then "update"
  else if (Re.seq Re.bos (reWords ["delete", "remove", "cancel", "clear"])).test lowerMessage
    then "delete"
  else "chat"

/-- Source: the prefix
`(?:remind(?:er)?(?:\s+me)?(?:\s+to)?|set\s+(?:a\s+)?reminder(?:\s+to)?)`. -/
def reReminderPrefix : Re :=
  Re.alt
    (Re.cat [Re.textI "remind", Re.opt (Re.textI "er"),
      Re.opt (Re.seq (Re.plus Re.space) (Re.textI "me")),
      Re.opt (Re.seq (Re.plus Re.space) (Re.textI "to"))])
    (Re.cat [Re.textI "set", Re.plus Re.space, Re.opt (Re.seq (Re.textI "a") (Re.plus Re.space)),
      Re.textI "reminder", Re.opt (Re.seq (Re.plus Re.space) (Re.textI "to"))])

/-- Source: the prefix, `\s+(.+?)`, then `(?:\s+(?:at|on|tomorrow|today|\d))`. -/
def reReminderName : Re :=
  Re.cat [reReminderPrefix, Re.plus Re.space, Re.group 1 (Re.lazyPlus Re.dot), Re.plus Re.space,
    Re.any [Re.textI "at", Re.textI "on", Re.textI "tomorrow", Re.textI "today", Re.digit]]

/-- Source: the prefix, then `\s+(.+)`. -/
def reReminderRest : Re :=
  Re.cat [reReminderPrefix, Re.plus Re.space, Re.group 1 (Re.plus Re.dot)]

/-- Source: `/\s+(at\s+)?\d{1,2}(:\d{2})?\s*(am|pm)?$/i`. -/
def reTrailingTime : Re :=
  Re.cat [Re.plus Re.space, Re.opt (Re.seq (Re.textI "at") (Re.plus Re.space)), Re.digit,
    Re.opt Re.digit, Re.opt (Re.cat [Re.lit ':', Re.digit, Re.digit]), Re.star Re.space,
    Re.opt (reWords ["am", "pm"]), Re.eos]

/-- Source: `/\s+on\s+\d{1,2}(st|nd|rd|th)?\s+\w+$/i`. -/
def reTrailingDate : Re :=
  Re.cat [Re.plus Re.space, Re.textI "on", Re.plus Re.space, Re.digit, Re.opt Re.digit,
    Re.opt (reWords ["st", "nd", "rd", "th"]), Re.plus Re.space, Re.plus Re.word, Re.eos]

/-- Source: `/\s+(today|tomorrow)$/i`. -/
def reTrailingDay : Re := Re.cat [Re.plus Re.space, reWords ["today", "tomorrow"], Re.eos]

/-- Source: `/(?:at\s+)?(\d{1,2})(?::(\d{2}))?\s*(am|pm)/i`. -/
def reAtTime : Re :=
  Re.cat [Re.opt (Re.seq (Re.textI "at") (Re.plus Re.space)), reDay 1,
    Re.opt (Re.seq (Re.lit ':') (Re.group 2 (Re.seq Re.digit Re.digit))), Re.star Re.space,
    Re.group 3 (reWords ["am", "pm"])]

/-- Source: the alternation of month names in `dateMatch1` and `dateMatch2`. -/
def reMonthName : Re :=
  reWords ["january", "february", "march", "april", "may", "june", "july", "august",
    "september", "october", "november", "december", "jan", "feb", "mar", "apr", "jun", "jul",
    "aug", "sep", "sept", "oct", "nov", "dec"]

/-- The ordinal suffix `(?:st|nd|rd|th)?` under the flag `i`. -/
def reOrdinalI : Re := Re.opt (reWords ["st", "nd", "rd", "th"])

/-- Source: `dateMatch1`, "27th December". -/
def reDateDayFirst : Re :=
  Re.cat [reDay 1, reOrdinalI, Re.plus Re.space, Re.group 2 reMonthName]

/-- Source: `dateMatch2`, "December 27th". -/
def reDateMonthFirst : Re :=
  Re.cat [Re.group 1 reMonthName, Re.plus Re.space, reDay 2, reOrdinalI]

/-- Source: the table `months` of `fallbackClassification`. -/
def classifierMonths : List (String × Nat) :=
  [("january", 0), ("jan", 0), ("february", 1), ("feb", 1), ("march", 2), ("mar", 2),
    ("april", 3), ("apr", 3), ("may", 4), ("june", 5), ("jun", 5), ("july", 6), ("jul", 6),
    ("august", 7), ("aug", 7), ("september", 8), ("sep", 8), ("sept", 8), ("october", 9),
    ("oct", 9), ("november", 10), ("nov", 10), ("december", 11), ("dec", 11)]

/-- Source: the date of a day and month in `fallbackClassification`: this
year, or next year when the date is before now; nothing for an unknown month. -/
def classifierDate (now : JsDate) (monthStr : String) (day : Nat) : List (String × JsVal) :=
  match literalGet classifierMonths monthStr with
  | .absent => []
  | .inherited _ => [("date", str (formatDateLocal? none))]
  | .own month =>
    let year := now.getFullYear
    let targetDate := dateOfYMD year month day
    let targetDate := if targetDate.before now then targetDate.setFullYear (year + 1)
      else targetDate
    [("date", str (formatDateLocal targetDate))]

/-- Source: the reminder name found by `fallbackClassification`. -/
def fallbackReminderName (lowerMessage : String) : List (String × JsVal) :=
  match reReminderName.search lowerMessage with
  | some m => [("reminder_name", str (trim ((m.group 1).getD "")))]
  | none =>
    match reReminderRest.search lowerMessage with
    | none => []
    | some m =>
      let name := trim ((m.group 1).getD "")
      let name := reTrailingTime.replaceFirst name ""
      let name := reTrailingDate.replaceFirst name ""
      let name := reTrailingDay.replaceFirst name ""
      [("reminder_name", str (trim name))]

/-- Source: the reminder time found by `fallbackClassification`. -/
def fallbackReminderTime (lowerMessage : String) : List (String × JsVal) :=
  match reAtTime.search lowerMessage with
  | none => []
  | some m =>
    let hours := digitsToNat ((m.group 1).getD "").data
    let minutes := (m.group 2).getD "00"
    let ampm := lower ((m.group 3).getD "")
    let hours := if ampm = "pm" && hours != 12 then hours + 12 else hours
    let hours := if ampm = "am" && hours == 12 then 0 else hours
    [("reminder_time", str (pad2 (toString hours) ++ ":" ++ minutes))]

/-- Source: the reminder date found by `fallbackClassification`. -/
def fallbackReminderDate (env : Env) (lowerMessage : String) : List (String × JsVal) :=
  match reDateDayFirst.search lowerMessage with
  | some m =>
    classifierDate env.now (lower ((m.group 2).getD "")) (digitsToNat ((m.group 1).getD "").data)
  | none =>
    match reDateMonthFirst.search lowerMessage with
    | some m =>
      classifierDate env.now (lower ((m.group 1).getD ""))
        (digitsToNat ((m.group 2).getD "").data)
    | none =>
      if (Re.textI "tomorrow").test lowerMessage then
        [("date", str (formatDateLocal (env.now.addDays 1)))]
      else if (Re.textI "today").test lowerMessage then
        [("date", str (formatDateLocal env.now))]
      else []

/-- Drop the zeros at the end. -/
def dropZerosEnd (cs : List Char) : List Char :=
  (cs.reverse.dropWhile (fun c => c == '0')).reverse

/-- The function `parseFloat` on a text of the shape `\d+(\.\d+)?`. -/
def parseDecimal (s : String) : JsVal :=
  let whole := digitsToNat (s.data.takeWhile Char.isDigit)
  let frac := dropZerosEnd ((s.data.dropWhile Char.isDigit).drop 1)
  if frac.isEmpty then num whole else dec (toString whole ++ "." ++ String.mk frac)

/-- Source: `measurementParts`. -/
def measurementParts : List String :=
  ["weight", "height", "neck", "chest", "waist", "stomach", "shoulder", "left bicep",
    "right bicep", "left forearm", "right forearm", "left leg", "right leg", "left calf",
    "right calf", "leftbicep", "rightbicep"]

/-- Source: `/\d+(\.\d+)?/g`. -/
def reNumber : Re :=
  Re.cat [Re.plus Re.digit, Re.opt (Re.seq (Re.lit '.') (Re.plus Re.digit))]

/-- Source: the numbers that `fallbackClassification` extracts for steps and
measurements. -/
def fallbackNumbers (lowerMessage entity : String) : List (String × JsVal) :=
  match reNumber.matchAll lowerMessage with
  | some (first :: _) =>
    if entity = "reminder" then []
    else if entity = "steps" then
      [("steps", num (digitsToNumber (leadingDigits first.data)))]
    else if entity = "measurement" then
      match measurementParts.find? (fun part => includes lowerMessage part) with
      | some part =>
        [("name", str (String.mk (dropFirstSpace part.data))), ("value", parseDecimal first)]
      | none => [("weight", parseDecimal first)]
    else []
  | _ => []
where
  /-- The method `part.replace(' ', '_')`. -/
  dropFirstSpace : List Char → List Char
    | [] => []
    | c :: r => if c == ' ' then '_' :: r else c :: dropFirstSpace r

/-- A confidence: a score computed by the program, or whatever the model wrote. -/
inductive Confidence where
  | score (q : Rat)
  | model (v : JsVal)

/-- The properties of a classification object that the program reads. -/
structure Classification where
  intent : JsVal
  entity : JsVal
  details : JsVal
  confidence : Confidence
  method : JsVal := undefined
  fallback : JsVal := undefined

/-- Source: the object `details` built by the classifier. -/
def detailsOf (extracted timeReference : JsVal) (message : String) : JsVal :=
  obj [("extracted_values", extracted), ("time_reference", timeReference),
    ("original_query", str message)]

/-- Source: `fallbackClassification`. -/
def fallbackClassification (env : Env) (message : String) : Classification :=
  let lowerMessage := lower message
  let entity := fallbackEntity lowerMessage
  let intent := fallbackIntent lowerMessage entity
  let reminderValues : List (String × JsVal) :=
    if entity = "reminder" then
      fallbackReminderName lowerMessage ++ fallbackReminderTime lowerMessage ++
        fallbackReminderDate env lowerMessage
    else []
  let extractedValues := reminderValues ++ fallbackNumbers lowerMessage entity
  { intent := str intent, entity := str entity,
    details := detailsOf (obj extractedValues) null message,
    confidence := .score (3 / 5), fallback := bool true }

/-! ## The regular-expression extractor -/

/-- Source: the workout pattern of `extractValuesWithRegex`:
`(?:add|log|record|did)\s+(?:(\d+)\s+sets?\s+(?:of\s+)?(\d+)\s+(?:reps?\s+)?)?(.+?)`
followed by `(?:\s+(?:with|at|for|on|today|yesterday)|\s*$)`. -/
def reWorkoutName : Re :=
  Re.cat [reWords ["add", "log", "record", "did"], Re.plus Re.space,
    Re.opt (Re.cat [Re.group 1 (Re.plus Re.digit), Re.plus Re.space, Re.textI "set",
      Re.opt (Re.litI 's'), Re.plus Re.space, Re.opt (Re.seq (Re.textI "of") (Re.plus Re.space)),
      Re.group 2 (Re.plus Re.digit), Re.plus Re.space,
      Re.opt (Re.cat [Re.textI "rep", Re.opt (Re.litI 's'), Re.plus Re.space])]),
    Re.group 3 (Re.lazyPlus Re.dot),
    Re.alt (Re.seq (Re.plus Re.space) (reWords ["with", "at", "for", "on", "today", "yesterday"]))
      (Re.seq (Re.star Re.space) Re.eos)]

/-- Source: `/(\d+)\s*(?:kg|lbs?|pounds?)/i`. -/
def reWeight : Re :=
  Re.cat [Re.group 1 (Re.plus Re.digit), Re.star Re.space,
    Re.any [Re.textI "kg", Re.seq (Re.textI "lb") (Re.opt (Re.litI 's')),
      Re.seq (Re.textI "pound") (Re.opt (Re.litI 's'))]]

/-- Source: `/(\d+)\s*steps?/i`. -/
def reSteps : Re :=
  Re.cat [Re.group 1 (Re.plus Re.digit), Re.star Re.space, Re.textI "step", Re.opt (Re.litI 's')]

/-- Source: `/(?:at\s+)?(\d{1,2})\s*(?::(\d{2}))?\s*(am|pm)?/i`. -/
def reLooseTime : Re :=
  Re.cat [Re.opt (Re.seq (Re.textI "at") (Re.plus Re.space)), reDay 1, Re.star Re.space,
    Re.opt (Re.seq (Re.lit ':') (Re.group 2 (Re.seq Re.digit Re.digit))), Re.star Re.space,
    Re.opt (Re.group 3 (reWords ["am", "pm"]))]

/-- Source: `/add\s+(.+?)\s+(?:to\s+)?(?:shopping|grocery)/i`. -/
def reShoppingItems : Re :=
  Re.cat [Re.textI "add", Re.plus Re.space, Re.group 1 (Re.lazyPlus Re.dot), Re.plus Re.space,
    Re.opt (Re.seq (Re.textI "to") (Re.plus Re.space)), reWords ["shopping", "grocery"]]

/-- Source: the separator `/,|\s+and\s+/`. -/
def reItemSeparator : Re :=
  Re.alt (Re.lit ',') (Re.cat [Re.plus Re.space, Re.text "and", Re.plus Re.space])

/-- Source: `/add\s+(.+?)\s+(?:to\s+)?wishlist/i`. -/
def reWishItem : Re :=
  Re.cat [Re.textI "add", Re.plus Re.space, Re.group 1 (Re.lazyPlus Re.dot), Re.plus Re.space,
    Re.opt (Re.seq (Re.textI "to") (Re.plus Re.space)), Re.textI "wishlist"]

/-- Source: `/(?:for|at|price)?\s*(?:₹|\$|rs\.?)?\s*(\d+)/i`. -/
def rePrice : Re :=
  Re.cat [Re.opt (reWords ["for", "at", "price"]), Re.star Re.space,
    Re.opt (Re.any [Re.lit '₹', Re.lit '$', Re.seq (Re.textI "rs") (Re.opt (Re.lit '.'))]),
    Re.star Re.space, Re.group 1 (Re.plus Re.digit)]

/-- Source: `/(?:set|update|change|my)\s+(.+?)\s+(?:to|is|=)\s+(\d+)/i`. -/
def reMeasure : Re :=
  Re.cat [reWords ["set", "update", "change", "my"], Re.plus Re.space,
    Re.group 1 (Re.lazyPlus Re.dot), Re.plus Re.space, reWords ["to", "is", "="],
    Re.plus Re.space, Re.group 2 (Re.plus Re.digit)]

/-- Source: `/add\s+(.+?)\s+(?:for|to)\s+(breakfast|lunch|dinner|snack)/i`. -/
def reRecipeFor : Re :=
  Re.cat [Re.textI "add", Re.plus Re.space, Re.group 1 (Re.lazyPlus Re.dot), Re.plus Re.space,
    reWords ["for", "to"], Re.plus Re.space,
    Re.group 2 (reWords ["breakfast", "lunch", "dinner", "snack"])]

/-- The number read by `parseInt` from a captured group. -/
def groupInt (m : ReMatch) (i : Nat) : JsVal :=
  num (digitsToNumber (leadingDigits ((m.group i).getD "").data))

/-- A field set when the pattern matches. -/
def fieldOf (re : Re) (s : String) (f : ReMatch → List (String × JsVal)) :
    List (String × JsVal) :=
  match re.search s with
  | some m => f m
  | none => []

/-- Source: the `case 'diet'` of `extractValuesWithRegex`. -/
def dietValues (lowerMessage : String) : List (String × JsVal) :=
  let mealTypes : List JsVal :=
    (if (Re.textI "breakfast").test lowerMessage then [str "Breakfast"] else []) ++
    (if (Re.textI "lunch").test lowerMessage then [str "Lunch"] else []) ++
    (if (Re.textI "dinner").test lowerMessage then [str "Dinner"] else []) ++
    (if (Re.textI "snack").test lowerMessage then [str "Snack"] else [])
  match mealTypes with
  | [] => []
  | [one] =>
    [("meal_type", one),
      ("action", if (reWords ["didn't", "didn't", "skip", "remove"]).test lowerMessage
        then str "unmark_eaten" else str "mark_eaten")]
  | many => [("meal_types", arr many), ("action", str "mark_eaten")]

/-- Source: `extractValuesWithRegex`. -/
def extractValuesWithRegex (message entity : String) : JsVal :=
  let lowerMessage := lower message
  if entity = "workout" then
    obj (fieldOf reWorkoutName message (fun m =>
        (if (m.group 1).isSome then [("sets", groupInt m 1)] else []) ++
        (if (m.group 2).isSome then [("reps", groupInt m 2)] else []) ++
        [("workout_name", str (trim ((m.group 3).getD "")))]) ++
      fieldOf reWeight message (fun m => [("weights", groupInt m 1)]))
  else if entity = "steps" then
    obj (fieldOf reSteps message (fun m => [("steps", groupInt m 1)]))
  else if entity = "reminder" then
    obj (fieldOf reLooseTime message (fun m =>
        let hours := digitsToNat ((m.group 1).getD "").data
        let minutes := digitsToNat ((m.group 2).getD "0").data
        let ampm := (m.group 3).map lower
        let hours := if ampm = some "pm" && hours < 12 then hours + 12 else hours
        let hours := if ampm = some "am" && hours == 12 then 0 else hours
        [("reminder_time", str (pad2 (toString hours) ++ ":" ++ pad2 (toString minutes)))]) ++
      fieldOf reReminderName message (fun m =>
        [("reminder_name", str (trim ((m.group 1).getD "")))]))
  else if entity = "shopping" then
    obj (fieldOf reShoppingItems message (fun m =>
      let itemsStr := (m.group 1).getD ""
      if includes itemsStr "," || includes itemsStr " and " then
        [("items", arr (((reItemSeparator.split itemsStr).map trim).filter (· != "")
          |>.map str))]
      else [("item_name", str (trim itemsStr))]))
  else if entity = "wishlist" then
    obj (fieldOf reWishItem message (fun m => [("item_name", str (trim ((m.group 1).getD "")))]) ++
      fieldOf rePrice message (fun m => [("price", groupInt m 1)]))
  else if entity = "measurement" then
    obj (fieldOf reMeasure message (fun m =>
      [("name", str (lower ((Re.plus Re.space).replaceAll (trim ((m.group 1).getD "")) "_"))),
        ("value", groupInt m 2)]))
  else if entity = "diet" then obj (dietValues lowerMessage)
  else if entity = "recipe" then
    obj (fieldOf reRecipeFor message (fun m =>
        [("food_name", str (trim ((m.group 1).getD ""))),
          ("meal_type", str (capitalize (lower ((m.group 2).getD ""))))]) ++
      fieldOf (Re.cat [Re.textI "week", Re.star Re.space, Re.group 1 (Re.plus Re.digit)]) message
        (fun m => [("week", groupInt m 1)]) ++
      fieldOf (Re.cat [Re.textI "day", Re.star Re.space, Re.group 1 (Re.plus Re.digit)]) message
        (fun m => [("day", str ("Day " ++ (m.group 1).getD ""))]))
  else obj []

/-! ## The classification cascade -/

/-- A match of the vector tier. -/
structure SemanticMatch where
  intent : String
  entity : String
  confidence : Rat

/-- What the upstream services do during one call of `classifyIntent`. -/
structure Upstream where
  /-- The value of `isReady()`. -/
  ready : Bool
  /-- The value of `findBestMatch(message, 0.65)`; `none` is `null`. -/
  best : Option SemanticMatch
  /-- The model call of `extractValuesWithLLM`: its response, or what it throws. -/
  extractChat : Except String JsVal
  /-- The model call of `classifyIntent`: its response, or what it throws. -/
  classifyChat : Except String JsVal
  /-- The function `JSON.parse`. -/
  jsonParse : JsVal → Except String JsVal

/-- The property read `v.k`, which throws when `v` is `null` or `undefined`. -/
def member (v : JsVal) (k : String) : Except String JsVal :=
  if v.isNullish then .error ("Cannot read properties of " ++ v.toStr) else .ok (v.get k)

/-- The expression `JSON.parse(response.message.content)`. -/
def parseContent (up : Upstream) (response : Except String JsVal) : Except String JsVal :=
  match response with
  | .error e => .error e
  | .ok r =>
    match member r "message" with
    | .error e => .error e
    | .ok msg =>
      match member msg "content" with
      | .error e => .error e
      | .ok content => up.jsonParse content

/-- Source: `extractValuesWithLLM`. -/
def extractValuesWithLLM (up : Upstream) : Except String JsVal := parseContent up up.extractChat

/-- The method call `v.toUpperCase()`; `none` when `v` has no such method. -/
def toUpperCase : JsVal → Option String
  | .str s => some (upper s)
  | _ => none

/-- Is the value read from an object literal truthy? -/
def Looked.truthy {α : Type} : Looked α → Bool
  | .own _ => true
  | .inherited _ => true
  | .absent => false

/-- Source: the validation of the model's classification, `hasValidIntent`
and `hasValidEntity`; `.error` when an operand throws. -/
def validAnswer (classification : JsVal) : Except String Bool :=
  match member classification "intent" with
  | .error e => .error e
  | .ok intent =>
    let entity := classification.get "entity"
    let hasValidEntity := entity.truthy &&
      (match entity with
      | .str e => (ENTITIES.map Prod.snd).contains e
      | _ => false)
    if intent.truthy then
      match toUpperCase intent with
      | none => .error "classification.intent.toUpperCase is not a function"
      | some u => .ok ((literalGet INTENTS u).truthy && hasValidEntity)
    else .ok false

/-- The classification object of the model as the program reads it, after
`classification.method = 'llm'`. -/
def llmClassification (classification : JsVal) : Classification :=
  { intent := classification.get "intent", entity := classification.get "entity",
    details := classification.get "details",
    confidence := .model (classification.get "confidence"), method := str "llm",
    fallback := classification.get "fallback" }

/-- Source: step 1 of `classifyIntent`, the vector tier; `none` when control
falls through to step 2. -/
def semanticTier (up : Upstream) (message : String) : Option Classification :=
  if up.ready then
    match up.best with
    | none => none
    | some semanticMatch =>
      if semanticMatch.confidence ≥ 65 / 100 then
        if ["add", "update", "delete"].contains semanticMatch.intent then
          match extractValuesWithLLM up with
          | .ok (.null) | .ok (.undefined) | .error _ =>
            some { intent := str semanticMatch.intent, entity := str semanticMatch.entity,
                   details := detailsOf (extractValuesWithRegex message semanticMatch.entity)
                     null message,
                   confidence := .score semanticMatch.confidence,
                   method := str "semantic+regex" }
          | .ok extractedValues =>
            some { intent := str semanticMatch.intent, entity := str semanticMatch.entity,
                   details := detailsOf extractedValues
                     (((extractedValues.get "date").orElse
                       (extractedValues.get "time_reference")).orElse null) message,
                   confidence := .score semanticMatch.confidence, method := str "semantic+llm" }
        else
          some { intent := str semanticMatch.intent, entity := str semanticMatch.entity,
                 details := detailsOf (obj []) null message,
                 confidence := .score semanticMatch.confidence, method := str "semantic" }
      else none
  else none

/-- Source: step 2 of `classifyIntent`, the generative tier, inside the `try`
block: `.error` when a step throws. -/
def generativeTier (up : Upstream) (env : Env) (message : String) :
    Except String Classification :=
  match parseContent up up.classifyChat with
  | .error e => .error e
  | .ok classification =>
    match validAnswer classification with
    | .error e => .error e
    | .ok false => .ok (fallbackClassification env message)
    | .ok true => .ok (llmClassification classification)

/-- Source: `classifyIntent`: the `try` block, and the `catch` clause that
returns `fallbackClassification(message)`.  `.error` would be an exception
that leaves the function. -/
def classifyIntent (up : Upstream) (env : Env) (message : String) :
    Except String Classification :=
  match semanticTier up message with
  | some c => .ok c
  | none =>
    match generativeTier up env message with
    | .ok c => .ok c
    | .error _ => .ok (fallbackClassification env message)

/-! ## The extractor of the chat controller -/

/-- The optional `(my\s+)?`. -/
def reMy : Re := Re.opt (Re.seq (Re.textI "my") (Re.plus Re.space))

/-- The alternation `(shopping\s*list|wishlist|cart|list)`. -/
def reListNames : List Re :=
  [Re.cat [Re.textI "shopping", Re.star Re.space, Re.textI "list"], Re.textI "wishlist",
    Re.textI "cart", Re.textI "list"]

/-- Source: `removePatterns` of `fallbackExtraction` in `aiController.js`, in
the order of the array:
`/^(please\s+)?(add|delete|remove|clear)\s+/i`,
`/\s+(from\s+)?(my\s+)?(workout|workouts|shopping\s*list|wishlist|cart|list)$/i`,
`/\s+to\s+(my\s+)?(shopping\s*list|wishlist|cart|list)$/i`,
`/\s+in\s+(my\s+)?(shopping\s*list|wishlist|cart|list)$/i`,
`/^(can you\s+)?put\s+/i` and `/^i\s+(want|need)\s+(to\s+)?(add\s+)?/i`. -/
def removePatterns : List Re :=
  [Re.cat [Re.bos, Re.opt (Re.seq (Re.textI "please") (Re.plus Re.space)),
      reWords ["add", "delete", "remove", "clear"], Re.plus Re.space],
    Re.cat [Re.plus Re.space, Re.opt (Re.seq (Re.textI "from") (Re.plus Re.space)), reMy,
      Re.any ([Re.textI "workout", Re.textI "workouts"] ++ reListNames), Re.eos],
    Re.cat [Re.plus Re.space, Re.textI "to", Re.plus Re.space, reMy, Re.any reListNames, Re.eos],
    Re.cat [Re.plus Re.space, Re.textI "in", Re.plus Re.space, reMy, Re.any reListNames, Re.eos],
    Re.cat [Re.bos, Re.opt (Re.seq (Re.textI "can you") (Re.plus Re.space)), Re.textI "put",
      Re.plus Re.space],
    Re.cat [Re.bos, Re.litI 'i', Re.plus Re.space, reWords ["want", "need"], Re.plus Re.space,
      Re.opt (Re.seq (Re.textI "to") (Re.plus Re.space)),
      Re.opt (Re.seq (Re.textI "add") (Re.plus Re.space))]]

/-- Source: the text `cleaned` of `fallbackExtraction`: each pattern removed
once, in order, then `trim`. -/
def cleanedOf (userMessage : String) : String :=
  trim (removePatterns.foldl (fun cleaned pattern => pattern.replaceFirst cleaned "") userMessage)

/-- Source: the separator `/\s*(?:,|and|&)\s*/i`. -/
def reMultiSeparator : Re :=
  Re.cat [Re.star Re.space, Re.any [Re.lit ',', Re.textI "and", Re.lit '&'], Re.star Re.space]

/-- Source: the list `multiItems` of `fallbackExtraction`. -/
def multiItemsOf (cleaned : String) : List String :=
  (reMultiSeparator.split cleaned).filter (fun item => (trim item).length > 0)

/-- The operand chain `s || t` on two texts. -/
def textOr (s t : String) : String := if s = "" then t else s

/-- Source: `/(\d{1,2})\s*(am|pm)|(\d{1,2}):(\d{2})/i`. -/
def reControllerTime : Re :=
  Re.alt (Re.cat [reDay 1, Re.star Re.space, Re.group 2 (reWords ["am", "pm"])])
    (Re.cat [reDay 3, Re.lit ':', Re.group 4 (Re.seq Re.digit Re.digit)])

/-- Source: `/\s*(at\s+)?\d{1,2}(:\d{2})?\s*(am|pm)?/gi`. -/
def reControllerTimeText : Re :=
  Re.cat [Re.star Re.space, Re.opt (Re.seq (Re.textI "at") (Re.plus Re.space)), Re.digit,
    Re.opt Re.digit, Re.opt (Re.cat [Re.lit ':', Re.digit, Re.digit]), Re.star Re.space,
    Re.opt (reWords ["am", "pm"])]

/-- Source: the value `time` of the `case 'reminder'` of `fallbackExtraction`. -/
def controllerTime (message : String) : JsVal :=
  match reControllerTime.search message with
  | none => null
  | some timeMatch =>
    match timeMatch.group 1, timeMatch.group 2, timeMatch.group 3, timeMatch.group 4 with
    | some h, some ampm, _, _ =>
      let hour := digitsToNat h.data
      let hour := if lower ampm = "pm" && hour < 12 then hour + 12 else hour
      let hour := if lower ampm = "am" && hour == 12 then 0 else hour
      str (pad2 (toString hour) ++ ":00")
    | _, _, some h, some m => str (pad2 h ++ ":" ++ m)
    | _, _, _, _ => null

/-- Source: `measurementParts` of `fallbackExtraction`. -/
def controllerMeasurementParts : List String :=
  ["weight", "height", "neck", "chest", "waist", "stomach", "shoulder", "left bicep",
    "right bicep", "left forearm", "right forearm", "left leg", "right leg", "left calf",
    "right calf", "bench", "bench press", "overhead press", "ohp", "rows", "row", "squats",
    "squat", "deadlift"]

/-- Source: `/(?:for|to)\s+(breakfast|lunch|dinner|snack)/i`. -/
def reMealFor : Re :=
  Re.cat [reWords ["for", "to"], Re.plus Re.space,
    Re.group 1 (reWords ["breakfast", "lunch", "dinner", "snack"])]

/-- Source: `/week\s*(\d+)/i`. -/
def reWeek : Re := Re.cat [Re.textI "week", Re.star Re.space, Re.group 1 (Re.plus Re.digit)]

/-- Source: `/day\s*(\d+)/i`. -/
def reDayNumber : Re := Re.cat [Re.textI "day", Re.star Re.space, Re.group 1 (Re.plus Re.digit)]

/-- Source: the `case 'recipe'` of `fallbackExtraction`. -/
def controllerRecipe (message cleaned : String) : JsVal :=
  let foodName := reWeek.replaceAll cleaned ""
  let foodName := reDayNumber.replaceAll foodName ""
  let foodName := reMealFor.replaceAll foodName ""
  let foodName := (Re.seq (Re.textI "on") (Re.plus Re.space)).replaceAll foodName ""
  let foodName := (Re.cat [Re.textI "to", Re.plus Re.space, Re.textI "recipe",
    Re.opt (Re.litI 's')]).replaceAll foodName ""
  let foodName := trim foodName
  obj [("food_name", str (textOr foodName "Recipe")),
    ("week", match reWeek.search message with
      | some weekMatch => groupInt weekMatch 1
      | none => num 1),
    ("day", match reDayNumber.search message with
      | some dayMatch => str ("Day " ++ (dayMatch.group 1).getD "")
      | none => str "Day 1"),
    ("meal_type", match reMealFor.search message with
      | some mealMatch => str (capitalize (lower ((mealMatch.group 1).getD "")))
      | none => str "Snack")]

/-- Source: `fallbackExtraction` in `aiController.js`. -/
def fallbackExtraction (userMessage : String) (classification : Classification) : JsVal :=
  let message := lower userMessage
  let cleaned := cleanedOf userMessage
  let multiItems := multiItemsOf cleaned
  match classification.entity with
  | .str "shopping" =>
    if multiItems.length > 1 then obj [("items", arr (multiItems.map (fun i => str (trim i))))]
    else obj [("item_name", str (textOr cleaned userMessage))]
  | .str "wishlist" => obj [("item_name", str (textOr cleaned userMessage))]
  | .str "reminder" =>
    let reminderName := trim (reControllerTimeText.replaceAll cleaned "")
    obj [("reminder_name", str (textOr reminderName cleaned)),
      ("reminder_time", controllerTime message)]
  | .str "workout" => obj [("workout_name", str (textOr cleaned "Workout"))]
  | .str "diet" => obj [("food_name", str (textOr cleaned "Food"))]
  | .str "recipe" => controllerRecipe message cleaned
  | .str "measurement" =>
    obj [("name", match controllerMeasurementParts.find? (fun part => includes message part) with
        | some part => str (String.mk (fallbackNumbers.dropFirstSpace part.data))
        | none => null),
      ("value", match reNumber.search message with
        | some valueMatch => parseDecimal (String.mk valueMatch.matched)
        | none => null)]
  | _ => obj [("name", str cleaned)]

/-! ## The recipe calendar -/

/-- Source: the column `day_of_month` that the queries of `foodRecipeModel.js`
compute: `(week - 1) * 7 + CASE day WHEN 'Day 1' THEN 1 ... ELSE 1 END`. -/
def recipeDayOfMonth (week : Int) (day : String) : Int :=
  (week - 1) * 7 +
    (if day = "Day 1" then 1 else if day = "Day 2" then 2 else if day = "Day 3" then 3
      else if day = "Day 4" then 4 else if day = "Day 5" then 5 else if day = "Day 6" then 6
      else if day = "Day 7" then 7 else if day = "Monday" then 1 else if day = "Tuesday" then 2
      else if day = "Wednesday" then 3 else if day = "Thursday" then 4
      else if day = "Friday" then 5 else if day = "Saturday" then 6
      else if day = "Sunday" then 7 else 1)

/-! ## The intent corpus -/

/-- An exemplar of the corpus: a text with its intent and entity. -/
structure CorpusItem where
  text : String
  intent : String
  entity : String
  deriving DecidableEq, Repr

/-- Source: the section WORKOUT of `INTENT_CORPUS`. -/
def workoutExemplars : List CorpusItem :=
  [⟨"add push ups", "add", "workout"⟩,
    ⟨"add squats to my workout", "add", "workout"⟩,
    ⟨"log bench press", "add", "workout"⟩,
    ⟨"i did 3 sets of 10 push ups", "add", "workout"⟩,
    ⟨"add deadlift with 100kg", "add", "workout"⟩,
    ⟨"record my workout", "add", "workout"⟩,
    ⟨"add pull ups for today", "add", "workout"⟩,
    ⟨"i completed 5 sets of curls", "add", "workout"⟩,
    ⟨"log 4 sets of 12 reps shoulder press", "add", "workout"⟩,
    ⟨"show my workouts", "query", "workout"⟩,
    ⟨"what workouts did I do today", "query", "workout"⟩,
    ⟨"list my exercises", "query", "workout"⟩,
    ⟨"today's workouts", "query", "workout"⟩,
    ⟨"show today's workout", "query", "workout"⟩,
    ⟨"what exercises have I done", "query", "workout"⟩,
    ⟨"delete squats from workout", "delete", "workout"⟩,
    ⟨"remove bench press", "delete", "workout"⟩,
    ⟨"cancel my push ups workout", "delete", "workout"⟩]

/-- Source: the section DIET of `INTENT_CORPUS`. -/
def dietExemplars : List CorpusItem :=
  [⟨"i had breakfast", "add", "diet"⟩,
    ⟨"i ate lunch", "add", "diet"⟩,
    ⟨"had dinner today", "add", "diet"⟩,
    ⟨"mark breakfast as eaten", "add", "diet"⟩,
    ⟨"i finished my snack", "add", "diet"⟩,
    ⟨"i had lunch and dinner", "add", "diet"⟩,
    ⟨"ate breakfast lunch and snack", "add", "diet"⟩,
    ⟨"what did i eat today", "query", "diet"⟩,
    ⟨"show my meals", "query", "diet"⟩,
    ⟨"today's meals", "query", "diet"⟩,
    ⟨"list my food log", "query", "diet"⟩,
    ⟨"how many calories did i consume", "query", "diet"⟩,
    ⟨"calories eaten today", "query", "diet"⟩,
    ⟨"what meals have i had", "query", "diet"⟩,
    ⟨"i didn't have breakfast", "delete", "diet"⟩,
    ⟨"remove lunch from today", "delete", "diet"⟩,
    ⟨"unmark dinner", "delete", "diet"⟩]

/-- Source: the section RECIPE of `INTENT_CORPUS`. -/
def recipeExemplars : List CorpusItem :=
  [⟨"add oatmeal for breakfast week 1 day 1", "add", "recipe"⟩,
    ⟨"add chicken salad for lunch week 2 day 3", "add", "recipe"⟩,
    ⟨"add eggs to lunch week 1 day 1", "add", "recipe"⟩,
    ⟨"add pasta to dinner week 1 day 5", "add", "recipe"⟩,
    ⟨"add protein shake for snack", "add", "recipe"⟩,
    ⟨"add grilled fish to recipes", "add", "recipe"⟩,
    ⟨"create a new recipe for breakfast", "add", "recipe"⟩,
    ⟨"show my recipes", "query", "recipe"⟩,
    ⟨"what's for lunch today", "query", "recipe"⟩,
    ⟨"show meal plan", "query", "recipe"⟩,
    ⟨"list my food recipes", "query", "recipe"⟩,
    ⟨"delete the oatmeal recipe", "delete", "recipe"⟩,
    ⟨"remove pasta from recipes", "delete", "recipe"⟩]

/-- Source: the section STEPS of `INTENT_CORPUS`. -/
def stepsExemplars : List CorpusItem :=
  [⟨"add 5000 steps", "add", "steps"⟩,
    ⟨"log 8000 steps today", "add", "steps"⟩,
    ⟨"i walked 10000 steps", "add", "steps"⟩,
    ⟨"record 6500 steps", "add", "steps"⟩,
    ⟨"add my steps for today", "add", "steps"⟩,
    ⟨"show my steps", "query", "steps"⟩,
    ⟨"how many steps today", "query", "steps"⟩,
    ⟨"step count", "query", "steps"⟩,
    ⟨"how far did i walk", "query", "steps"⟩,
    ⟨"delete today's steps", "delete", "steps"⟩,
    ⟨"clear step count", "delete", "steps"⟩]

/-- Source: the section MEASUREMENT of `INTENT_CORPUS`. -/
def measurementExemplars : List CorpusItem :=
  [⟨"set my weight to 70kg", "update", "measurement"⟩,
    ⟨"update height to 175cm", "update", "measurement"⟩,
    ⟨"my weight is 72 kilos", "add", "measurement"⟩,
    ⟨"add chest measurement 40 inches", "add", "measurement"⟩,
    ⟨"set waist to 32", "update", "measurement"⟩,
    ⟨"update left bicep to 14 inches", "update", "measurement"⟩,
    ⟨"my neck is 15", "add", "measurement"⟩,
    ⟨"set bench press to 80kg", "update", "measurement"⟩,
    ⟨"change shoulder to 48", "update", "measurement"⟩,
    ⟨"show my measurements", "query", "measurement"⟩,
    ⟨"what's my weight", "query", "measurement"⟩,
    ⟨"show my bmi", "query", "measurement"⟩,
    ⟨"list my body stats", "query", "measurement"⟩,
    ⟨"clear neck measurement", "delete", "measurement"⟩,
    ⟨"delete waist", "delete", "measurement"⟩]

/-- Source: the section REMINDER of `INTENT_CORPUS`. -/
def reminderExemplars : List CorpusItem :=
  [⟨"remind me to drink water at 3pm", "add", "reminder"⟩,
    ⟨"set a reminder for gym tomorrow at 6am", "add", "reminder"⟩,
    ⟨"remind me to take vitamins at 8am", "add", "reminder"⟩,
    ⟨"create a reminder to buy groceries", "add", "reminder"⟩,
    ⟨"set reminder for workout at 5pm", "add", "reminder"⟩,
    ⟨"remind me about meeting at 10am", "add", "reminder"⟩,
    ⟨"show my reminders", "query", "reminder"⟩,
    ⟨"what reminders do i have", "query", "reminder"⟩,
    ⟨"list today's reminders", "query", "reminder"⟩,
    ⟨"today's reminders", "query", "reminder"⟩,
    ⟨"change gym reminder to 7pm", "update", "reminder"⟩,
    ⟨"move water reminder to 4pm", "update", "reminder"⟩,
    ⟨"update reminder time", "update", "reminder"⟩,
    ⟨"reschedule my reminder", "update", "reminder"⟩,
    ⟨"turn off gym reminder", "update", "reminder"⟩,
    ⟨"disable water reminder", "update", "reminder"⟩,
    ⟨"enable gym reminder", "update", "reminder"⟩,
    ⟨"delete gym reminder", "delete", "reminder"⟩,
    ⟨"remove water reminder", "delete", "reminder"⟩,
    ⟨"cancel my reminder", "delete", "reminder"⟩]

/-- Source: the section SHOPPING of `INTENT_CORPUS`. -/
def shoppingExemplars : List CorpusItem :=
  [⟨"add milk to shopping list", "add", "shopping"⟩,
    ⟨"add eggs bread butter to shopping", "add", "shopping"⟩,
    ⟨"put rice on my grocery list", "add", "shopping"⟩,
    ⟨"i need to buy vegetables", "add", "shopping"⟩,
    ⟨"add fruits to shopping", "add", "shopping"⟩,
    ⟨"show shopping list", "query", "shopping"⟩,
    ⟨"what's on my grocery list", "query", "shopping"⟩,
    ⟨"list items to buy", "query", "shopping"⟩,
    ⟨"change milk to almond milk in shopping", "update", "shopping"⟩,
    ⟨"update bread quantity to 2", "update", "shopping"⟩,
    ⟨"remove milk from shopping list", "delete", "shopping"⟩,
    ⟨"delete eggs from grocery", "delete", "shopping"⟩]

/-- Source: the section WISHLIST of `INTENT_CORPUS`. -/
def wishlistExemplars : List CorpusItem :=
  [⟨"add running shoes to wishlist", "add", "wishlist"⟩,
    ⟨"add iphone to my wishlist for 80000", "add", "wishlist"⟩,
    ⟨"i want to buy a laptop", "add", "wishlist"⟩,
    ⟨"add headphones to wishlist", "add", "wishlist"⟩,
    ⟨"show my wishlist", "query", "wishlist"⟩,
    ⟨"what's on my wishlist", "query", "wishlist"⟩,
    ⟨"list wishlist items", "query", "wishlist"⟩,
    ⟨"change iphone price to 90000", "update", "wishlist"⟩,
    ⟨"set laptop priority to high", "update", "wishlist"⟩,
    ⟨"update running shoes price", "update", "wishlist"⟩,
    ⟨"remove laptop from wishlist", "delete", "wishlist"⟩,
    ⟨"delete headphones from wishlist", "delete", "wishlist"⟩]

/-- Source: the section ANALYTICS of `INTENT_CORPUS`. -/
def analyticsExemplars : List CorpusItem :=
  [⟨"how many calories did i burn", "query", "analytics"⟩,
    ⟨"calories burnt today", "query", "analytics"⟩,
    ⟨"show my calorie burn", "query", "analytics"⟩,
    ⟨"what's my calorie expenditure", "query", "analytics"⟩,
    ⟨"how much did i burn from exercise", "query", "analytics"⟩,
    ⟨"today's analytics", "query", "analytics"⟩,
    ⟨"show my progress", "query", "analytics"⟩,
    ⟨"what are my stats", "query", "analytics"⟩,
    ⟨"show today's summary", "query", "analytics"⟩,
    ⟨"what are my macros today", "query", "analytics"⟩,
    ⟨"daily summary", "query", "analytics"⟩,
    ⟨"net calories today", "query", "analytics"⟩,
    ⟨"calorie balance", "query", "analytics"⟩]

/-- Source: the section GENERAL/CHAT of `INTENT_CORPUS`. -/
def generalExemplars : List CorpusItem :=
  [⟨"hello", "chat", "general"⟩,
    ⟨"hi there", "chat", "general"⟩,
    ⟨"hey isha", "chat", "general"⟩,
    ⟨"how are you", "chat", "general"⟩,
    ⟨"what can you do", "chat", "general"⟩,
    ⟨"help me", "chat", "general"⟩,
    ⟨"thank you", "chat", "general"⟩,
    ⟨"thanks", "chat", "general"⟩,
    ⟨"good morning", "chat", "general"⟩,
    ⟨"good night", "chat", "general"⟩]

/-- Source: `INTENT_CORPUS` of `embeddingService.js`, section after section. -/
def INTENT_CORPUS : List CorpusItem :=
  workoutExemplars ++ dietExemplars ++ recipeExemplars ++ stepsExemplars ++
    measurementExemplars ++ reminderExemplars ++ shoppingExemplars ++ wishlistExemplars ++
    analyticsExemplars ++ generalExemplars

/-- Source: the measurement names of the schema in the extraction prompt of
`aiController.js`. -/
def schemaMeasurementNames : List String :=
  ["weight", "height", "neck", "chest", "waist", "stomach", "shoulder", "left_bicep",
    "right_bicep", "left_forearm", "right_forearm", "left_leg", "right_leg", "left_calf",
    "right_calf", "bench", "overhead_press", "ohp", "rows", "squats", "deadlift"]

/-! ## The vector index -/

/-- An entry of `corpusEmbeddings`: an exemplar with its embedding. -/
structure Embedded where
  item : CorpusItem
  embedding : List Rat

/-- The services behind the index: `getEmbedding(text)`, which returns a
vector or throws, and `Math.sqrt`, taken as an exact function. -/
structure Embedder where
  getEmbedding : String → Except String (List Rat)
  sqrt : Rat → Rat

/-- Source: the `for` loop of `cosineSimilarity`: the sums `dotProduct`,
`normA` and `normB` over the indices of `vecA`. -/
def cosineSums (vecA vecB : List Rat) : Rat × Rat × Rat :=
  (vecA.zip vecB).foldl
    (fun s p => (s.1 + p.1 * p.2, s.2.1 + p.1 * p.1, s.2.2 + p.2 * p.2)) (0, 0, 0)

/-- Source: `cosineSimilarity`, over exact numbers.  `none` is `NaN`: `vecB`
is shorter than `vecA` (a product with `undefined`), or the denominator is
zero (under the exact square root the dot product is then zero as well). -/
def cosineSimilarity (sqrt : Rat → Rat) (vecA vecB : List Rat) : Option Rat :=
  if vecB.length < vecA.length then none
  else
    let sums := cosineSums vecA vecB
    let denominator := sqrt sums.2.1 * sqrt sums.2.2
    if denominator = 0 then none else some (sums.1 / denominator)

/-- What a promise of `initializeEmbeddings` has come to. -/
inductive Settled where
  | pending
  | fulfilled (value : Bool)
  deriving DecidableEq, Repr

/-- A run of the asynchronous body of `initializeEmbeddings`: its loop
variable `i` and its promise. -/
structure Build where
  next : Nat
  promise : Settled

/-- The module variables of `embeddingService.js`, and the runs of the build
started so far (the variable `initializationPromise` names one of them). -/
structure IndexState where
  corpusEmbeddings : Option (List Embedded)
  isInitialized : Bool
  initializationPromise : Option Nat
  builds : List Build

/-- The state of the module when it is loaded. -/
def IndexState.initial : IndexState :=
  { corpusEmbeddings := none, isInitialized := false, initializationPromise := none,
    builds := [] }

/-- What a call of `initializeEmbeddings` returns: the value `true`, or the
promise of a build. -/
inductive Returned where
  | value (b : Bool)
  | promise (build : Nat)
  deriving DecidableEq, Repr

/-- Source: `initializeEmbeddings` over the corpus `corpus`: the two early
returns, and otherwise the start of the asynchronous body, which runs up to
its first `await` before the promise is stored (to its end when the corpus is
empty). -/
def initializeOver (corpus : List CorpusItem) (st : IndexState) : Returned × IndexState :=
  if st.isInitialized then (.value true, st)
  else
    match st.initializationPromise with
    | some p => (.promise p, st)
    | none =>
      let id := st.builds.length
      match corpus with
      | [] =>
        (.promise id,
          { corpusEmbeddings := some [], isInitialized := true, initializationPromise := some id,
            builds := st.builds ++ [{ next := 0, promise := .fulfilled true }] })
      | _ :: _ =>
        (.promise id,
          { corpusEmbeddings := some [], isInitialized := st.isInitialized,
            initializationPromise := some id,
            builds := st.builds ++ [{ next := 0, promise := .pending }] })

/-- Source: `initializeEmbeddings`. -/
def initializeEmbeddings (st : IndexState) : Returned × IndexState :=
  initializeOver INTENT_CORPUS st

/-- Source: the body of `initializeEmbeddings` from one `await` to the next:
build `k` receives the outcome `r` of its pending `getEmbedding`, pushes the
entry and goes on, or finishes, or fails in the `catch` clause. -/
def resumeOver (corpus : List CorpusItem) (st : IndexState) (k : Nat)
    (r : Except String (List Rat)) : IndexState :=
  match st.builds[k]? with
  | some { next := i, promise := .pending } =>
    match r, corpus[i]?, st.corpusEmbeddings with
    | .ok embedding, some item, some entries =>
      if i + 1 < corpus.length then
        { st with corpusEmbeddings := some (entries ++ [{ item := item, embedding := embedding }]),
                  builds := st.builds.set k { next := i + 1, promise := .pending } }
      else
        { st with corpusEmbeddings := some (entries ++ [{ item := item, embedding := embedding }]),
                  isInitialized := true,
                  builds := st.builds.set k { next := i + 1, promise := .fulfilled true } }
    | _, _, _ =>
      { st with isInitialized := false,
                builds := st.builds.set k { next := i, promise := .fulfilled false } }
  | _ => st

/-- What happens to the module: a call of `initializeEmbeddings`, or the
outcome of the `getEmbedding` that build `k` awaits. -/
inductive IndexEvent where
  | call
  | embedded (k : Nat) (r : Except String (List Rat))

/-- One event on the module state, the corpus being `corpus`. -/
def stepOver (corpus : List CorpusItem) (st : IndexState) : IndexEvent → IndexState
  | .call => (initializeOver corpus st).2
  | .embedded k r => resumeOver corpus st k r

/-- A sequence of events from a state, the corpus being `corpus`. -/
def runOver (corpus : List CorpusItem) (st : IndexState) (events : List IndexEvent) :
    IndexState :=
  events.foldl (stepOver corpus) st

/-- A sequence of events on the module. -/
def IndexState.run (st : IndexState) (events : List IndexEvent) : IndexState :=
  runOver INTENT_CORPUS st events

/-- The result of `findBestMatch`. -/
structure BestMatch where
  intent : String
  entity : String
  similarity : Rat
  matchedText : String
  confidence : Rat

/-- Source: the `for` loop of `findBestMatch`, carrying `bestMatch` and
`bestSimilarity`; a comparison with `NaN` is false. -/
def bestLoop (sqrt : Rat → Rat) (queryEmbedding : List Rat) :
    List Embedded → Option Embedded × Rat → Option Embedded × Rat
  | [], best => best
  | item :: rest, best =>
    match cosineSimilarity sqrt queryEmbedding item.embedding with
    | some similarity =>
      if similarity > best.2 then bestLoop sqrt queryEmbedding rest (some item, similarity)
      else bestLoop sqrt queryEmbedding rest best
    | none => bestLoop sqrt queryEmbedding rest best

/-- Source: `findBestMatch`; `none` is `null`. -/
def findBestMatch (svc : Embedder) (st : IndexState) (query : String) (threshold : Rat) :
    Option BestMatch :=
  if !st.isInitialized then none
  else
    match st.corpusEmbeddings with
    | none => none
    | some entries =>
      match svc.getEmbedding (lower query) with
      | .error _ => none
      | .ok queryEmbedding =>
        let best := bestLoop svc.sqrt queryEmbedding entries (none, -1)
        match best.1 with
        | some bestMatch =>
          if best.2 ≥ threshold then
            some { intent := bestMatch.item.intent, entity := bestMatch.item.entity,
                   similarity := best.2, matchedText := bestMatch.item.text,
                   confidence := best.2 }
          else none
        | none => none

/-- Source: `isReady`. -/
def isReady (st : IndexState) : Bool := st.isInitialized

/-! ## The model calls of a request -/

/-- A call of `ollama.chat`, named by the prompt it carries: the classification
prompt of `classifyIntent`, or an extraction prompt, that of
`extractValuesWithLLM` or that of `extractActionDetails`. -/
inductive ModelCall where
  | classifier
  | extractor
  deriving DecidableEq, Repr

/-- Source: `classifyIntent`: the calls of `ollama.chat` that it issues, in
order.  The vector tier calls `extractValuesWithLLM` for a match whose intent
is add, update or delete and nothing for another match; step 2 calls the
model with the classification prompt. -/
def classifyIntentCalls (up : Upstream) : List ModelCall :=
  if up.ready then
    match up.best with
    | none => [.classifier]
    | some semanticMatch =>
      if semanticMatch.confidence ≥ 65 / 100 then
        if ["add", "update", "delete"].contains semanticMatch.intent then [.extractor] else []
      else [.classifier]
  else [.classifier]

/-- Source: the constant `hasFallbackValues` of `handleChat`. -/
def hasFallbackValues (classification : Classification) (actionDetails : JsVal) : Bool :=
  classification.fallback.truthy &&
    ((classification.entity.isStr "reminder" && (actionDetails.get "reminder_name").truthy) ||
      (classification.entity.isStr "shopping" &&
        ((actionDetails.get "item_name").truthy || (actionDetails.get "items").truthy)) ||
      (classification.entity.isStr "wishlist" && (actionDetails.get "item_name").truthy) ||
      (classification.entity.isStr "workout" && (actionDetails.get "workout_name").truthy) ||
      (classification.entity.isStr "steps" && (actionDetails.get "steps").truthy) ||
      (classification.entity.isStr "measurement" && (actionDetails.get "name").truthy) ||
      (classification.entity.isStr "recipe" && (actionDetails.get "food_name").truthy))

/-- A request of `handleChat` and what surrounds the classification. -/
structure ChatRequest where
  /-- The member `message` of the request body. -/
  message : JsVal
  /-- The value of `isAdamQuestion(message) || isCreatorQuestion(message) ||
  isIdentityQuestion(message)`: one of the three fixed answers is sent. -/
  fixedAnswer : Bool
  /-- Does `buildContext(classification)` return?  When it throws, the `catch`
  clause of `handleChat` answers with status 500. -/
  contextBuilt : Bool

/-- Source: step 3 of `handleChat` up to the call of `executeAction`: the
calls of `ollama.chat` issued for the action details.  `extractActionDetails`
issues one call, whatever the model then answers. -/
def actionDetailCalls (classification : Classification) : List ModelCall :=
  if classification.intent.isStr "add" || classification.intent.isStr "update" ||
      classification.intent.isStr "delete" then
    let actionDetails :=
      (if classification.details.isNullish then undefined
        else classification.details.get "extracted_values").orElse (obj [])
    if hasFallbackValues classification actionDetails then [] else [.extractor]
  else []

/-- Source: `handleChat`, from the check of the message to the call of
`executeAction`: the calls of `ollama.chat` with a classification or an
extraction prompt, in order. -/
def handleChatCalls (up : Upstream) (env : Env) (req : ChatRequest) : List ModelCall :=
  match req.message with
  | .str message =>
    if message = "" then []
    else if req.fixedAnswer then []
    else
      match classifyIntent up env message with
      | .error _ => classifyIntentCalls up
      | .ok classification =>
        classifyIntentCalls up ++
          (if req.contextBuilt then actionDetailCalls classification else [])
  | _ => []

/-! ## Vocabulary of the statements -/

/-- The values a handler accepts as identification of what it acts on: the
name synonyms it reads, the `id` where it takes one, and for `deleteDietLog`
the meal type of an `unmark_eaten` action.  (`addDietLog` and `addMeasurement`
demand none.) -/
def Handler.identity (h : Handler) (values : JsVal) : List JsVal :=
  match h with
  | .addWorkout => [values.get "workout_name", values.get "name"]
  | .deleteWorkout => [values.get "id", values.get "name", values.get "workout_name"]
  | .addDietLog => []
  | .deleteDietLog =>
    [values.get "id", values.get "food_name", values.get "name",
      if (values.get "action").isStr "unmark_eaten" then values.get "meal_type" else undefined]
  | .addRecipe =>
    [values.get "food_name", values.get "name", values.get "recipe_name",
      (values.get "recipe").get "food_name"]
  | .updateRecipe => [values.get "food_name", values.get "name", values.get "recipe_name"]
  | .deleteRecipe =>
    [values.get "id", values.get "food_name", values.get "name", values.get "recipe_name"]
  | .addSteps => [values.get "steps", values.get "count", values.get "step"]
  | .updateSteps => [values.get "steps", values.get "count"]
  | .addMeasurement => []
  | .updateMeasurement => [values.get "name", values.get "measurement_name"]
  | .deleteMeasurement => [values.get "name", values.get "measurement_name"]
  | .addReminder => [values.get "reminder_name", values.get "title", values.get "name"]
  | .updateReminder =>
    [values.get "id", values.get "reminder_name", values.get "title", values.get "name"]
  | .deleteReminder =>
    [values.get "id", values.get "reminder_name", values.get "title", values.get "name"]
  | .addShoppingItem =>
    let v := (values.get "shopping").orElse values
    [v.get "items", v.get "item_name", v.get "name", v.get "item", v.get "grocery_name",
      v.get "shopping_item", v.get "product"]
  | .deleteShoppingItem =>
    let v := (values.get "shopping").orElse values
    [v.get "id", v.get "item_name", v.get "name", v.get "grocery_name"]
  | .updateShoppingItem =>
    let v := (values.get "shopping").orElse values
    [v.get "id", v.get "old_name", v.get "item_name", v.get "name", v.get "grocery_name"]
  | .addWishlistItem =>
    let v := (values.get "wishlist").orElse values
    [v.get "item_name", v.get "name", v.get "item"]
  | .deleteWishlistItem =>
    let v := (values.get "wishlist").orElse values
    [v.get "id", v.get "item_name", v.get "name"]
  | .updateWishlistItem =>
    let v := (values.get "wishlist").orElse values
    [v.get "id", v.get "old_name", v.get "item_name", v.get "name"]


/-- The totals recorded for the day `dateStr`, one per row of that day. -/
def dayTotals (dateStr : String) (rows : List Row) : List JsVal :=
  (rows.filter (onDate dateStr)).map (fun r => colGet r "steps")

/-- The rows of the other days. -/
def otherDays (dateStr : String) (rows : List Row) : List Row :=
  rows.filter (fun r => !onDate dateStr r)

/-- The key of a row, when it is a number. -/
def rowId (r : Row) : Option Int :=
  match colGet r "id" with
  | .num n => some n
  | _ => none

/-- The primary-key constraint on a table: every row has a numeric `id` and no
two rows share one. -/
def keyed (rows : List Row) : Prop :=
  (∀ r ∈ rows, (rowId r).isSome = true) ∧ (rows.map rowId).Nodup

/-- Modelled on the spec's words ("case-insensitive substring match on a name
field"): the name field of the row contains the given name, letter case
aside. -/
def nameContains (col name : String) (r : Row) : Bool :=
  match colGet r col with
  | .str s => includes (lower s) (lower name)
  | _ => false

/-- An empty table. -/
def emptyTable : Table := { rows := [], nextId := 1 }

/-- An empty store. -/
def emptyStore : Store :=
  { workouts := emptyTable, diet_logs := emptyTable, steps := emptyTable,
    body_measurements := emptyTable, food_recipes := emptyTable, reminders := emptyTable,
    shopping_list := emptyTable, wishlist := emptyTable, clock := 0, log := [] }

/-- An environment for the examples: Thursday 29 February 2024, 01:00; every
`new Date(x)` is invalid. -/
def demoEnv : Env := { now := { day := 19782, ms := 3600000 }, dateCtor := fun _ => none }

/-- A store whose steps table holds 4000 steps for 29 February 2024. -/
def demoStepsStore : Store :=
  { emptyStore with
    steps := { rows := [[("id", num 1), ("day", str "Thursday"), ("steps", num 4000),
                         ("date", str "2024-02-29")]], nextId := 2 } }

/-- A store whose diet log holds the breakfast of 29 February 2024, day 1 of
week 5. -/
def demoMealStore : Store :=
  { emptyStore with
    diet_logs := { rows := [[("id", num 1), ("food_name", str "Breakfast"),
                             ("meal_type", str "Breakfast"), ("week", num 5),
                             ("day", str "Day 1"), ("calories", num 0),
                             ("recipe_id", null)]], nextId := 2 } }

/-- A store with two measurement rows, the second created later. -/
def demoMeasureStore : Store :=
  { emptyStore with
    body_measurements :=
      { rows := [[("id", num 1), ("weight", num 70), ("chest", num 38), ("created_at", num 5),
                  ("updated_at", num 5)],
                 [("id", num 2), ("weight", num 71), ("chest", num 39), ("neck", num 15),
                  ("created_at", num 9), ("updated_at", num 9)]],
        nextId := 3 },
    clock := 10 }

/-- A store with two workouts. -/
def demoWorkoutStore : Store :=
  { emptyStore with
    workouts :=
      { rows := [[("id", num 1), ("workout_name", str "Squats"), ("created_at", num 1)],
                 [("id", num 2), ("workout_name", str "Bench Press"), ("created_at", num 2)]],
        nextId := 3 },
    clock := 3 }

/-- An upstream whose vector tier is not ready and whose model answers with
the given parsed JSON value. -/
def modelAnswers (answer : JsVal) : Upstream :=
  { ready := false, best := none, extractChat := .error "not called",
    classifyChat := .ok (obj [("message", obj [("content", str "(model text)")])]),
    jsonParse := fun _ => .ok answer }

/-- An upstream with no service reachable. -/
def noUpstream : Upstream :=
  { ready := false, best := none, extractChat := .error "fetch failed",
    classifyChat := .error "fetch failed", jsonParse := fun _ => .error "Unexpected token" }

/-- The vector tier gives no match: the service is not ready, it finds
nothing, or what it finds scores below 0.65. -/
def vectorMiss (up : Upstream) : Prop :=
  up.ready = false ∨ up.best = none ∨ ∃ m, up.best = some m ∧ m.confidence < 65 / 100

/-- The generative tier fails or its answer does not pass the validation of
`classifyIntent`. -/
def generativeMiss (up : Upstream) : Prop :=
  ∀ answer, parseContent up up.classifyChat = .ok answer → validAnswer answer ≠ .ok true

/-- An environment whose current instant is Friday 15 March 2024, 10:00. -/
def marchEnv : Env := { now := { day := 19797, ms := 36000000 }, dateCtor := fun _ => none }

/-- A classification with the given entity, as `fallbackExtraction` reads it. -/
def ofEntity (entity : String) : Classification :=
  { intent := str "add", entity := str entity, details := undefined, confidence := .score 1 }

/-- The 20 column names that `measurementColumnMap` maps to; the table
`body_measurements` has the first 15 of them. -/
def measurementColumns : List String :=
  ["weight", "height", "left_bicep", "right_bicep", "left_forearm", "right_forearm", "chest",
    "neck", "waist", "stomach", "left_leg", "right_leg", "left_calf", "right_calf",
    "shoulder_width", "bench_max", "overhead_press_max", "rows_max", "squats_max",
    "deadlift_max"]

/-- Modelled on the spec: the form of a measurement name after lower-casing
and deleting every space and underscore. -/
def squashName (name : String) : String :=
  String.mk ((lower name).data.filter (fun c => c != ' ' && c != '_'))

/-- Modelled on the spec: a canonical 24-hour time, five characters "HH:MM"
with the hour from 00 to 23 and the minute from 00 to 59. -/
def isCanonicalTime (s : String) : Bool :=
  match s.data with
  | [a, b, ':', c, d] =>
    a.isDigit && b.isDigit && c.isDigit && d.isDigit && digitsToNat [a, b] ≤ 23 &&
      digitsToNat [c, d] ≤ 59
  | _ => false

/-- Does `getMeasurementColumn` resolve the name to a column of its map? -/
def resolves (name : String) : Bool :=
  match getMeasurementColumn (str name) with
  | .ok (.own _) => true
  | _ => false

/-- The name that the extractors emit for a part of their lists: the first
blank replaced by an underscore. -/
def emittedName (part : String) : String :=
  String.mk (fallbackNumbers.dropFirstSpace part.data)

/-- The body-part keywords of the measurement rule of `fallbackClassification`. -/
def bodyPartKeywords : List String :=
  ["weight", "height", "neck", "bicep", "forearm", "waist", "chest", "shoulder", "calf", "leg",
    "stomach"]

/-- The pattern of the four rules that decide the entity from "today's X". -/
def reTodaysEntity : Re :=
  Re.seq reTodays (reWords ["workout", "exercise", "meal", "food", "diet", "analytic", "calorie",
    "macro", "burnt", "summary", "stats", "reminder"])

/-- Source: the pattern of the rule that sets the intent to query,
`/today'?s?\s+(workout|meal|food|diet|analytic|reminder|calorie|macro)/i`. -/
def reTodaysIntent : Re :=
  Re.seq reTodays (reWords ["workout", "meal", "food", "diet", "analytic", "reminder", "calorie",
    "macro"])

/-- The square root on 0 and 1, where it is the identity. -/
def unitSqrt (q : Rat) : Rat := q

/-- The events of one build in which every `getEmbedding` succeeds with the
vector `embed text`. -/
def buildEvents (embed : String → List Rat) (corpus : List CorpusItem) : List IndexEvent :=
  .call :: corpus.map (fun item => IndexEvent.embedded 0 (.ok (embed item.text)))

/-- The index after one build in which every `getEmbedding` succeeded with the
vector `embed text`. -/
def builtWith (embed : String → List Rat) : IndexState :=
  IndexState.initial.run (buildEvents embed INTENT_CORPUS)

/-- The entries of an index built with `embed`. -/
def entriesWith (embed : String → List Rat) (corpus : List CorpusItem) : List Embedded :=
  corpus.map (fun item => { item := item, embedding := embed item.text })

/-- An index with one entry, whose embedding is `[-1]`. -/
def oppositeIndex : IndexState :=
  { corpusEmbeddings :=
      some [{ item := ⟨"add push ups", "add", "workout"⟩, embedding := [-1] }],
    isInitialized := true, initializationPromise := some 0,
    builds := [{ next := 1, promise := .fulfilled true }] }

/-- The state of the module is one of: no build started; one build, in
flight, with the entries of the exemplars before its loop variable; one
build, succeeded, with the entries of all exemplars; one build, failed. -/
def SingleFlight (corpus : List CorpusItem) (st : IndexState) : Prop :=
  (st.builds = [] ∧ st.initializationPromise = none ∧ st.isInitialized = false ∧
      st.corpusEmbeddings = none) ∨
    ∃ b, st.builds = [b] ∧ st.initializationPromise = some 0 ∧
      ((b.promise = .pending ∧ st.isInitialized = false ∧ b.next < corpus.length ∧
          ∃ l, st.corpusEmbeddings = some l ∧ l.map (fun e => e.item) = corpus.take b.next) ∨
        (b.promise = .fulfilled true ∧ st.isInitialized = true ∧
          ∃ l, st.corpusEmbeddings = some l ∧ l.map (fun e => e.item) = corpus) ∨
        (b.promise = .fulfilled false ∧ st.isInitialized = false))

/-- The sum of the squares of the entries of a vector. -/
def sumSquares (v : List Rat) : Rat := (v.map (fun x => x * x)).sum


/-- The vector tier matches an exemplar labelled add and steps with the score
0.9, and the model answers the extraction prompt with the steps. -/
def vectorHit : Upstream :=
  { ready := true, best := some { intent := "add", entity := "steps", confidence := 9 / 10 },
    extractChat := .ok (obj [("message", obj [("content", str "(model text)")])]),
    classifyChat := .error "not called",
    jsonParse := fun _ => .ok (obj [("steps", num 5000)]) }

/-- The vector tier matches an exemplar whose intent is add, update or delete. -/
def vectorAction (up : Upstream) : Prop :=
  up.ready = true ∧ ∃ m, up.best = some m ∧ m.confidence ≥ 65 / 100 ∧
    m.intent ∈ ["add", "update", "delete"]

/-- Does the dispatch table of `executeAction` hold a handler under the entity
and the intent? -/
def registered (entity intent : String) : Bool :=
  match ownGet actionMap entity with
  | some acts => (ownGet acts intent).isSome
  | none => false

/-- The exemplar's label asks for no action, or is the pair steps and delete,
or has a handler in the dispatch table. -/
def actionRegistered (item : CorpusItem) : Bool :=
  !(["add", "update", "delete"].contains item.intent) ||
    (item.entity == "steps" && item.intent == "delete") || registered item.entity item.intent
end Isha

/-! # Theorems -/

namespace Isha

open JsVal

/-! ## Numbers -/

theorem toDouble_exact (n : Nat) (h : n < 2 ^ 53) : toDouble n = n := by
  unfold toDouble
  rw [if_pos h]

/-- The integers `2 ^ 53 + 1` and `2 ^ 53 + 3` are no JavaScript numbers:
`parseInt` gives the even neighbour of each. -/
theorem parseInt_rounds :
    parseInt (str "9007199254740993") = some 9007199254740992 ∧
    parseInt (str "9007199254740995") = some 9007199254740996 ∧
    parseInt (str "-9007199254740993") = some (-9007199254740992) ∧
    parseInt (str "9007199254740991") = some 9007199254740991 ∧
    parseInt (str " 42abc") = some 42 := by
  refine ⟨by rfl, by rfl, by rfl, by rfl, by rfl⟩

/-! ## Rows and tables -/

theorem colGet_colSet_same (r : Row) (c : String) (v : JsVal) :
    colGet (colSet r c v) c = v := by
  induction r with
  | nil => simp [colSet, colGet]
  | cons p rest ih =>
    obtain ⟨c', w⟩ := p
    by_cases h : c' = c
    · simp [colSet, colGet, h]
    · simp [colSet, colGet, h, ih]

theorem colGet_colSet_ne (r : Row) (c d : String) (v : JsVal) (h : c ≠ d) :
    colGet (colSet r c v) d = colGet r d := by
  induction r with
  | nil => simp [colSet, colGet, h]
  | cons p rest ih =>
    obtain ⟨c', w⟩ := p
    by_cases h1 : c' = c
    · subst h1
      simp [colSet, colGet, h]
    · by_cases h2 : c' = d
      · subst h2
        simp [colSet, colGet, h1]
      · simp [colSet, colGet, h1, h2, ih]

@[simp] theorem table_tick (db : Store) (op : Op) (t u : Tbl) :
    (db.tick op t).table u = db.table u := by
  cases u <;> rfl

@[simp] theorem table_setTable_same (db : Store) (t : Tbl) (x : Table) :
    (db.setTable t x).table t = x := by
  cases t <;> rfl

theorem table_setTable_ne (db : Store) (t u : Tbl) (x : Table) (h : t ≠ u) :
    (db.setTable t x).table u = db.table u := by
  cases t <;> cases u <;> first | rfl | exact absurd rfl h

@[simp] theorem select_fst (db : Store) (t : Tbl) (p : Row → Bool) :
    (db.select t p).1 = (db.table t).rows.filter p := rfl

@[simp] theorem select_snd (db : Store) (t : Tbl) (p : Row → Bool) :
    (db.select t p).2 = db.tick .select t := rfl

@[simp] theorem update_fst (db : Store) (t : Tbl) (p : Row → Bool) (f : Row → Row) :
    (db.update t p f).1 = ((db.table t).rows.filter p).map f := rfl

@[simp] theorem update_snd (db : Store) (t : Tbl) (p : Row → Bool) (f : Row → Row) :
    (db.update t p f).2 = (db.setTable t { db.table t with
      rows := (db.table t).rows.map (fun r => if p r then f r else r) }).tick .update t := rfl

@[simp] theorem insert_fst (db : Store) (t : Tbl) (cols : Row) :
    (db.insert t cols).1 = newRow t (db.table t).nextId db.clock cols := rfl

@[simp] theorem insert_snd (db : Store) (t : Tbl) (cols : Row) :
    (db.insert t cols).2 = (db.setTable t { rows := (db.table t).rows ++
      [newRow t (db.table t).nextId db.clock cols], nextId := (db.table t).nextId + 1 }).tick
      .insert t := rfl

@[simp] theorem delete_fst (db : Store) (t : Tbl) (p : Row → Bool) :
    (db.delete t p).1 = (db.table t).rows.filter p := rfl

@[simp] theorem delete_snd (db : Store) (t : Tbl) (p : Row → Bool) :
    (db.delete t p).2 = (db.setTable t { db.table t with
      rows := (db.table t).rows.filter (fun r => !p r) }).tick .delete t := rfl

@[simp] theorem tick_clock (db : Store) (op : Op) (t : Tbl) :
    (db.tick op t).clock = db.clock + 1 := rfl

@[simp] theorem tick_log (db : Store) (op : Op) (t : Tbl) :
    (db.tick op t).log = db.log ++ [(op, t)] := rfl

@[simp] theorem caught_ret (r : ActionResult) (db : Store) :
    caught (.ret r, db) = (r, db) := rfl

@[simp] theorem caught_threw (msg : String) (db : Store) :
    caught (.threw msg, db) = ({ success := false, error := some msg }, db) := rfl

theorem caught_snd (o : Outcome × Store) : (caught o).2 = o.2 := by
  obtain ⟨r, db⟩ := o
  cases r <;> rfl

theorem orElse_self (a : JsVal) : a.orElse a = a := by
  unfold JsVal.orElse
  split <;> rfl

/-! ## Steps -/

theorem onDate_colSet_steps (key : String) (r : Row) (v : JsVal) :
    onDate key (colSet r "steps" v) = onDate key r := by
  unfold onDate
  rw [colGet_colSet_ne r "steps" "date" v (by decide)]

theorem dayTotals_set (key : String) (g : Row → JsVal) (rows : List Row) :
    dayTotals key (rows.map (fun r => if onDate key r then colSet r "steps" (g r) else r)) =
      (rows.filter (onDate key)).map g := by
  unfold dayTotals
  induction rows with
  | nil => rfl
  | cons r rest ih =>
    by_cases h : onDate key r = true
    · simp only [List.map_cons, h, if_true, List.filter_cons, onDate_colSet_steps,
        colGet_colSet_same]
      rw [ih]
    · simp only [List.map_cons, h, List.filter_cons, Bool.false_eq_true, if_false]
      rw [ih]

theorem otherDays_set (key : String) (g : Row → JsVal) (rows : List Row) :
    otherDays key (rows.map (fun r => if onDate key r then colSet r "steps" (g r) else r)) =
      otherDays key rows := by
  unfold otherDays
  induction rows with
  | nil => rfl
  | cons r rest ih =>
    by_cases h : onDate key r = true
    · simp only [List.map_cons, h, if_true, List.filter_cons, onDate_colSet_steps,
        Bool.not_true, Bool.false_eq_true, if_false]
      rw [ih]
    · simp only [List.map_cons, h, List.filter_cons, Bool.false_eq_true, if_false]
      rw [ih]

theorem stepsValues_steps (n : Int) (D : JsVal) :
    (obj [("steps", num n), ("date", D)]).get "steps" = num n := rfl

theorem stepsValues_date (n : Int) (D : JsVal) :
    (obj [("steps", num n), ("date", D)]).get "date" = D := rfl

theorem truthy_num_pos (n : Int) (hn : 0 < n) : (num n).truthy = true := by
  simp [truthy]; omega

theorem inInteger_iff (n : Int) :
    inInteger n = true ↔ -2147483648 ≤ n ∧ n ≤ 2147483647 := by
  simp [inInteger]

theorem inInteger_false_iff (n : Int) :
    inInteger n = false ↔ (n < -2147483648 ∨ 2147483647 < n) := by
  rw [← Bool.not_eq_true, inInteger_iff]
  omega

theorem intAdd_num (x n : Int) (h : inInteger (x + n) = true) :
    intAdd (num x) n = some (num (x + n)) := by
  simp [intAdd, h]

theorem updateTyped_ok (db : Store) (t : Tbl) (p : Row → Bool) (f : Row → Option Row)
    (msg : String) (h : ∀ r ∈ (db.table t).rows.filter p, (f r).isSome = true) :
    db.updateTyped t p f msg =
      (.ok (db.update t p (fun r => (f r).getD r)).1,
        (db.update t p (fun r => (f r).getD r)).2) := by
  unfold Store.updateTyped
  rw [if_pos (List.all_eq_true.mpr h)]

theorem updateTyped_error (db : Store) (t : Tbl) (p : Row → Bool) (f : Row → Option Row)
    (msg : String) (h : ∃ r ∈ (db.table t).rows.filter p, (f r).isSome = false) :
    db.updateTyped t p f msg = (.error msg, db.reject .update t) := by
  unfold Store.updateTyped
  rw [if_neg]
  intro hall
  obtain ⟨r, hr, hf⟩ := h
  have := List.all_eq_true.mp hall r hr
  rw [hf] at this
  exact absurd this (by decide)

theorem reject_tables (db : Store) (op op' : Op) (t t' : Tbl) (u : Tbl) :
    ((db.tick op t).reject op' t').table u = db.table u := by
  cases u <;> rfl

theorem addSteps_rows_some (env : Env) (D : JsVal) (n : Int) (db : Store) (hn : 0 < n)
    (hmax : n ≤ 2147483647) (r : Row) (rest : List Row)
    (hf : db.steps.rows.filter (onDate (formatDateLocal (parseDate env D))) = r :: rest)
    (hall : ∀ x ∈ db.steps.rows.filter (onDate (formatDateLocal (parseDate env D))),
      (intAdd (colGet x "steps") n).isSome = true) :
    (addSteps env (obj [("steps", num n), ("date", D)]) db).1.success = true ∧
    (addSteps env (obj [("steps", num n), ("date", D)]) db).2.steps.rows =
        db.steps.rows.map (fun r => if onDate (formatDateLocal (parseDate env D)) r
          then colSet r "steps" ((intAdd (colGet r "steps") n).getD null) else r) := by
  have hle : ¬ n ≤ 0 := by omega
  have ho : ∀ b, (num n).orElse b = num n := fun b => by
    simp [orElse, truthy_num_pos n (by omega)]
  have hin : inInteger n = true := (inInteger_iff n).mpr ⟨by omega, hmax⟩
  have hall' : ∀ x ∈ ((db.tick .select .steps).table .steps).rows.filter
      (onDate (formatDateLocal (parseDate env D))),
      ((intAdd (colGet x "steps") n).map (colSet x "steps")).isSome = true := by
    intro x hx
    rw [table_tick] at hx
    simpa using hall x hx
  have hbody : addStepsBody env (obj [("steps", num n), ("date", D)]) db =
      (.ret { success := true, action := some "updated",
              data := obj (((intAdd (colGet r "steps") n).map (colSet r "steps")).getD r),
              message := some ("Added " ++ toString n ++ " steps. New total: " ++
                (colGet (((intAdd (colGet r "steps") n).map (colSet r "steps")).getD r)
                  "steps").toStr) },
        ((db.tick .select .steps).update .steps (onDate (formatDateLocal (parseDate env D)))
          (fun r => ((intAdd (colGet r "steps") n).map (colSet r "steps")).getD r)).2) := by
    simp only [addStepsBody, stepsValues_steps, stepsValues_date,
      truthy_num_pos n hn, isObjectType, Bool.and_false, Bool.false_eq_true, if_false,
      ho, if_true, parseInt, Option.getD_some, hle, orElse_self, select_fst, select_snd,
      Store.table, hf, hin, Bool.not_true, List.length_cons, Nat.succ_pos, gt_iff_lt,
      Nat.zero_lt_succ]
    rw [updateTyped_ok _ _ _ _ _ hall']
    have ht : (db.tick .select .steps).steps.rows = db.steps.rows := rfl
    simp only [update_fst, table_tick, Store.table, ht, hf, List.map_cons]
  have hres : addSteps env (obj [("steps", num n), ("date", D)]) db = caught _ :=
    congrArg caught hbody
  rw [hres]
  refine ⟨rfl, ?_⟩
  simp only [caught_ret, update_snd, table_tick, Store.table, Store.tick, Store.setTable]
  apply List.map_congr_left
  intro x hx
  by_cases hp : onDate (formatDateLocal (parseDate env D)) x = true
  · simp only [hp, if_true]
    have hs := hall x (List.mem_filter.mpr ⟨hx, hp⟩)
    obtain ⟨v, hv⟩ := Option.isSome_iff_exists.mp hs
    simp [hv]
  · simp only [hp, Bool.false_eq_true, if_false]

theorem addSteps_overflow (env : Env) (D : JsVal) (n : Int) (db : Store) (hn : 0 < n)
    (hmax : n ≤ 2147483647)
    (hex : ∃ x ∈ db.steps.rows.filter (onDate (formatDateLocal (parseDate env D))),
      (intAdd (colGet x "steps") n).isSome = false) :
    (addSteps env (obj [("steps", num n), ("date", D)]) db).1.success = false ∧
    (addSteps env (obj [("steps", num n), ("date", D)]) db).1.error = some integerOverflow ∧
    (addSteps env (obj [("steps", num n), ("date", D)]) db).2.steps = db.steps := by
  have hle : ¬ n ≤ 0 := by omega
  have ho : ∀ b, (num n).orElse b = num n := fun b => by
    simp [orElse, truthy_num_pos n (by omega)]
  have hin : inInteger n = true := (inInteger_iff n).mpr ⟨by omega, hmax⟩
  obtain ⟨x, hx, hxs⟩ := hex
  have hlen : 0 < (db.steps.rows.filter (onDate (formatDateLocal (parseDate env D)))).length :=
    List.length_pos_of_mem hx
  have hex' : ∃ x ∈ ((db.tick .select .steps).table .steps).rows.filter
      (onDate (formatDateLocal (parseDate env D))),
      ((intAdd (colGet x "steps") n).map (colSet x "steps")).isSome = false := by
    refine ⟨x, ?_, ?_⟩
    · rw [table_tick]; exact hx
    · simpa using hxs
  have hbody : addStepsBody env (obj [("steps", num n), ("date", D)]) db =
      (.threw integerOverflow, (db.tick .select .steps).reject .update .steps) := by
    simp only [addStepsBody, stepsValues_steps, stepsValues_date,
      truthy_num_pos n hn, isObjectType, Bool.and_false, Bool.false_eq_true, if_false,
      ho, if_true, parseInt, Option.getD_some, hle, orElse_self, select_fst, select_snd,
      Store.table, hin, Bool.not_true, gt_iff_lt, hlen]
    rw [updateTyped_error _ _ _ _ _ hex']
  have hres : addSteps env (obj [("steps", num n), ("date", D)]) db = caught _ :=
    congrArg caught hbody
  rw [hres]
  exact ⟨rfl, rfl, rfl⟩

theorem addSteps_rows_none (env : Env) (D : JsVal) (n : Int) (db : Store) (hn : 0 < n)
    (hmax : n ≤ 2147483647)
    (hf : db.steps.rows.filter (onDate (formatDateLocal (parseDate env D))) = []) :
    (addSteps env (obj [("steps", num n), ("date", D)]) db).2.steps.rows =
        db.steps.rows ++ [newRow .steps db.steps.nextId (db.clock + 1)
          [("day", str (getDayName (parseDate env D))), ("steps", num n),
           ("date", str (formatDateLocal (parseDate env D)))]] := by
  have hle : ¬ n ≤ 0 := by omega
  have ho : ∀ b, (num n).orElse b = num n := fun b => by
    simp [orElse, truthy_num_pos n (by omega)]
  have hin : inInteger n = true := (inInteger_iff n).mpr ⟨by omega, hmax⟩
  simp only [addSteps, caught_snd, addStepsBody, stepsValues_steps, stepsValues_date,
    truthy_num_pos n hn, isObjectType, Bool.and_false, Bool.false_eq_true, if_false,
    ho, if_true, parseInt, Option.getD_some, hle, orElse_self, select_fst, select_snd,
    table_tick, Store.table, hf, hin, Bool.not_true]
  simp [Store.tick, Store.setTable, Store.table, hf]

theorem updateSteps_rows_some (env : Env) (D : JsVal) (n : Int) (db : Store) (hn : 0 < n)
    (hmax : n ≤ 2147483647) (r : Row) (rest : List Row)
    (hf : db.steps.rows.filter (onDate (formatDateLocal (parseDate env D))) = r :: rest) :
    (updateSteps env (obj [("steps", num n), ("date", D)]) db).2.steps.rows =
        db.steps.rows.map (fun r => if onDate (formatDateLocal (parseDate env D)) r
          then colSet r "steps" (num n) else r) := by
  have hle : ¬ n ≤ 0 := by omega
  have ho : ∀ b, (num n).orElse b = num n := fun b => by
    simp [orElse, truthy_num_pos n (by omega)]
  have hin : inInteger n = true := (inInteger_iff n).mpr ⟨by omega, hmax⟩
  simp only [updateSteps, caught_snd, updateStepsBody, stepsValues_steps, stepsValues_date,
    truthy_num_pos n hn, isObjectType, Bool.and_false, Bool.false_eq_true, if_false,
    ho, if_true, parseInt, Option.getD_some, hle, orElse_self, select_fst, select_snd,
    table_tick, Store.table, hf, hin, Bool.not_true]
  simp [Store.tick, Store.setTable, Store.table, hf]

theorem updateSteps_rows_none (env : Env) (D : JsVal) (n : Int) (db : Store) (hn : 0 < n)
    (hmax : n ≤ 2147483647)
    (hf : db.steps.rows.filter (onDate (formatDateLocal (parseDate env D))) = []) :
    (updateSteps env (obj [("steps", num n), ("date", D)]) db).2.steps.rows =
        db.steps.rows ++ [newRow .steps db.steps.nextId (db.clock + 1)
          [("day", str (getDayName (parseDate env D))), ("steps", num n),
           ("date", str (formatDateLocal (parseDate env D)))]] := by
  have hle : ¬ n ≤ 0 := by omega
  have ho : ∀ b, (num n).orElse b = num n := fun b => by
    simp [orElse, truthy_num_pos n (by omega)]
  have hin : inInteger n = true := (inInteger_iff n).mpr ⟨by omega, hmax⟩
  simp only [updateSteps, caught_snd, updateStepsBody, stepsValues_steps, stepsValues_date,
    truthy_num_pos n hn, isObjectType, Bool.and_false, Bool.false_eq_true, if_false,
    ho, if_true, parseInt, Option.getD_some, hle, orElse_self, select_fst, select_snd,
    table_tick, Store.table, hf, hin, Bool.not_true]
  simp [Store.tick, Store.setTable, Store.table, hf]

theorem steps_out_of_range (env : Env) (D : JsVal) (n : Int) (db : Store)
    (hn : 2147483647 < n) :
    ((addSteps env (obj [("steps", num n), ("date", D)]) db).1.success = false ∧
      (addSteps env (obj [("steps", num n), ("date", D)]) db).1.error =
        some (integerRange n) ∧
      (addSteps env (obj [("steps", num n), ("date", D)]) db).2.steps = db.steps) ∧
    ((updateSteps env (obj [("steps", num n), ("date", D)]) db).1.success = false ∧
      (updateSteps env (obj [("steps", num n), ("date", D)]) db).1.error =
        some (integerRange n) ∧
      (updateSteps env (obj [("steps", num n), ("date", D)]) db).2.steps = db.steps) := by
  have hpos : 0 < n := by omega
  have hle : ¬ n ≤ 0 := by omega
  have ho : ∀ b, (num n).orElse b = num n := fun b => by
    simp [orElse, truthy_num_pos n (by omega)]
  have hin : inInteger n = false := (inInteger_false_iff n).mpr (Or.inr hn)
  constructor
  · have hbody : ∃ op, addStepsBody env (obj [("steps", num n), ("date", D)]) db =
        (.threw (integerRange n), (db.tick .select .steps).reject op .steps) := by
      by_cases hl : 0 < (db.steps.rows.filter
          (onDate (formatDateLocal (parseDate env D)))).length
      · refine ⟨.update, ?_⟩
        simp only [addStepsBody, stepsValues_steps, stepsValues_date,
          truthy_num_pos n hpos, isObjectType, Bool.and_false, Bool.false_eq_true, if_false,
          ho, if_true, parseInt, Option.getD_some, hle, orElse_self, select_fst,
          select_snd, Store.table, hin, Bool.not_false, gt_iff_lt, hl]
      · refine ⟨.insert, ?_⟩
        simp only [addStepsBody, stepsValues_steps, stepsValues_date,
          truthy_num_pos n hpos, isObjectType, Bool.and_false, Bool.false_eq_true, if_false,
          ho, if_true, parseInt, Option.getD_some, hle, orElse_self, select_fst,
          select_snd, Store.table, hin, Bool.not_false, gt_iff_lt, hl]
    obtain ⟨op, hbody⟩ := hbody
    have hres : addSteps env (obj [("steps", num n), ("date", D)]) db = caught _ :=
      congrArg caught hbody
    rw [hres]
    exact ⟨rfl, rfl, rfl⟩
  · have hbody : ∃ op, updateStepsBody env (obj [("steps", num n), ("date", D)]) db =
        (.threw (integerRange n), (db.tick .select .steps).reject op .steps) := by
      by_cases hl : 0 < (db.steps.rows.filter
          (onDate (formatDateLocal (parseDate env D)))).length
      · refine ⟨.update, ?_⟩
        simp only [updateStepsBody, stepsValues_steps, stepsValues_date,
          truthy_num_pos n hpos, isObjectType, Bool.and_false, Bool.false_eq_true, if_false,
          ho, if_true, parseInt, Option.getD_some, hle, orElse_self, select_fst,
          select_snd, Store.table, hin, Bool.not_false, gt_iff_lt, hl]
      · refine ⟨.insert, ?_⟩
        simp only [updateStepsBody, stepsValues_steps, stepsValues_date,
          truthy_num_pos n hpos, isObjectType, Bool.and_false, Bool.false_eq_true, if_false,
          ho, if_true, parseInt, Option.getD_some, hle, orElse_self, select_fst,
          select_snd, Store.table, hin, Bool.not_false, gt_iff_lt, hl]
    obtain ⟨op, hbody⟩ := hbody
    have hres : updateSteps env (obj [("steps", num n), ("date", D)]) db = caught _ :=
      congrArg caught hbody
    rw [hres]
    exact ⟨rfl, rfl, rfl⟩

theorem onDate_newRow_steps (key day : String) (id now : Nat) (n : Int) :
    onDate key (newRow .steps id now [("day", str day), ("steps", num n), ("date", str key)])
      = true := by
  simp [onDate, newRow, colGet, toSql, sqlEq]

theorem steps_newRow_total (key day : String) (id now : Nat) (n : Int) :
    colGet (newRow .steps id now [("day", str day), ("steps", num n), ("date", str key)]) "steps"
      = num n := by
  simp [newRow, colGet, toSql]

theorem dayTotals_append_new (key day : String) (id now : Nat) (n : Int) (rows : List Row) :
    dayTotals key (rows ++ [newRow .steps id now
      [("day", str day), ("steps", num n), ("date", str key)]]) = dayTotals key rows ++ [num n] := by
  unfold dayTotals
  rw [List.filter_append, List.map_append]
  simp only [List.filter_cons, onDate_newRow_steps, if_true, List.filter_nil, List.map_cons,
    List.map_nil, steps_newRow_total]

theorem otherDays_append_new (key day : String) (id now : Nat) (n : Int) (rows : List Row) :
    otherDays key (rows ++ [newRow .steps id now
      [("day", str day), ("steps", num n), ("date", str key)]]) = otherDays key rows := by
  unfold otherDays
  rw [List.filter_append]
  simp only [List.filter_cons, onDate_newRow_steps, Bool.not_true, Bool.false_eq_true, if_false,
    List.filter_nil, List.append_nil]

theorem dayTotals_num_mem (key : String) (rows : List Row) (ts : List Int)
    (h : dayTotals key rows = ts.map num) :
    ∀ x ∈ rows.filter (onDate key), ∃ t ∈ ts, colGet x "steps" = num t := by
  intro x hx
  have hm : colGet x "steps" ∈ dayTotals key rows := List.mem_map.mpr ⟨x, hx, rfl⟩
  rw [h] at hm
  obtain ⟨t, ht, hte⟩ := List.mem_map.mp hm
  exact ⟨t, ht, hte.symm⟩

theorem dayTotals_num_mem_rev (key : String) (rows : List Row) (ts : List Int)
    (h : dayTotals key rows = ts.map num) :
    ∀ t ∈ ts, ∃ x ∈ rows.filter (onDate key), colGet x "steps" = num t := by
  intro t ht
  have hm : num t ∈ dayTotals key rows := by
    rw [h]
    exact List.mem_map.mpr ⟨t, ht, rfl⟩
  obtain ⟨x, hx, hxe⟩ := List.mem_map.mp hm
  exact ⟨x, hx, hxe⟩

/-- C1, counterexample: with 4000 steps on record for the day, `addSteps` of
2147483647 steps fails on the sum, which leaves the type `INTEGER` of the
column, and the day keeps its 4000 steps. -/
theorem steps_add_beyond_integer :
    (addSteps demoEnv (obj [("steps", num 2147483647), ("date", str "today")])
        demoStepsStore).1.success = false ∧
    (addSteps demoEnv (obj [("steps", num 2147483647), ("date", str "today")])
        demoStepsStore).1.error = some "integer out of range" ∧
    dayTotals (formatDateLocal (parseDate demoEnv (str "today")))
        (addSteps demoEnv (obj [("steps", num 2147483647), ("date", str "today")])
          demoStepsStore).2.steps.rows = [num 4000] := by
  refine ⟨by rfl, by rfl, by rfl⟩

/-- C1, amended. For every date reference `D` that resolves to a day of the
years 1000 to 275760, the last year of a JavaScript date (`formatDateLocal`
then builds the ISO text of the date), and every positive integer `n`.  When `n` is at most 2147483647, the bound of
the type `INTEGER` of the column: if the steps table holds rows for the day of
`D` with totals `t :: ts`, then `addSteps` leaves each of them at `t + n`
provided every sum lies in the type, and otherwise fails and leaves the table
as it was, whereas `updateSteps` leaves each of them at `n`, and no row is
added; if it holds no row for that day, each handler appends exactly one row,
whose total is `n`; rows of other days are untouched.  When `n` is greater
than 2147483647 both handlers fail and leave the table as it was. -/
theorem steps_add_increments_update_replaces (env : Env) (D : JsVal) (n : Int) (db : Store)
    (hn : 0 < n)
    (_hyear : 1000 ≤ (parseDate env D).getFullYear ∧ (parseDate env D).getFullYear ≤ 275760) :
    (n ≤ 2147483647 →
      (∀ t ts, dayTotals (formatDateLocal (parseDate env D)) db.steps.rows = (t :: ts).map num →
        ((∀ x ∈ t :: ts, -2147483648 ≤ x + n ∧ x + n ≤ 2147483647) →
          (addSteps env (obj [("steps", num n), ("date", D)]) db).1.success = true ∧
          dayTotals (formatDateLocal (parseDate env D))
              (addSteps env (obj [("steps", num n), ("date", D)]) db).2.steps.rows
            = (t :: ts).map (fun t => num (t + n)) ∧
          (addSteps env (obj [("steps", num n), ("date", D)]) db).2.steps.rows.length
            = db.steps.rows.length) ∧
        ((∃ x ∈ t :: ts, x + n < -2147483648 ∨ 2147483647 < x + n) →
          (addSteps env (obj [("steps", num n), ("date", D)]) db).1.success = false ∧
          (addSteps env (obj [("steps", num n), ("date", D)]) db).2.steps = db.steps) ∧
        dayTotals (formatDateLocal (parseDate env D))
            (updateSteps env (obj [("steps", num n), ("date", D)]) db).2.steps.rows
          = (t :: ts).map (fun _ => num n) ∧
        (updateSteps env (obj [("steps", num n), ("date", D)]) db).2.steps.rows.length
          = db.steps.rows.length) ∧
      (dayTotals (formatDateLocal (parseDate env D)) db.steps.rows = [] →
        (∃ row, (addSteps env (obj [("steps", num n), ("date", D)]) db).2.steps.rows
            = db.steps.rows ++ [row]) ∧
        (∃ row, (updateSteps env (obj [("steps", num n), ("date", D)]) db).2.steps.rows
            = db.steps.rows ++ [row]) ∧
        dayTotals (formatDateLocal (parseDate env D))
            (addSteps env (obj [("steps", num n), ("date", D)]) db).2.steps.rows = [num n] ∧
        dayTotals (formatDateLocal (parseDate env D))
            (updateSteps env (obj [("steps", num n), ("date", D)]) db).2.steps.rows = [num n]) ∧
      otherDays (formatDateLocal (parseDate env D))
          (addSteps env (obj [("steps", num n), ("date", D)]) db).2.steps.rows
        = otherDays (formatDateLocal (parseDate env D)) db.steps.rows ∧
      otherDays (formatDateLocal (parseDate env D))
          (updateSteps env (obj [("steps", num n), ("date", D)]) db).2.steps.rows
        = otherDays (formatDateLocal (parseDate env D)) db.steps.rows) ∧
    (2147483647 < n →
      (addSteps env (obj [("steps", num n), ("date", D)]) db).1.success = false ∧
      (addSteps env (obj [("steps", num n), ("date", D)]) db).2.steps = db.steps ∧
      (updateSteps env (obj [("steps", num n), ("date", D)]) db).1.success = false ∧
      (updateSteps env (obj [("steps", num n), ("date", D)]) db).2.steps = db.steps) := by
  refine ⟨fun hmax => ?_, fun hbig => ?_⟩
  swap
  · have h := steps_out_of_range env D n db hbig
    exact ⟨h.1.1, h.1.2.2, h.2.1, h.2.2.2⟩
  cases hf : db.steps.rows.filter (onDate (formatDateLocal (parseDate env D))) with
  | nil =>
    have hbefore : dayTotals (formatDateLocal (parseDate env D)) db.steps.rows = [] := by
      simp [dayTotals, hf]
    rw [addSteps_rows_none env D n db hn hmax hf, updateSteps_rows_none env D n db hn hmax hf]
    refine ⟨?_, ?_, ?_, ?_⟩
    · intro t ts h
      rw [hbefore] at h
      simp at h
    · intro _
      refine ⟨⟨_, rfl⟩, ⟨_, rfl⟩, ?_, ?_⟩ <;> rw [dayTotals_append_new, hbefore] <;> rfl
    · exact otherDays_append_new _ _ _ _ _ _
    · exact otherDays_append_new _ _ _ _ _ _
  | cons r rest =>
    rw [updateSteps_rows_some env D n db hn hmax r rest hf]
    refine ⟨?_, ?_, ?_, ?_⟩
    · intro t ts h
      have h' : (db.steps.rows.filter (onDate (formatDateLocal (parseDate env D)))).map
          (fun r => colGet r "steps") = (t :: ts).map num := h
      refine ⟨?_, ?_, ?_, by simp⟩
      · intro hsum
        have hall : ∀ x ∈ db.steps.rows.filter (onDate (formatDateLocal (parseDate env D))),
            (intAdd (colGet x "steps") n).isSome = true := by
          intro x hx
          obtain ⟨u, hu, hue⟩ := dayTotals_num_mem _ _ _ h x hx
          rw [hue, intAdd_num u n ((inInteger_iff _).mpr (hsum u hu))]
          rfl
        obtain ⟨hs, hrows⟩ := addSteps_rows_some env D n db hn hmax r rest hf hall
        refine ⟨hs, ?_, ?_⟩
        · rw [hrows, dayTotals_set]
          have hmap : (db.steps.rows.filter (onDate (formatDateLocal (parseDate env D)))).map
              (fun r => (intAdd (colGet r "steps") n).getD null) =
              ((db.steps.rows.filter (onDate (formatDateLocal (parseDate env D)))).map
                (fun r => colGet r "steps")).map (fun v => (intAdd v n).getD null) := by
            rw [List.map_map]
            rfl
          rw [hmap, h', List.map_map]
          apply List.map_congr_left
          intro u hu
          simp only [Function.comp]
          rw [intAdd_num u n ((inInteger_iff _).mpr (hsum u hu))]
          rfl
        · rw [hrows]
          simp
      · rintro ⟨u, hu, hbad⟩
        obtain ⟨x, hx, hxe⟩ := dayTotals_num_mem_rev _ _ _ h u hu
        have hex : ∃ x ∈ db.steps.rows.filter (onDate (formatDateLocal (parseDate env D))),
            (intAdd (colGet x "steps") n).isSome = false := by
          refine ⟨x, hx, ?_⟩
          rw [hxe]
          simp [intAdd, (inInteger_false_iff (u + n)).mpr hbad]
        have := addSteps_overflow env D n db hn hmax hex
        exact ⟨this.1, this.2.2⟩
      · rw [dayTotals_set]
        have hlen := congrArg List.length h'
        simp only [List.length_map, List.length_cons] at hlen
        simp [hlen, List.replicate_succ]
    · intro h
      simp [dayTotals, hf] at h
    · by_cases hall : ∀ x ∈ db.steps.rows.filter (onDate (formatDateLocal (parseDate env D))),
          (intAdd (colGet x "steps") n).isSome = true
      · rw [(addSteps_rows_some env D n db hn hmax r rest hf hall).2]
        exact otherDays_set _ _ _
      · have hex : ∃ x ∈ db.steps.rows.filter (onDate (formatDateLocal (parseDate env D))),
            (intAdd (colGet x "steps") n).isSome = false := by
          by_contra hno
          apply hall
          intro x hx
          by_contra hx2
          exact hno ⟨x, hx, by simpa using hx2⟩
        rw [(addSteps_overflow env D n db hn hmax hex).2.2]
    · exact otherDays_set _ _ _


/-- C1, witness: 4000 steps on record, 1000 given: 5000 after `addSteps`, 1000
after `updateSteps`. -/
theorem steps_add_increments_update_replaces_witness :
    (0 : Int) < 1000 ∧ (parseDate demoEnv (str "today")).getFullYear = 2024 ∧
    dayTotals (formatDateLocal (parseDate demoEnv (str "today")))
        (addSteps demoEnv (obj [("steps", num 1000), ("date", str "today")])
          demoStepsStore).2.steps.rows = [num 5000] ∧
    dayTotals (formatDateLocal (parseDate demoEnv (str "today")))
        (updateSteps demoEnv (obj [("steps", num 1000), ("date", str "today")])
          demoStepsStore).2.steps.rows = [num 1000] :=
  ⟨by decide, by decide,
    ((((steps_add_increments_update_replaces demoEnv (str "today") 1000 demoStepsStore
      (by decide) (by decide)).1 (by decide)).1 4000 [] rfl).1 (by decide)).2.1,
    (((steps_add_increments_update_replaces demoEnv (str "today") 1000 demoStepsStore
      (by decide) (by decide)).1 (by decide)).1 4000 [] rfl).2.2.1⟩

/-! ## Mark as eaten -/

theorem truthy_str (m : String) (hm : m ≠ "") : (str m).truthy = true := by
  simp [truthy, hm]

theorem mealKey_newRow (M : String) (w : Nat) (ds : String) (id now : Nat) (f c rid : JsVal) :
    mealKey M w ds (newRow .diet_logs id now
      [("food_name", f), ("meal_type", str M), ("week", num w), ("day", str ds),
        ("calories", c), ("recipe_id", rid)]) = true := by
  simp [mealKey, newRow, colGet, toSql, sqlEq]

theorem recipe_lookup_rejected (db : Store) (p : Row → Bool) :
    db.selectNamed .food_recipes ["day_of_month", "meal_type"] p =
      (.error (noColumn "day_of_month"), db.reject .select .food_recipes) := rfl

theorem markLoop_fresh (d : Nat) (M : String) (db : Store)
    (hfresh : db.diet_logs.rows.filter (mealKey M (weekOf d) (dayStrOf d)) = []) :
    markLoop d [M] db [] [] =
      (.error (noColumn "day_of_month"),
        (db.tick .select .diet_logs).reject .select .food_recipes) := by
  simp [markLoop, Store.table, hfresh, recipe_lookup_rejected]

theorem markLoop_logged (d : Nat) (M : String) (db : Store) (r : Row) (rest : List Row)
    (hlogged : db.diet_logs.rows.filter (mealKey M (weekOf d) (dayStrOf d)) = r :: rest) :
    markLoop d [M] db [] [] = (.ok ([], [M]), db.tick .select .diet_logs) := by
  simp [markLoop, Store.table, hlogged]

theorem markMeal_single (env : Env) (m : String) (db : Store) (hm : m ≠ "") :
    markMealAsEatenBody env (obj [("meal_type", str m)]) db =
      match markLoop env.now.getDate [mealLabel m] db [] [] with
      | (.error msg, db') => (.threw msg, db')
      | (.ok (results, alreadyLogged), db') =>
        if results.length = 0 && alreadyLogged.length > 0 then
          (.ret { success := true, action := some "skipped",
                  message := some (String.intercalate ", " alreadyLogged ++
                    " already marked as eaten ✓") }, db')
        else
          (.ret { success := true, action := some "added", data := rowsVal results,
                  message := some (if alreadyLogged.length > 0
                    then "Marked " ++ joinWith ", " (results.map (fun r => colGet r "meal_type"))
                      ++ " as eaten! 🍽️" ++ " (" ++ String.intercalate ", " alreadyLogged ++
                      " was already logged)"
                    else "Marked " ++ joinWith ", " (results.map (fun r => colGet r "meal_type"))
                      ++ " as eaten! 🍽️") }, db') := by
  have h1 : (obj [("meal_type", str m)]).get "meal_types" = undefined := rfl
  have h2 : (obj [("meal_type", str m)]).get "meal_type" = str m := rfl
  simp only [markMealAsEatenBody, h1, h2, truthy_str m hm, if_true,
    List.length_cons, List.length_nil, normalizeMeals, normalizeMeal]
  simp

/-- For every non-empty meal type `m` and every store with no diet log under
today's key for it, `markMealAsEaten` fails on the lookup of the recipe: it
returns `success: false` with the error of the server for the missing column,
and the tables are as they were. -/
theorem mark_meal_unlogged_fails (env : Env) (m : String) (db : Store) (hm : m ≠ "")
    (hfresh : db.diet_logs.rows.filter
      (mealKey (mealLabel m) (weekOf env.now.getDate) (dayStrOf env.now.getDate)) = []) :
    (markMealAsEaten env (obj [("meal_type", str m)]) db).1.success = false ∧
    (markMealAsEaten env (obj [("meal_type", str m)]) db).1.error =
      some (noColumn "day_of_month") ∧
    (markMealAsEaten env (obj [("meal_type", str m)]) db).2.diet_logs = db.diet_logs ∧
    (markMealAsEaten env (obj [("meal_type", str m)]) db).2.log =
      db.log ++ [(.select, .diet_logs), (.select, .food_recipes)] := by
  have hres : markMealAsEaten env (obj [("meal_type", str m)]) db = caught _ :=
    congrArg caught (markMeal_single env m db hm)
  rw [hres, markLoop_fresh _ _ _ hfresh]
  refine ⟨rfl, rfl, rfl, ?_⟩
  simp [Store.reject, Store.tick]

/-- For every non-empty meal type `m` and every store that holds a diet log
under today's key for it, `markMealAsEaten` inserts nothing and returns
success with the action `skipped`. -/
theorem mark_meal_logged_skips (env : Env) (m : String) (db : Store) (hm : m ≠ "")
    (r : Row) (rest : List Row)
    (hlogged : db.diet_logs.rows.filter
      (mealKey (mealLabel m) (weekOf env.now.getDate) (dayStrOf env.now.getDate)) = r :: rest) :
    (markMealAsEaten env (obj [("meal_type", str m)]) db).1.success = true ∧
    (markMealAsEaten env (obj [("meal_type", str m)]) db).1.action = some "skipped" ∧
    (markMealAsEaten env (obj [("meal_type", str m)]) db).2.diet_logs = db.diet_logs := by
  have hres : markMealAsEaten env (obj [("meal_type", str m)]) db = caught _ :=
    congrArg caught (markMeal_single env m db hm)
  rw [hres, markLoop_logged _ _ _ r rest hlogged]
  exact ⟨rfl, rfl, rfl⟩

/-- C2, failing input: the table `food_recipes` has no column `day_of_month`,
so the first call of `markMealAsEaten` for "Breakfast" on a store without a
diet log fails on the lookup of the recipe and inserts nothing; a second call
finds the store as it was and fails in the same way.  With a log on record the
call is skipped, as the claim says. -/
theorem mark_meal_first_call_fails :
    "day_of_month" ∉ columns .food_recipes ∧
    (markMealAsEaten demoEnv (obj [("meal_type", str "Breakfast")]) emptyStore).1.success
      = false ∧
    (markMealAsEaten demoEnv (obj [("meal_type", str "Breakfast")]) emptyStore).1.error
      = some "column \"day_of_month\" does not exist" ∧
    (markMealAsEaten demoEnv (obj [("meal_type", str "Breakfast")])
      emptyStore).2.diet_logs.rows = [] ∧
    (markMealAsEaten demoEnv (obj [("meal_type", str "Breakfast")])
      (markMealAsEaten demoEnv (obj [("meal_type", str "Breakfast")]) emptyStore).2).1.success
      = false ∧
    (markMealAsEaten demoEnv (obj [("meal_type", str "Breakfast")]) demoMealStore).1.action
      = some "skipped" ∧
    (markMealAsEaten demoEnv (obj [("meal_type", str "Breakfast")])
      demoMealStore).2.diet_logs.rows = demoMealStore.diet_logs.rows := by
  refine ⟨by decide, by rfl, by rfl, by rfl, by rfl, by rfl, by rfl⟩

/-! ## Measurements -/

theorem descBefore_asymm (a b : JsVal) (h : descBefore a b = true) : descBefore b a = false := by
  unfold descBefore at *
  generalize orderKey a = x at *
  generalize orderKey b = y at *
  cases x <;> cases y <;> simp_all
  omega

theorem descBefore_trans (a b c : JsVal) (h1 : descBefore a b = false)
    (h2 : descBefore b c = false) : descBefore a c = false := by
  unfold descBefore at *
  generalize orderKey a = x at *
  generalize orderKey b = y at *
  generalize orderKey c = z at *
  cases x <;> cases y <;> cases z <;> simp_all
  omega

theorem firstDesc_spec (col : String) (rows : List Row) (t : Row)
    (h : firstDesc col rows = some t) :
    t ∈ rows ∧ ∀ r ∈ rows, descBefore (colGet r col) (colGet t col) = false := by
  induction rows generalizing t with
  | nil => simp [firstDesc] at h
  | cons r rest ih =>
    unfold firstDesc at h
    cases hb : firstDesc col rest with
    | none =>
      rw [hb] at h
      simp only [Option.some.injEq] at h
      subst h
      cases rest with
      | nil =>
        refine ⟨List.mem_cons_self _ _, ?_⟩
        intro x hx
        simp only [List.mem_singleton] at hx
        subst hx
        unfold descBefore
        cases orderKey (colGet x col) <;> simp
      | cons r2 rest2 =>
        unfold firstDesc at hb
        cases h3 : firstDesc col rest2 <;> rw [h3] at hb <;> simp at hb
        split at hb <;> simp at hb
    | some b =>
      rw [hb] at h
      obtain ⟨hbm, hbmax⟩ := ih b hb
      by_cases hc : descBefore (colGet b col) (colGet r col) = true
      · simp only [hc, if_true, Option.some.injEq] at h
        subst h
        refine ⟨List.mem_cons_of_mem _ hbm, ?_⟩
        intro x hx
        rcases List.mem_cons.mp hx with hx | hx
        · subst hx
          exact descBefore_asymm _ _ hc
        · exact hbmax x hx
      · simp only [hc, Bool.false_eq_true, if_false, Option.some.injEq] at h
        subst h
        have hc' : descBefore (colGet b col) (colGet r col) = false := by
          simpa using hc
        refine ⟨List.mem_cons_self _ _, ?_⟩
        intro x hx
        rcases List.mem_cons.mp hx with hx | hx
        · subst hx
          unfold descBefore
          cases orderKey (colGet x col) <;> simp
        · exact descBefore_trans _ _ _ (hbmax x hx) hc'

theorem firstDesc_isSome (col : String) (rows : List Row) (h : rows ≠ []) :
    ∃ t, firstDesc col rows = some t := by
  cases rows with
  | nil => exact absurd rfl h
  | cons r rest =>
    unfold firstDesc
    cases firstDesc col rest with
    | none => exact ⟨r, rfl⟩
    | some b =>
      by_cases hc : descBefore (colGet b col) (colGet r col) = true
      · exact ⟨b, by simp [hc]⟩
      · exact ⟨r, by simp [hc]⟩


theorem ownGet_mem {α : Type} (own : List (String × α)) (k : String) (v : α)
    (h : ownGet own k = some v) : v ∈ own.map Prod.snd := by
  induction own with
  | nil => simp [ownGet] at h
  | cons p rest ih =>
    obtain ⟨k', w⟩ := p
    unfold ownGet at h
    by_cases hk : k' = k
    · simp only [hk, if_true, Option.some.injEq] at h
      simp [h]
    · simp only [hk, if_false] at h
      simp [ih h]

theorem getMeasurementColumn_own (name : String) (c : String)
    (h : getMeasurementColumn (str name) = .ok (.own c)) :
    (str name).truthy = true ∧ c ∈ measurementColumnMap.map Prod.snd := by
  unfold getMeasurementColumn at h
  by_cases ht : (str name).truthy = true
  · refine ⟨ht, ?_⟩
    simp only [ht, Bool.not_true, Bool.false_eq_true, if_false, toLowerCase] at h
    unfold literalGet at h
    cases hg : ownGet measurementColumnMap (trim (lower name)) with
    | none =>
      rw [hg] at h
      simp only [Except.ok.injEq] at h
      split at h <;> simp at h
    | some v =>
      rw [hg] at h
      simp only [Except.ok.injEq, Looked.own.injEq] at h
      subst h
      exact ownGet_mem _ _ _ hg
  · simp [ht] at h

theorem column_ne_updated_at (c : String) (h : c ∈ measurementColumnMap.map Prod.snd) :
    c ≠ "updated_at" := by
  intro hc
  subst hc
  revert h
  decide

theorem idIs_of_rowId (target r : Row) (n : Int) (ht : rowId target = some n) :
    idIs (colGet target "id") r = true ↔ rowId r = some n := by
  unfold rowId at ht
  unfold idIs rowId
  cases hti : colGet target "id" <;> rw [hti] at ht <;> simp at ht
  subst ht
  cases colGet r "id" <;> simp [sqlInt]

theorem truthy_not_nullish (v : JsVal) (h : v.truthy = true) : v.isNullish = false := by
  cases v <;> simp_all [truthy, isNullish]

theorem orElse_truthy (a b : JsVal) (h : a.truthy = true) : a.orElse b = a := by
  simp [orElse, h]

theorem updateMeasurement_run (name c : String) (value : JsVal) (db : Store) (target : Row)
    (hcol : getMeasurementColumn (str name) = .ok (.own c)) (hv : value.truthy = true)
    (htarget : firstDesc "created_at" db.body_measurements.rows = some target) :
    updateMeasurement (obj [("name", str name), ("value", value)]) db =
      caught (match measurementValue c value with
        | .error msg =>
          (.threw msg, (db.tick .select .body_measurements).reject .update .body_measurements)
        | .ok stored =>
          (.ret { success := true, action := some "updated",
                  data := firstRow ((db.tick .select .body_measurements).update
                    .body_measurements (idIs (colGet target "id"))
                    (fun r => colSet (colSet r c stored) "updated_at"
                      (num (db.clock + 1)))).1,
                  message := some ("Updated " ++ name ++ " to " ++ value.toStr) },
            ((db.tick .select .body_measurements).update .body_measurements
              (idIs (colGet target "id"))
              (fun r => colSet (colSet r c stored) "updated_at" (num (db.clock + 1)))).2)) := by
  obtain ⟨htruthy, -⟩ := getMeasurementColumn_own name c hcol
  have h1 : (obj [("name", str name), ("value", value)]).get "name" = str name := rfl
  have h2 : (obj [("name", str name), ("value", value)]).get "value" = value := rfl
  have hsel : (db.selectFirst .body_measurements (fun _ => true) "created_at").1 = [target] := by
    simp [Store.selectFirst, Store.table, htarget, optRows]
  have hsel2 : (db.selectFirst .body_measurements (fun _ => true) "created_at").2 =
      db.tick .select .body_measurements := rfl
  simp only [updateMeasurement, updateMeasurementBody, h1, h2, orElse_truthy _ _ htruthy,
    orElse_truthy _ _ hv, htruthy, truthy_not_nullish _ hv, if_true,
    Bool.not_true, Bool.false_eq_true, if_false, writeMeasurement, hcol, hsel, hsel2]
  cases measurementValue c value <;> simp [toStr]

theorem measurementValue_declared (c : String) (value : JsVal)
    (h : c ∈ columns .body_measurements) : measurementValue c value = decimal52 value := by
  unfold measurementValue
  rw [if_pos (by simpa using h)]

theorem measurementValue_missing (c : String) (value : JsVal)
    (h : c ∉ columns .body_measurements) :
    measurementValue c value = .error (noColumnOf c .body_measurements) := by
  unfold measurementValue
  rw [if_neg (by simpa using h)]

/-- The rounding of `toHundredths` is to the nearest hundredth: the result is
within half a hundredth of `m * 10 ^ e`. -/
theorem toHundredths_nearest (m e : Int) :
    |((toHundredths m e : Int) : ℚ) - (m : ℚ) * (10 : ℚ) ^ (e + 2)| ≤ 1 / 2 := by
  unfold toHundredths
  by_cases hk : 0 ≤ e + 2
  · rw [if_pos hk]
    obtain ⟨k, hk2⟩ := Int.eq_ofNat_of_zero_le hk
    rw [hk2]
    simp
  · rw [if_neg hk]
    obtain ⟨k, hk2⟩ := Int.eq_ofNat_of_zero_le (show 0 ≤ -(e + 2) by omega)
    have he : e + 2 = -(k : Int) := by omega
    rw [hk2, he]
    simp only [Int.toNat_ofNat, zpow_neg, zpow_natCast]
    have hd : (0 : ℚ) < (10 : ℚ) ^ k := by positivity
    set d : ℕ := 10 ^ k with hdef
    have hdq : ((d : ℕ) : ℚ) = (10 : ℚ) ^ k := by
      rw [hdef]
      push_cast
      rfl
    have hdpos : 0 < d := by positivity
    have h1 : 2 * d * ((2 * m.natAbs + d) / (2 * d)) ≤ 2 * m.natAbs + d :=
      Nat.mul_div_le _ _
    have h2 : 2 * m.natAbs + d < 2 * d * ((2 * m.natAbs + d) / (2 * d)) + 2 * d :=
      Nat.lt_mul_div_succ _ (by omega)
    set q : ℕ := (2 * m.natAbs + d) / (2 * d) with hq
    have h1q : (2 : ℚ) * d * q ≤ 2 * (m.natAbs : ℚ) + d := by exact_mod_cast h1
    have h2q : (2 : ℚ) * (m.natAbs : ℚ) + d < 2 * d * q + 2 * d := by exact_mod_cast h2
    have hdq0 : (0 : ℚ) < (d : ℚ) := by exact_mod_cast hdpos
    rw [← hdq]
    have habs : ((m.natAbs : ℕ) : ℚ) = |(m : ℚ)| := by
      rw [Nat.cast_natAbs, Int.cast_abs]
    have hx : (m : ℚ) = (m : ℚ) * ((d : ℚ))⁻¹ * d := by
      field_simp
    generalize (m : ℚ) * ((d : ℚ))⁻¹ = x at hx ⊢
    by_cases hm : m < 0
    · rw [if_pos hm]
      have hmq : (m : ℚ) < 0 := by exact_mod_cast hm
      have hneg : |(m : ℚ)| = -(m : ℚ) := abs_of_neg hmq
      rw [habs, hneg, hx] at h1q h2q
      have a1 : 2 * (q : ℚ) + 2 * x - 1 ≤ 0 := by
        by_contra h
        push_neg at h
        nlinarith [mul_pos hdq0 h]
      have a2 : 0 < 2 * (q : ℚ) + 2 * x + 1 := by
        by_contra h
        push_neg at h
        nlinarith [mul_nonneg hdq0.le (neg_nonneg.mpr h)]
      rw [abs_le]
      push_cast
      constructor <;> linarith
    · rw [if_neg hm]
      have hmq : (0 : ℚ) ≤ (m : ℚ) := by exact_mod_cast (not_lt.mp hm)
      have hpos : |(m : ℚ)| = (m : ℚ) := abs_of_nonneg hmq
      rw [habs, hpos, hx] at h1q h2q
      have a1 : 2 * (q : ℚ) - 2 * x - 1 ≤ 0 := by
        by_contra h
        push_neg at h
        nlinarith [mul_pos hdq0 h]
      have a2 : 0 < 2 * (q : ℚ) - 2 * x + 1 := by
        by_contra h
        push_neg at h
        nlinarith [mul_nonneg hdq0.le (neg_nonneg.mpr h)]
      rw [abs_le]
      push_cast
      constructor <;> linarith

/-- C4, counterexample: the measurement columns are `DECIMAL(5,2)`, so the
value 1000 does not fit: `updateMeasurement` with "chest" and 1000 fails and
the rows are as they were. -/
theorem update_measurement_beyond_decimal :
    (updateMeasurement (obj [("name", str "chest"), ("value", num 1000)])
      demoMeasureStore).1.success = false ∧
    (updateMeasurement (obj [("name", str "chest"), ("value", num 1000)])
      demoMeasureStore).1.error = some "numeric field overflow" ∧
    (updateMeasurement (obj [("name", str "chest"), ("value", num 1000)])
      demoMeasureStore).2.body_measurements.rows = demoMeasureStore.body_measurements.rows := by
  refine ⟨by rfl, by rfl, by rfl⟩

/-- The names of the five strength lifts resolve to columns that the table
`body_measurements` does not have: `updateMeasurement` with "bench" and 80
fails on its statement and the rows are as they were. -/
theorem strength_columns_missing :
    getMeasurementColumn (str "bench") = .ok (.own "bench_max") ∧
    (∀ c ∈ ["bench_max", "overhead_press_max", "rows_max", "squats_max", "deadlift_max"],
      c ∈ measurementColumnMap.map Prod.snd ∧ c ∉ columns .body_measurements) ∧
    (updateMeasurement (obj [("name", str "bench"), ("value", num 80)])
      demoMeasureStore).1.success = false ∧
    (updateMeasurement (obj [("name", str "bench"), ("value", num 80)])
      demoMeasureStore).1.error =
        some "column \"bench_max\" of relation \"body_measurements\" does not exist" ∧
    (updateMeasurement (obj [("name", str "bench"), ("value", num 80)])
      demoMeasureStore).2.body_measurements.rows = demoMeasureStore.body_measurements.rows := by
  refine ⟨by rfl, by decide, by rfl, by rfl, by rfl⟩

/-- Values with decimals: 40.5 is stored as it is, 40.126 is stored as 40.13,
and 999.995, which rounds to 1000.00, does not fit. -/
theorem update_measurement_decimals :
    decimal52 (dec "40.5") = .ok (dec "40.5") ∧
    decimal52 (dec "40.126") = .ok (dec "40.13") ∧
    decimal52 (dec "-0.005") = .ok (dec "-0.01") ∧
    decimal52 (dec "1e-7") = .ok (num 0) ∧
    decimal52 (dec "999.994") = .ok (dec "999.99") ∧
    decimal52 (dec "999.995") = .error numericOverflow ∧
    (updateMeasurement (obj [("name", str "chest"), ("value", dec "40.126")])
      demoMeasureStore).2.body_measurements.rows.map (fun r => colGet r "chest") =
        [num 38, dec "40.13"] := by
  refine ⟨by rfl, by rfl, by rfl, by rfl, by rfl, by rfl, by rfl⟩

/-- C4, amended. For every store with at least one `body_measurements` row
(rows keyed by distinct numeric ids), every name that resolves to a column `c`
that the table has, and every truthy value, so every non-zero number: when the
value converts to the type `DECIMAL(5,2)` of the column, `updateMeasurement`
succeeds with action `updated`, and there is a target row, first in
`created_at` descending order, such that the target gets `c` set to the
converted value and keeps every column other than `c` and `updated_at`, while
every other row is unchanged; when the value does not convert,
`updateMeasurement` returns `success: false` and the table is as it was.  An
integer from -999 to 999 converts to itself, and no other integer converts. -/
theorem update_measurement_frame (name c : String) (value : JsVal) (db : Store)
    (hcol : getMeasurementColumn (str name) = .ok (.own c))
    (hddl : c ∈ columns .body_measurements) (hv : value.truthy = true)
    (hrows : db.body_measurements.rows ≠ []) (hkeys : keyed db.body_measurements.rows) :
    (∀ stored, decimal52 value = .ok stored →
      (updateMeasurement (obj [("name", str name), ("value", value)]) db).1.success = true ∧
      (updateMeasurement (obj [("name", str name), ("value", value)]) db).1.action
        = some "updated" ∧
      ∃ target ∈ db.body_measurements.rows,
        (∀ r ∈ db.body_measurements.rows,
          descBefore (colGet r "created_at") (colGet target "created_at") = false) ∧
        List.Forall₂ (fun r r' =>
            (r = target ∧ colGet r' c = stored ∧
              ∀ d, d ≠ c → d ≠ "updated_at" → colGet r' d = colGet r d) ∨
            (r ≠ target ∧ r' = r))
          db.body_measurements.rows
          (updateMeasurement (obj [("name", str name), ("value", value)])
            db).2.body_measurements.rows) ∧
    (∀ msg, decimal52 value = .error msg →
      (updateMeasurement (obj [("name", str name), ("value", value)]) db).1.success = false ∧
      (updateMeasurement (obj [("name", str name), ("value", value)]) db).2.body_measurements
        = db.body_measurements) ∧
    (∀ v : Int, value = num v →
      (-999 ≤ v → v ≤ 999 → decimal52 value = .ok (num v)) ∧
      ((v < -999 ∨ 999 < v) → decimal52 value = .error numericOverflow)) := by
  obtain ⟨htruthy, hmem⟩ := getMeasurementColumn_own name c hcol
  have hcu := column_ne_updated_at c hmem
  obtain ⟨target, htarget⟩ := firstDesc_isSome "created_at" db.body_measurements.rows hrows
  obtain ⟨hin, hmax⟩ := firstDesc_spec "created_at" _ _ htarget
  have hrun := updateMeasurement_run name c value db target hcol hv htarget
  rw [measurementValue_declared c value hddl] at hrun
  refine ⟨?_, ?_, ?_⟩
  · intro stored hs
    rw [hs] at hrun
    rw [hrun]
    refine ⟨rfl, rfl, target, hin, hmax, ?_⟩
    obtain ⟨hsome, hnodup⟩ := hkeys
    obtain ⟨n, hn⟩ := Option.isSome_iff_exists.mp (hsome target hin)
    simp only [caught_ret, update_snd, table_tick, Store.table]
    simp only [Store.tick, Store.setTable]
    rw [List.forall₂_map_right_iff, List.forall₂_same]
    intro x hx
    by_cases hid : idIs (colGet target "id") x = true
    · left
      have hxe : x = target := by
        have := (idIs_of_rowId target x n hn).mp hid
        exact List.inj_on_of_nodup_map hnodup hx hin (this.trans hn.symm)
      subst hxe
      simp only [hid, if_true]
      refine ⟨trivial, ?_, ?_⟩
      · rw [colGet_colSet_ne _ "updated_at" c _ (Ne.symm hcu), colGet_colSet_same]
      · intro d hdc hdu
        rw [colGet_colSet_ne _ "updated_at" d _ (Ne.symm hdu),
          colGet_colSet_ne _ c d _ (Ne.symm hdc)]
    · right
      simp only [hid, Bool.false_eq_true, if_false]
      refine ⟨?_, trivial⟩
      intro hxe
      subst hxe
      exact hid ((idIs_of_rowId x x n hn).mpr hn)
  · intro msg hs
    rw [hs] at hrun
    rw [hrun]
    exact ⟨rfl, rfl⟩
  · intro v hval
    subst hval
    constructor
    · intro h1 h2
      simp [decimal52, h1, h2]
    · intro h
      have : ¬ (-999 ≤ v ∧ v ≤ 999) := by omega
      simp [decimal52, this]

/-- C3, counterexample: "bicepts" is not a key of the map, yet `addMeasurement`
called with that name and no value returns success and inserts a row. -/
theorem unknown_measurement_without_value_inserts :
    ownGet measurementColumnMap (trim (lower "bicepts")) = none ∧
    (addMeasurement (obj [("name", str "bicepts")]) emptyStore).1.success = true ∧
    (addMeasurement (obj [("name", str "bicepts")]) emptyStore).2.log
      = [(Op.insert, Tbl.body_measurements)] ∧
    (addMeasurement (obj [("name", str "bicepts")]) emptyStore).2.body_measurements.rows.length
      = 1 := by
  refine ⟨by decide, by rfl, by rfl, by rfl⟩

/-- C3, amended. For every values mapping whose measurement name
(`values.name || values.measurement_name`) is a non-empty string that resolves
to nothing after lower-casing and trimming, `updateMeasurement` returns
`success: false` and leaves the store, its statement log included, as it was,
whatever the other entries are; `addMeasurement` does the same whenever a
value (`values.value || values.measurement_value`) is supplied. -/
theorem unknown_measurement_rejected (values : JsVal) (s : String) (db : Store)
    (hname : (values.get "name").orElse (values.get "measurement_name") = str s)
    (hs : s ≠ "")
    (hmiss : literalGet measurementColumnMap (trim (lower s)) = .absent) :
    ((updateMeasurement values db).1.success = false ∧ (updateMeasurement values db).2 = db) ∧
    (((values.get "value").orElse (values.get "measurement_value")).isNullish = false →
      (addMeasurement values db).1.success = false ∧ (addMeasurement values db).2 = db) := by
  have ht : (str s).truthy = true := truthy_str s hs
  have hcol : getMeasurementColumn (str s) = .ok .absent := by
    simp [getMeasurementColumn, ht, toLowerCase, hmiss]
  constructor
  · by_cases hv : ((values.get "value").orElse (values.get "measurement_value")).isNullish = true
    · simp [updateMeasurement, updateMeasurementBody, hname, ht, hv]
    · simp [updateMeasurement, updateMeasurementBody, hname, ht, hv, writeMeasurement, hcol]
  · intro hv
    simp [addMeasurement, addMeasurementBody, hname, ht, hv, writeMeasurement, hcol]

/-- C3, witness: "bicepts" with the value 15. -/
theorem unknown_measurement_rejected_witness :
    (updateMeasurement (obj [("name", str "bicepts"), ("value", num 15)]) emptyStore).1.success
      = false ∧
    (addMeasurement (obj [("name", str "bicepts"), ("value", num 15)]) emptyStore).2
      = emptyStore :=
  ⟨(unknown_measurement_rejected (obj [("name", str "bicepts"), ("value", num 15)]) "bicepts"
      emptyStore rfl (by decide) rfl).1.1,
    ((unknown_measurement_rejected (obj [("name", str "bicepts"), ("value", num 15)]) "bicepts"
      emptyStore rfl (by decide) rfl).2 rfl).2⟩

/-- C4, witness: "chest" set to 40 on a store with two measurement rows. -/
theorem update_measurement_frame_witness :
    (updateMeasurement (obj [("name", str "chest"), ("value", num 40)])
      demoMeasureStore).1.action = some "updated" ∧
    ∃ target ∈ demoMeasureStore.body_measurements.rows,
      (∀ r ∈ demoMeasureStore.body_measurements.rows,
        descBefore (colGet r "created_at") (colGet target "created_at") = false) ∧
      List.Forall₂ (fun r r' =>
          (r = target ∧ colGet r' "chest" = num 40 ∧
            ∀ d, d ≠ "chest" → d ≠ "updated_at" → colGet r' d = colGet r d) ∨
          (r ≠ target ∧ r' = r))
        demoMeasureStore.body_measurements.rows
        (updateMeasurement (obj [("name", str "chest"), ("value", num 40)])
          demoMeasureStore).2.body_measurements.rows :=
  ⟨((update_measurement_frame "chest" "chest" (num 40) demoMeasureStore rfl (by decide) rfl
      (List.cons_ne_nil _ _) (by unfold keyed; decide)).1 (num 40) rfl).2.1,
    ((update_measurement_frame "chest" "chest" (num 40) demoMeasureStore rfl (by decide) rfl
      (List.cons_ne_nil _ _) (by unfold keyed; decide)).1 (num 40) rfl).2.2⟩

/-! ## Dispatch -/

/-- The dispatch table registers 22 pairs of entity and intent. -/
theorem registered_pairs_dispatch :
    (actionMap.map (fun p => p.2.length)).sum = 22 := by decide

theorem executeAction_query (env : Env) (intent entity details actionDetails : JsVal)
    (db : Store) (h : intent = str "query" ∨ intent = str "chat") :
    ∃ r, (executeAction env intent entity details actionDetails db).completion = .result r ∧
      r.success = true ∧ r.action = some "query" ∧
      (executeAction env intent entity details actionDetails db).store = db ∧
      (executeAction env intent entity details actionDetails db).invoked = none := by
  rcases h with h | h <;> subst h <;> simp [executeAction, isStr]

theorem literalGet_cases {α : Type} (own : List (String × α)) (k : String) :
    (∃ v, literalGet own k = .own v ∧ (k, v) ∈ own) ∨
    (literalGet own k = .inherited k ∧ k ∈ objectProtoNames) ∨
    literalGet own k = .absent := by
  unfold literalGet
  cases h : ownGet own k with
  | some v =>
    left
    refine ⟨v, rfl, ?_⟩
    induction own with
    | nil => simp [ownGet] at h
    | cons p rest ih =>
      obtain ⟨k', w⟩ := p
      unfold ownGet at h
      by_cases hk : k' = k
      · simp only [hk, if_true, Option.some.injEq] at h
        simp [hk, h]
      · simp only [hk, if_false] at h
        exact List.mem_cons_of_mem _ (ih h)
  | none =>
    by_cases hp : objectProtoNames.contains k = true
    · right; left
      simp only [hp, if_true, true_and]
      simpa using hp
    · right; right
      simp only [hp, Bool.false_eq_true, if_false]

/-- Outside the property names inherited from `Object.prototype`, a pair that
the dispatch table does not register is answered with `Unknown entity` or
`Unknown action`, with the store untouched and no handler invoked. -/
theorem unregistered_pair_rejected (env : Env) (intent entity : String)
    (details actionDetails : JsVal) (db : Store)
    (hq : intent ≠ "query") (hc : intent ≠ "chat")
    (hi : intent ∉ objectProtoNames) (he : entity ∉ objectProtoNames)
    (hreg : ∀ acts h, (entity, acts) ∈ actionMap → (intent, h) ∉ acts) :
    ((executeAction env (str intent) (str entity) details actionDetails db).completion
        = .result (unknownEntity (str entity)) ∨
      (executeAction env (str intent) (str entity) details actionDetails db).completion
        = .result (unknownAction (str intent) (str entity))) ∧
    (executeAction env (str intent) (str entity) details actionDetails db).store = db ∧
    (executeAction env (str intent) (str entity) details actionDetails db).invoked = none := by
  have hq' : (str intent).isStr "query" = false := by simp [isStr, hq]
  have hc' : (str intent).isStr "chat" = false := by simp [isStr, hc]
  simp only [executeAction, hq', hc', Bool.or_self, Bool.false_eq_true, if_false, toStr]
  rcases literalGet_cases actionMap entity with ⟨acts, h1, hm⟩ | ⟨_, h2⟩ | h3
  · rw [h1]
    rcases literalGet_cases acts intent with ⟨h, h4, hm2⟩ | ⟨_, h5⟩ | h6
    · exact absurd hm2 (hreg acts h hm)
    · exact absurd h5 hi
    · simp [h6]
  · exact absurd h2 he
  · simp [h3]

/-- C5, failing input: with the entity `workout` and the intent `__proto__`
the second lookup finds the prototype object instead of `undefined`, the
guard `!actionHandler` lets it pass and the call throws; with the intent
`constructor` the call returns the values mapping, which is no `ActionResult`. -/
theorem executeAction_inherited_intent :
    (executeAction demoEnv (str "__proto__") (str "workout") undefined null emptyStore).completion
      = .throws "actionHandler is not a function" ∧
    (executeAction demoEnv (str "constructor") (str "workout") undefined null
      emptyStore).completion = .value (obj []) := ⟨rfl, rfl⟩

/-- With the entity `__proto__` the first lookup gives `Object.prototype`,
whose member `__proto__` is `null`: the intent `__proto__` is answered with
`Unknown action`, and the intent `constructor` returns the values mapping. -/
theorem executeAction_prototype_entity :
    (executeAction demoEnv (str "__proto__") (str "__proto__") undefined null
      emptyStore).completion =
        .result (unknownAction (str "__proto__") (str "__proto__")) ∧
    (unknownAction (str "__proto__") (str "__proto__")).error =
      some "Unknown action: __proto__ for __proto__" ∧
    (executeAction demoEnv (str "constructor") (str "__proto__") undefined null
      emptyStore).completion = .value (obj []) := ⟨rfl, by decide, rfl⟩


theorem orElse_falsy (a b : JsVal) (h : a.truthy = false) : a.orElse b = b := by
  simp [orElse, h]

theorem lacking_identity_fails (h : Handler) (env : Env) (values : JsVal) (db : Store)
    (hd : h ≠ .addDietLog) (hm : h ≠ .addMeasurement)
    (hlack : ∀ x ∈ h.identity values, x.truthy = false) :
    (h.run env values db).1.success = false ∧ (h.run env values db).1.error.isSome = true ∧
      (h.run env values db).2 = db := by
  cases h
  case addDietLog => exact absurd rfl hd
  case addMeasurement => exact absurd rfl hm
  all_goals simp only [Handler.identity, List.mem_cons, List.mem_singleton, forall_eq_or_imp,
    forall_eq, List.not_mem_nil, false_implies, implies_true, and_true] at hlack
  case addWorkout =>
    simp [Handler.run, addWorkout, addWorkoutBody, orElse, hlack]
  case deleteWorkout =>
    simp [Handler.run, deleteWorkout, deleteWorkoutBody, deleteByIdOrName, orElse, hlack]
  case deleteDietLog =>
    obtain ⟨h1, h2, h3, h4⟩ := hlack
    by_cases ha : (values.get "action").isStr "unmark_eaten" = true
    · simp only [ha, if_true] at h4
      simp [Handler.run, deleteDietLog, deleteDietLogBody, deleteByIdOrName, orElse, h1, h2, h3,
        h4]
    · simp [Handler.run, deleteDietLog, deleteDietLogBody, deleteByIdOrName, orElse, h1, h2, h3,
        ha]
  case addRecipe =>
    obtain ⟨h1, h2, h3, h4⟩ := hlack
    have hmerge : mergeRecipe values = values := by
      unfold mergeRecipe
      split
      · rename_i fs rs hr
        rw [hr] at h4
        simp only [JsVal.get] at h4
        simp [h4]
      · rfl
    simp [Handler.run, addRecipe, addRecipeBody, hmerge, orElse, h1, h2, h3]
  case updateRecipe =>
    simp [Handler.run, updateRecipe, updateRecipeBody, orElse, hlack]
  case deleteRecipe =>
    simp [Handler.run, deleteRecipe, deleteRecipeBody, orElse, hlack]
  case addSteps =>
    simp [Handler.run, addSteps, addStepsBody, orElse, hlack, parseInt]
  case updateSteps =>
    simp [Handler.run, updateSteps, updateStepsBody, orElse, hlack, parseInt]
  case updateMeasurement =>
    simp [Handler.run, updateMeasurement, updateMeasurementBody, orElse, hlack]
  case deleteMeasurement =>
    simp [Handler.run, deleteMeasurement, deleteMeasurementBody, orElse, hlack]
  case addReminder =>
    simp [Handler.run, addReminder, addReminderBody, orElse, hlack]
  case updateReminder =>
    simp [Handler.run, updateReminder, updateReminderBody, findByIdOrName, orElse, hlack]
  case deleteReminder =>
    simp [Handler.run, deleteReminder, deleteReminderBody, deleteByIdOrName, orElse, hlack]
  case addShoppingItem =>
    obtain ⟨h0, h1, h2, h3, h4, h5, h6⟩ := hlack
    simp only [Handler.run, addShoppingItem, addShoppingItemBody]
    rw [orElse_falsy _ (arr []) h0]
    simp [addSingleItem, orElse_falsy, h1, h2, h3, h4, h5, h6]
  case deleteShoppingItem =>
    obtain ⟨h0, h1, h2, h3⟩ := hlack
    simp [Handler.run, deleteShoppingItem, deleteShoppingItemBody, deleteByIdOrName,
      orElse_falsy, h0, h1, h2, h3]
  case updateShoppingItem =>
    obtain ⟨h0, h1, h2, h3, h4⟩ := hlack
    simp [Handler.run, updateShoppingItem, updateShoppingItemBody, orElse_falsy, h0, h1, h2, h3,
      h4]
  case addWishlistItem =>
    obtain ⟨h1, h2, h3⟩ := hlack
    simp [Handler.run, addWishlistItem, addWishlistItemBody, orElse_falsy, h1, h2, h3]
  case deleteWishlistItem =>
    obtain ⟨h0, h1, h2⟩ := hlack
    simp [Handler.run, deleteWishlistItem, deleteWishlistItemBody, deleteByIdOrName,
      orElse_falsy, h0, h1, h2]
  case updateWishlistItem =>
    obtain ⟨h0, h1, h2, h3⟩ := hlack
    simp [Handler.run, updateWishlistItem, updateWishlistItemBody, orElse_falsy, h0, h1, h2, h3]

theorem identity_of_empty (h : Handler) : ∀ x ∈ h.identity (obj []), x.truthy = false := by
  cases h <;> simp [Handler.identity, JsVal.get, JsVal.lookup, orElse, truthy, isStr]

/-- C6, counterexample: `addDietLog` and `addMeasurement`, the handlers of the
registered pairs (diet, add) and (measurement, add), accept the empty mapping:
each returns success and inserts a row. -/
theorem empty_mapping_accepted_by_two_handlers :
    (executeAction demoEnv (str "add") (str "diet") undefined null emptyStore).invoked
      = some Handler.addDietLog ∧
    (Handler.addDietLog.run demoEnv (obj []) emptyStore).1.success = true ∧
    (Handler.addDietLog.run demoEnv (obj []) emptyStore).2.diet_logs.rows.length = 1 ∧
    (executeAction demoEnv (str "add") (str "measurement") undefined null emptyStore).invoked
      = some Handler.addMeasurement ∧
    (Handler.addMeasurement.run demoEnv (obj []) emptyStore).1.success = true ∧
    (Handler.addMeasurement.run demoEnv (obj []) emptyStore).2.body_measurements.rows.length
      = 1 := by
  refine ⟨by rfl, by rfl, by rfl, by rfl, by rfl, by rfl⟩

/-- C6, amended. For every handler of the dispatch table other than
`addDietLog` and `addMeasurement`, and every values mapping in which every
accepted form of the identifying field (the name synonyms the handler reads,
and `id` where it takes one) is absent or falsy, the handler returns
`success: false` with an error message and leaves the store, its statement log
included, as it was; in particular so does each of these handlers on the
empty mapping. -/
theorem missing_identity_rejected (h : Handler) (env : Env) (values : JsVal) (db : Store)
    (hd : h ≠ .addDietLog) (hm : h ≠ .addMeasurement) :
    ((∀ x ∈ h.identity values, x.truthy = false) →
      (h.run env values db).1.success = false ∧ (h.run env values db).1.error.isSome = true ∧
        (h.run env values db).2 = db) ∧
    ((h.run env (obj []) db).1.success = false ∧ (h.run env (obj []) db).1.error.isSome = true ∧
      (h.run env (obj []) db).2 = db) :=
  ⟨lacking_identity_fails h env values db hd hm,
    lacking_identity_fails h env (obj []) db hd hm (identity_of_empty h)⟩

/-- C6, witness: `addWorkout` given only a number of sets. -/
theorem missing_identity_rejected_witness :
    (Handler.addWorkout.run demoEnv (obj [("sets", num 3)]) emptyStore).1.success = false ∧
    (Handler.addWorkout.run demoEnv (obj [("sets", num 3)]) emptyStore).2 = emptyStore ∧
    (Handler.addWorkout.run demoEnv (obj []) emptyStore).1.success = false :=
  ⟨((missing_identity_rejected .addWorkout demoEnv (obj [("sets", num 3)]) emptyStore
      (by decide) (by decide)).1 (by decide)).1,
    ((missing_identity_rejected .addWorkout demoEnv (obj [("sets", num 3)]) emptyStore
      (by decide) (by decide)).1 (by decide)).2.2,
    (missing_identity_rejected .addWorkout demoEnv (obj [("sets", num 3)]) emptyStore
      (by decide) (by decide)).2.1⟩

/-! ## Delete by name -/

theorem anySuffix_nil_true (f : List Char → Bool) (hf : f [] = true) (s : List Char) :
    likeMatch.anySuffix f s = true := by
  induction s with
  | nil => simpa [likeMatch.anySuffix] using hf
  | cons c r ih => simp [likeMatch.anySuffix, ih]

theorem likeMatch_plain_cons (a : Char) (p s : List Char)
    (h1 : a ≠ '%') (h2 : a ≠ '_') (h3 : a ≠ '\\') :
    likeMatch (a :: p) s = (match s with
      | [] => false
      | c :: s' => c == a && likeMatch p s') := by
  conv_lhs => unfold likeMatch
  split <;> simp_all

theorem likeMatch_plain (n t : List Char)
    (hn : ∀ c ∈ n, c ≠ '%' ∧ c ≠ '_' ∧ c ≠ '\\') :
    likeMatch (n ++ ['%']) t = startsWith t n := by
  induction n generalizing t with
  | nil =>
    have h := anySuffix_nil_true (likeMatch []) (by simp [likeMatch]) t
    cases t <;> simpa [likeMatch, startsWith] using h
  | cons a n ih =>
    have ha := hn a (List.mem_cons_self _ _)
    have hn' : ∀ c ∈ n, c ≠ '%' ∧ c ≠ '_' ∧ c ≠ '\\' :=
      fun c hc => hn c (List.mem_cons_of_mem _ hc)
    rw [List.cons_append, likeMatch_plain_cons a _ t ha.1 ha.2.1 ha.2.2]
    cases t with
    | nil => simp [startsWith]
    | cons c t' => simp [startsWith, ih t' hn']

theorem anySuffix_startsWith (n s : List Char) :
    likeMatch.anySuffix (fun t => startsWith t n) s = containsSub s n := by
  induction s with
  | nil => rfl
  | cons c r ih => simp [likeMatch.anySuffix, containsSub, ih]

theorem like_is_substring (n s : List Char)
    (hn : ∀ c ∈ n, c ≠ '%' ∧ c ≠ '_' ∧ c ≠ '\\') :
    likeMatch ('%' :: (n ++ ['%'])) s = containsSub s n := by
  have : likeMatch (n ++ ['%']) = fun t => startsWith t n := by
    funext t
    exact likeMatch_plain n t hn
  simp only [likeMatch, this]
  exact anySuffix_startsWith n s

theorem nameLike_plain (col name : String) (r : Row)
    (hplain : ∀ c ∈ (lower name).data, c ≠ '%' ∧ c ≠ '_' ∧ c ≠ '\\') :
    nameLike col (lower name) r = nameContains col name r := by
  unfold nameLike nameContains includes
  cases colGet r col <;> simp [like_is_substring _ _ hplain]

/-- For a name without `%`, `_` and backslash the name-based delete removes
exactly the rows whose name field contains the name, case-insensitively, and
keeps the others. -/
theorem delete_by_plain_name (t : Tbl) (col name : String) (db : Store) (hne : name ≠ "")
    (hplain : ∀ c ∈ (lower name).data, c ≠ '%' ∧ c ≠ '_' ∧ c ≠ '\\') :
    (deleteByIdOrName t col undefined (str name) db).1
        = .ok (some ((db.table t).rows.filter (nameContains col name))) ∧
    ((deleteByIdOrName t col undefined (str name) db).2.table t).rows
        = (db.table t).rows.filter (fun r => !nameContains col name r) := by
  have hlike : nameLike col (lower name) = nameContains col name := by
    funext r
    exact nameLike_plain col name r hplain
  simp [deleteByIdOrName, truthy, hne, toLowerCase, hlike]

/-- C7, failing input: no workout name of the store contains "%", yet
`deleteWorkout` with the name "%" succeeds and removes every workout; with the
name "b_n" it removes "Bench Press", which does not contain "b_n". -/
theorem delete_by_name_wildcards :
    (demoWorkoutStore.workouts.rows.filter (nameContains "workout_name" "%")).length = 0 ∧
    (deleteWorkout (obj [("name", str "%")]) demoWorkoutStore).1.success = true ∧
    (deleteWorkout (obj [("name", str "%")]) demoWorkoutStore).2.workouts.rows.length = 0 ∧
    (demoWorkoutStore.workouts.rows.filter (nameContains "workout_name" "b_n")).length = 0 ∧
    (deleteWorkout (obj [("name", str "b_n")]) demoWorkoutStore).1.success = true ∧
    (deleteWorkout (obj [("name", str "b_n")]) demoWorkoutStore).2.workouts.rows.length = 1 := by
  refine ⟨by rfl, by rfl, by rfl, by rfl, by rfl, by rfl⟩

/-! ## Reminder times -/

theorem parseReminderTime_unrecognised (v : JsVal)
    (h1 : reClock.test (trim (lower v.toStr)) = false)
    (h2 : reAmPm.test (trim (lower v.toStr)) = false)
    (h3 : reFourDigits.test (trim (lower v.toStr)) = false) :
    parseReminderTime v = "09:00" := by
  unfold parseReminderTime
  split
  · rfl
  · simp only [h1, Bool.false_eq_true, if_false, h3]
    unfold Re.test at h2
    cases hs : reAmPm.search (trim (lower v.toStr)) with
    | none => rfl
    | some m => simp [hs] at h2

/-- C10. `parseReminderTime` converts 12-hour times: for every hour `h` from 1
to 11, `<h>am` gives the zero-padded `h` with `:00` and `<h>pm` gives
`h + 12` with `:00`; `12am` gives `00:00` and `12pm` gives `12:00`; a missing
or empty input gives `09:00`, and so does every input whose normalised text
passes none of the three recognisers (`HH:MM`, `H[:MM] am/pm`, four digits),
such as "garbage". -/
theorem parseReminderTime_twelve_hour :
    (∀ h : Nat, 1 ≤ h → h ≤ 11 →
      parseReminderTime (str (toString h ++ "am")) = pad2 (toString h) ++ ":00" ∧
      parseReminderTime (str (toString h ++ "pm")) = toString (h + 12) ++ ":00") ∧
    parseReminderTime (str "12am") = "00:00" ∧
    parseReminderTime (str "12pm") = "12:00" ∧
    parseReminderTime undefined = "09:00" ∧
    parseReminderTime null = "09:00" ∧
    parseReminderTime (str "") = "09:00" ∧
    (∀ v : JsVal, reClock.test (trim (lower v.toStr)) = false →
      reAmPm.test (trim (lower v.toStr)) = false →
      reFourDigits.test (trim (lower v.toStr)) = false → parseReminderTime v = "09:00") ∧
    parseReminderTime (str "garbage") = "09:00" := by
  refine ⟨?_, by decide, by decide, by decide, by decide, by decide,
    parseReminderTime_unrecognised, by decide⟩
  intro h h1 h11
  interval_cases h <;> decide


/-- C10, witness: "9am", "3pm" and "garbage". -/
theorem parseReminderTime_twelve_hour_witness :
    parseReminderTime (str "9am") = "09:00" ∧ parseReminderTime (str "3pm") = "15:00" ∧
    parseReminderTime (str "garbage") = "09:00" :=
  ⟨(parseReminderTime_twelve_hour.1 9 (by decide) (by decide)).1,
    (parseReminderTime_twelve_hour.1 3 (by decide) (by decide)).2,
    parseReminderTime_twelve_hour.2.2.2.2.2.2.1 (str "garbage") (by decide) (by decide)
      (by decide)⟩


/-! ## The classification cascade -/

theorem semanticTier_none_of_miss (up : Upstream) (message : String) (h : vectorMiss up) :
    semanticTier up message = none := by
  unfold semanticTier
  rcases h with h | h | ⟨m, hm, hc⟩
  · simp [h]
  · simp [h]
  · simp [hm, not_le.mpr hc]

theorem semanticTier_shape (up : Upstream) (message : String) (c : Classification)
    (h : semanticTier up message = some c) :
    (∃ i e, c.intent = str i ∧ c.entity = str e) ∧
      (∃ ev tr, c.details = detailsOf ev tr message) ∧ c.method ≠ str "llm" := by
  unfold semanticTier at h
  split at h
  · split at h
    · simp at h
    · split at h
      · split at h
        · split at h <;>
          · simp only [Option.some.injEq] at h
            subst h
            exact ⟨⟨_, _, rfl, rfl⟩, ⟨_, _, rfl⟩, by simp⟩
        · simp only [Option.some.injEq] at h
          subst h
          exact ⟨⟨_, _, rfl, rfl⟩, ⟨_, _, rfl⟩, by simp⟩
      · simp at h
  · simp at h

theorem fallbackClassification_shape (env : Env) (message : String) :
    (∃ i e, (fallbackClassification env message).intent = str i ∧
        (fallbackClassification env message).entity = str e) ∧
      (∃ ev tr, (fallbackClassification env message).details = detailsOf ev tr message) ∧
      (fallbackClassification env message).method ≠ str "llm" :=
  ⟨⟨_, _, rfl, rfl⟩, ⟨_, _, rfl⟩, by simp [fallbackClassification]⟩

theorem validAnswer_true (answer : JsVal) (h : validAnswer answer = .ok true) :
    ∃ i e, answer.get "intent" = str i ∧ answer.get "entity" = str e ∧
      (literalGet INTENTS (upper i)).truthy = true ∧ e ∈ ENTITIES.map Prod.snd := by
  unfold validAnswer member at h
  split at h
  · simp at h
  · rename_i intent hi
    split at hi
    · simp at hi
    · simp only [Except.ok.injEq] at hi
      subst hi
      split at h
      · split at h
        · simp at h
        · rename_i u hu
          simp only [Except.ok.injEq, Bool.and_eq_true] at h
          obtain ⟨h1, h2, h3⟩ := h
          cases hint : answer.get "intent" <;> rw [hint] at hu <;> simp [toUpperCase] at hu
          subst hu
          split at h3
          · rename_i e he
            exact ⟨_, _, rfl, he, h1, by simpa using h3⟩
          · simp at h3
      · simp at h

theorem generativeTier_cases (up : Upstream) (env : Env) (message : String) (c : Classification)
    (h : generativeTier up env message = .ok c) :
    c = fallbackClassification env message ∨
      ∃ answer, parseContent up up.classifyChat = .ok answer ∧ validAnswer answer = .ok true ∧
        c = llmClassification answer := by
  unfold generativeTier at h
  split at h
  · simp at h
  · rename_i answer ha
    split at h
    · simp at h
    · simp only [Except.ok.injEq] at h
      exact Or.inl h.symm
    · rename_i hv
      simp only [Except.ok.injEq] at h
      exact Or.inr ⟨answer, ha, hv, h.symm⟩

theorem generativeTier_miss (up : Upstream) (env : Env) (message : String)
    (h : generativeMiss up) (c : Classification) (hc : generativeTier up env message = .ok c) :
    c = fallbackClassification env message := by
  rcases generativeTier_cases up env message c hc with h1 | ⟨answer, ha, hv, -⟩
  · exact h1
  · exact absurd hv (h answer ha)


theorem toUpper_of_not_lower (c : Char) (h : ¬ (c.toNat ≥ 97 ∧ c.toNat ≤ 122)) :
    c.toUpper = c := by
  unfold Char.toUpper
  simp only [h, if_false]

theorem toLower_toUpper (c : Char) : c.toUpper.toLower = c.toLower := by
  by_cases h : c.toNat ≥ 97 ∧ c.toNat ≤ 122
  · have hc : Char.ofNat c.toNat = c := Char.ofNat_toNat c
    obtain ⟨h1, h2⟩ := h
    generalize c.toNat = n at *
    subst hc
    interval_cases n <;> decide
  · rw [toUpper_of_not_lower c h]

theorem toUpper_isLower (c : Char) : c.toUpper.isLower = false := by
  by_cases h : c.toNat ≥ 97 ∧ c.toNat ≤ 122
  · have hc : Char.ofNat c.toNat = c := Char.ofNat_toNat c
    obtain ⟨h1, h2⟩ := h
    generalize c.toNat = n at *
    subst hc
    interval_cases n <;> decide
  · rw [toUpper_of_not_lower c h]
    unfold Char.isLower
    unfold Char.toNat at h
    simp only [ge_iff_le, Bool.and_eq_false_imp, decide_eq_true_eq, decide_eq_false_iff_not]
    intro h1 h2
    exact h ⟨h1, h2⟩

theorem lower_upper (s : String) : lower (upper s) = lower s := by
  simp [lower, upper, List.map_map, Function.comp_def, toLower_toUpper]

theorem upper_no_lower (s : String) :
    (upper s).data.all (fun c => !c.isLower) = true := by
  simp [upper, toUpper_isLower]

theorem upper_not_inherited (s : String) : objectProtoNames.contains (upper s) = false := by
  have h := upper_no_lower s
  have hall : ∀ u ∈ objectProtoNames, u.data.all (fun c => !c.isLower) = false := by decide
  cases hc : objectProtoNames.contains (upper s)
  · rfl
  · have hm : upper s ∈ objectProtoNames := by simpa using hc
    rw [hall _ hm] at h
    exact absurd h (by decide)

theorem ownGet_key_mem {α : Type} (own : List (String × α)) (k : String) (v : α)
    (h : ownGet own k = some v) : k ∈ own.map Prod.fst := by
  induction own with
  | nil => simp [ownGet] at h
  | cons p r ih =>
    obtain ⟨k1, v1⟩ := p
    simp only [ownGet] at h
    split at h
    · rename_i hk
      simp [hk]
    · simp [ih h]

theorem intent_key_lower (i : String) (h : (literalGet INTENTS (upper i)).truthy = true) :
    lower i ∈ INTENTS.map Prod.snd := by
  unfold literalGet at h
  rw [upper_not_inherited] at h
  cases hk : ownGet INTENTS (upper i) with
  | none => rw [hk] at h; simp [Looked.truthy] at h
  | some v =>
    have hkeys : upper i ∈ INTENTS.map Prod.fst := ownGet_key_mem _ _ _ hk
    rw [← lower_upper]
    have hall : ∀ u ∈ INTENTS.map Prod.fst, lower u ∈ INTENTS.map Prod.snd := by decide
    exact hall _ hkeys


theorem llmClassification_shape (answer : JsVal) (h : validAnswer answer = .ok true) :
    ∃ i e, (llmClassification answer).intent = str i ∧
      (llmClassification answer).entity = str e ∧
      lower i ∈ INTENTS.map Prod.snd ∧ e ∈ ENTITIES.map Prod.snd := by
  obtain ⟨i, e, hi, he, hk, hm⟩ := validAnswer_true answer h
  exact ⟨i, e, hi, he, intent_key_lower i hk, hm⟩

/-- On the generative tier the entity is one of the twelve entity strings and
the intent is one of the five intent strings up to letter case. -/
theorem llm_tier_closed_up_to_case (up : Upstream) (env : Env) (message : String)
    (c : Classification) (h : classifyIntent up env message = .ok c)
    (hm : c.method = str "llm") :
    ∃ i e, c.intent = str i ∧ c.entity = str e ∧
      lower i ∈ INTENTS.map Prod.snd ∧ e ∈ ENTITIES.map Prod.snd := by
  unfold classifyIntent at h
  split at h
  · rename_i c1 hs
    simp only [Except.ok.injEq] at h
    subst h
    exact absurd hm (semanticTier_shape up message _ hs).2.2
  · split at h
    · rename_i c1 hg
      simp only [Except.ok.injEq] at h
      subst h
      rcases generativeTier_cases up env message _ hg with h1 | ⟨answer, -, hv, h1⟩
      · rw [h1] at hm
        exact absurd hm (fallbackClassification_shape env message).2.2
      · rw [h1]
        exact llmClassification_shape answer hv
    · simp only [Except.ok.injEq] at h
      subst h
      exact absurd hm (fallbackClassification_shape env message).2.2

/-- C8, counterexample: with the vector tier not ready and the model
answering the JSON object with intent add and entity steps and nothing else,
`classifyIntent` returns that object under method llm, and it carries no
details. -/
theorem classifyIntent_llm_answer_without_details :
    ∃ c, classifyIntent (modelAnswers (obj [("intent", str "add"), ("entity", str "steps")]))
        demoEnv "add 5000 steps" = .ok c ∧
      c.method = str "llm" ∧ c.details = undefined :=
  ⟨_, rfl, rfl, rfl⟩

/-- C8, amended. For every utterance and every behaviour of the upstream
services `classifyIntent` returns without throwing; the result carries a string
intent and a string entity; unless it comes from the generative tier (method
llm) it carries the details object built by the program; and when the vector
tier gives no match and the generative tier fails or does not pass the
validation of the program, the result is `fallbackClassification` of the
utterance. -/
theorem classifyIntent_total (up : Upstream) (env : Env) (message : String) :
    ∃ c, classifyIntent up env message = .ok c ∧
      (∃ i e, c.intent = str i ∧ c.entity = str e) ∧
      (c.method ≠ str "llm" → ∃ ev tr, c.details = detailsOf ev tr message) ∧
      (vectorMiss up → generativeMiss up → c = fallbackClassification env message) := by
  unfold classifyIntent
  cases hs : semanticTier up message with
  | some c =>
    obtain ⟨h1, h2, -⟩ := semanticTier_shape up message c hs
    refine ⟨c, rfl, h1, fun _ => h2, fun hv _ => ?_⟩
    rw [semanticTier_none_of_miss up message hv] at hs
    simp at hs
  | none =>
    cases hg : generativeTier up env message with
    | error e =>
      obtain ⟨h1, h2, -⟩ := fallbackClassification_shape env message
      exact ⟨_, rfl, h1, fun _ => h2, fun _ _ => rfl⟩
    | ok c =>
      refine ⟨c, rfl, ?_, ?_, fun _ hm => generativeTier_miss up env message hm c hg⟩
      · rcases generativeTier_cases up env message c hg with h1 | ⟨answer, -, hv, h1⟩
        · rw [h1]
          exact (fallbackClassification_shape env message).1
        · obtain ⟨i, e, hi, he, -, -⟩ := llmClassification_shape answer hv
          rw [h1]
          exact ⟨i, e, hi, he⟩
      · intro hm
        rcases generativeTier_cases up env message c hg with h1 | ⟨answer, -, -, h1⟩
        · rw [h1]
          exact (fallbackClassification_shape env message).2.1
        · rw [h1] at hm
          exact absurd rfl hm

/-- C8, witness: with no service reachable the utterance is classified by
the deterministic classifier. -/
theorem classifyIntent_total_witness :
    vectorMiss noUpstream ∧ generativeMiss noUpstream ∧
      classifyIntent noUpstream demoEnv "walked 5000 steps" =
        .ok (fallbackClassification demoEnv "walked 5000 steps") := by
  have hv : vectorMiss noUpstream := Or.inl rfl
  have hg : generativeMiss noUpstream := by
    intro answer h
    simp [parseContent, noUpstream] at h
  obtain ⟨c, hc, -, -, hf⟩ := classifyIntent_total noUpstream demoEnv "walked 5000 steps"
  exact ⟨hv, hg, by rw [hc, hf hv hg]⟩

/-- C9, failing input: with the vector tier not ready and the model answering
the JSON object with intent ADD and entity workout, `classifyIntent` returns
that object under method llm; its intent ADD is none of the five intent
strings, and the deterministic classifier is not consulted. -/
theorem classifyIntent_keeps_uppercase_intent :
    ∃ c, classifyIntent (modelAnswers (obj [("intent", str "ADD"), ("entity", str "workout")]))
        demoEnv "log bench press" = .ok c ∧
      c.method = str "llm" ∧ c.intent = str "ADD" ∧ "ADD" ∉ INTENTS.map Prod.snd ∧
      (fallbackClassification demoEnv "log bench press").intent = str "add" :=
  ⟨_, rfl, rfl, rfl, by decide, rfl⟩


/-! ## Times and dates of reminders -/

/-- C11, counterexample: `parseReminderTime` returns "99:99" as it is, and
"99:99" is not a canonical time. -/
theorem parseReminderTime_keeps_out_of_range :
    parseReminderTime (str "99:99") = "99:99" ∧ isCanonicalTime "99:99" = false := by
  decide

theorem toStr_str (s : String) : (str s).toStr = s := by
  simp [JsVal.toStr]

theorem mk_cons_ne_empty (c : Char) (cs : List Char) : String.mk (c :: cs) ≠ "" := by
  intro h
  exact absurd (congrArg String.data h) (by simp)

theorem digit_ne_colon (c : Char) (h : (c == ':') = false) : (c != ':') = true := by
  simp [bne, h]

theorem digit_facts (c : Char) (h : c.isDigit = true) :
    c.toLower = c ∧ isJsSpace c = false ∧ (c == ':') = false ∧ (c.toLower == 'a') = false ∧
      (c.toLower == 'p') = false := by
  have hn : 48 ≤ c.toNat ∧ c.toNat ≤ 57 := by
    unfold Char.isDigit at h
    unfold Char.toNat
    simp only [ge_iff_le, Bool.and_eq_true, decide_eq_true_eq] at h
    exact ⟨h.1, h.2⟩
  have hc : Char.ofNat c.toNat = c := Char.ofNat_toNat c
  obtain ⟨h1, h2⟩ := hn
  generalize c.toNat = n at *
  subst hc
  interval_cases n <;> decide

theorem clock_digits (a b c d : Char) (ha : a.isDigit = true) (hb : b.isDigit = true)
    (hc : c.isDigit = true) (hd : d.isDigit = true) :
    parseReminderTime (str (String.mk [a, b, ':', c, d])) = String.mk [a, b, ':', c, d] ∧
      parseReminderTime (str (String.mk [b, ':', c, d])) = String.mk ['0', b, ':', c, d] ∧
      parseReminderTime (str (String.mk [a, b, c, d])) = String.mk [a, b, ':', c, d] := by
  obtain ⟨la, sa, ca, aa, pa⟩ := digit_facts a ha
  obtain ⟨lb, sb, cb, ab, pb⟩ := digit_facts b hb
  obtain ⟨lc, sc, cc, ac, pc⟩ := digit_facts c hc
  obtain ⟨ld, sd, cd, ad, pd⟩ := digit_facts d hd
  have sp1 : isJsSpace ':' = false := by decide
  have hl5 : trim (lower (String.mk [a, b, ':', c, d])) = String.mk [a, b, ':', c, d] := by
    simp [trim, lower, dropSpaceEnd, la, lb, lc, ld, sa, sb, sc, sd, List.dropWhile, sp1]
  have hl4 : trim (lower (String.mk [b, ':', c, d])) = String.mk [b, ':', c, d] := by
    simp [trim, lower, dropSpaceEnd, la, lb, lc, ld, sa, sb, sc, sd, List.dropWhile, sp1]
  have hl4d : trim (lower (String.mk [a, b, c, d])) = String.mk [a, b, c, d] := by
    simp [trim, lower, dropSpaceEnd, la, lb, lc, ld, sa, sb, sc, sd, List.dropWhile]
  refine ⟨?_, ?_, ?_⟩
  · have ht : reClock.test (String.mk [a, b, ':', c, d]) = true := by
      simp [reClock, Re.test, Re.search, Re.searchFrom, Re.matchHere, Re.run, Re.cat, Re.opt,
        Re.digit, Re.lit, firstOf, ha, hb, hc, hd]
    simp [parseReminderTime, JsVal.truthy, JsVal.toStr, hl5, ht, List.takeWhile, List.dropWhile,
      digit_ne_colon a ca, digit_ne_colon b cb, pad2, mk_cons_ne_empty, String.ext_iff]
  · have ht : reClock.test (String.mk [b, ':', c, d]) = true := by
      simp [reClock, Re.test, Re.search, Re.searchFrom, Re.matchHere, Re.run, Re.cat, Re.opt,
        Re.digit, Re.lit, firstOf, ha, hb, hc, hd]
    simp [parseReminderTime, JsVal.truthy, JsVal.toStr, hl4, ht, List.takeWhile, List.dropWhile,
      digit_ne_colon a ca, digit_ne_colon b cb, pad2, mk_cons_ne_empty, String.ext_iff]
  · have ht : reClock.test (String.mk [a, b, c, d]) = false := by
      simp [reClock, Re.test, Re.search, Re.searchFrom, Re.matchHere, Re.run, Re.cat, Re.opt,
        Re.digit, Re.lit, firstOf, ha, hb, hc, hd, ca, cb, cc, cd]
    have hs : reAmPm.search (String.mk [a, b, c, d]) = none := by
      simp [reAmPm, reDay, Re.test, Re.search, Re.searchFrom, Re.matchHere, Re.run, Re.cat,
        Re.opt, Re.digit, Re.lit, Re.litI, Re.textI, Re.space, firstOf, starLoop, ha, hb, hc,
        hd, ca, cb, cc, cd, aa, ab, ac, ad, pa, pb, pc, pd, sa, sb, sc, sd]
    have hf : reFourDigits.test (String.mk [a, b, c, d]) = true := by
      simp [reFourDigits, Re.test, Re.search, Re.searchFrom, Re.matchHere, Re.run, Re.cat,
        Re.opt, Re.digit, Re.lit, firstOf, ha, hb, hc, hd]
    simp [parseReminderTime, JsVal.truthy, JsVal.toStr, hl4d, ht, hs, hf, mk_cons_ne_empty,
      String.ext_iff]

/-- The hour of the day of a 12-hour time, as `parseReminderTime` computes it. -/
theorem ampm_one (x c d m : Char) (hx : x.isDigit = true) (hc : c.isDigit = true)
    (hd : d.isDigit = true) (hm : m = 'a' ∨ m = 'p') :
    parseReminderTime (str (String.mk [x, ':', c, d, m, 'm'])) =
      pad2 (toString (if m = 'p' then digitsToNat [x] + 12 else digitsToNat [x])) ++ ":" ++
        String.mk [c, d] := by
  obtain ⟨lx, sx, cx, ax, px⟩ := digit_facts x hx
  obtain ⟨lc, sc, cc, ac, pc⟩ := digit_facts c hc
  obtain ⟨ld, sd, cd, ad, pd⟩ := digit_facts d hd
  have h12 : digitsToNat [x] ≠ 12 := by
    have : 48 ≤ x.toNat ∧ x.toNat ≤ 57 := by
      unfold Char.isDigit at hx
      unfold Char.toNat
      simp only [ge_iff_le, Bool.and_eq_true, decide_eq_true_eq] at hx
      exact ⟨hx.1, hx.2⟩
    simp [digitsToNat]
    omega
  have sp1 : isJsSpace ':' = false := by decide
  have sp2 : isJsSpace 'a' = false := by decide
  have sp3 : isJsSpace 'p' = false := by decide
  have sp4 : isJsSpace 'm' = false := by decide
  rcases hm with rfl | rfl
  · have hl : trim (lower (String.mk [x, ':', c, d, 'a', 'm'])) =
        String.mk [x, ':', c, d, 'a', 'm'] := by
      simp [trim, lower, dropSpaceEnd, lx, lc, ld, sx, sc, sd, List.dropWhile, sp1, sp2, sp3, sp4]
    have ht : reClock.test (String.mk [x, ':', c, d, 'a', 'm']) = false := by
      simp [reClock, Re.test, Re.search, Re.searchFrom, Re.matchHere, Re.run, Re.cat, Re.opt,
        Re.digit, Re.lit, firstOf, hx, hc, hd, cx, cc, cd]
    have hs : reAmPm.search (String.mk [x, ':', c, d, 'a', 'm']) =
        some { pre := [], matched := [x, ':', c, d, 'a', 'm'], post := [],
               caps := [(3, ['a', 'm']), (2, [c, d]), (1, [x])] } := by
      simp [reAmPm, reDay, Re.test, Re.search, Re.searchFrom, Re.matchHere, Re.run, Re.cat,
        Re.opt, Re.digit, Re.lit, Re.litI, Re.textI, Re.space, Re.star, firstOf, starLoop, hx,
        hc, hd, cx, cc, cd, ax, ac, ad, px, pc, pd, sx, sc, sd, sp1, sp2, sp3, sp4]
    have e1 : lower "am" = "am" := by decide
    rw [parseReminderTime]
    simp [toStr_str, hl, ht, hs, ReMatch.group, JsVal.truthy, mk_cons_ne_empty, e1, h12]
  · have hl : trim (lower (String.mk [x, ':', c, d, 'p', 'm'])) =
        String.mk [x, ':', c, d, 'p', 'm'] := by
      simp [trim, lower, dropSpaceEnd, lx, lc, ld, sx, sc, sd, List.dropWhile, sp1, sp2, sp3, sp4]
    have ht : reClock.test (String.mk [x, ':', c, d, 'p', 'm']) = false := by
      simp [reClock, Re.test, Re.search, Re.searchFrom, Re.matchHere, Re.run, Re.cat, Re.opt,
        Re.digit, Re.lit, firstOf, hx, hc, hd, cx, cc, cd]
    have hs : reAmPm.search (String.mk [x, ':', c, d, 'p', 'm']) =
        some { pre := [], matched := [x, ':', c, d, 'p', 'm'], post := [],
               caps := [(3, ['p', 'm']), (2, [c, d]), (1, [x])] } := by
      simp [reAmPm, reDay, Re.test, Re.search, Re.searchFrom, Re.matchHere, Re.run, Re.cat,
        Re.opt, Re.digit, Re.lit, Re.litI, Re.textI, Re.space, Re.star, firstOf, starLoop, hx,
        hc, hd, cx, cc, cd, ax, ac, ad, px, pc, pd, sx, sc, sd, sp1, sp2, sp3, sp4]
    have e1 : lower "pm" = "pm" := by decide
    rw [parseReminderTime]
    simp [toStr_str, hl, ht, hs, ReMatch.group, JsVal.truthy, mk_cons_ne_empty, e1, h12]

theorem ampm_two (x y c d m : Char) (hx : x.isDigit = true) (hy : y.isDigit = true)
    (hc : c.isDigit = true) (hd : d.isDigit = true) (hm : m = 'a' ∨ m = 'p') :
    parseReminderTime (str (String.mk [x, y, ':', c, d, m, 'm'])) =
      pad2 (toString (if m = 'p' then
          (if digitsToNat [x, y] = 12 then 12 else digitsToNat [x, y] + 12)
        else (if digitsToNat [x, y] = 12 then 0 else digitsToNat [x, y]))) ++ ":" ++
        String.mk [c, d] := by
  obtain ⟨lx, sx, cx, ax, px⟩ := digit_facts x hx
  obtain ⟨ly, sy, cy, ay, py⟩ := digit_facts y hy
  obtain ⟨lc, sc, cc, ac, pc⟩ := digit_facts c hc
  obtain ⟨ld, sd, cd, ad, pd⟩ := digit_facts d hd
  have sp1 : isJsSpace ':' = false := by decide
  have sp2 : isJsSpace 'a' = false := by decide
  have sp3 : isJsSpace 'p' = false := by decide
  have sp4 : isJsSpace 'm' = false := by decide
  rcases hm with rfl | rfl
  · have hl : trim (lower (String.mk [x, y, ':', c, d, 'a', 'm'])) =
        String.mk [x, y, ':', c, d, 'a', 'm'] := by
      simp [trim, lower, dropSpaceEnd, lx, ly, lc, ld, sx, sy, sc, sd, List.dropWhile, sp1, sp2,
        sp3, sp4]
    have ht : reClock.test (String.mk [x, y, ':', c, d, 'a', 'm']) = false := by
      simp [reClock, Re.test, Re.search, Re.searchFrom, Re.matchHere, Re.run, Re.cat, Re.opt,
        Re.digit, Re.lit, firstOf, hx, hy, hc, hd, cx, cy, cc, cd]
    have hs : reAmPm.search (String.mk [x, y, ':', c, d, 'a', 'm']) =
        some { pre := [], matched := [x, y, ':', c, d, 'a', 'm'], post := [],
               caps := [(3, ['a', 'm']), (2, [c, d]), (1, [x, y])] } := by
      simp [reAmPm, reDay, Re.test, Re.search, Re.searchFrom, Re.matchHere, Re.run, Re.cat,
        Re.opt, Re.digit, Re.lit, Re.litI, Re.textI, Re.space, Re.star, firstOf, starLoop, hx,
        hy, hc, hd, cx, cy, cc, cd, ax, ay, ac, ad, px, py, pc, pd, sx, sy, sc, sd, sp1, sp2,
        sp3, sp4]
    have e1 : lower "am" = "am" := by decide
    rw [parseReminderTime]
    simp [toStr_str, hl, ht, hs, ReMatch.group, JsVal.truthy, mk_cons_ne_empty, e1]
  · have hl : trim (lower (String.mk [x, y, ':', c, d, 'p', 'm'])) =
        String.mk [x, y, ':', c, d, 'p', 'm'] := by
      simp [trim, lower, dropSpaceEnd, lx, ly, lc, ld, sx, sy, sc, sd, List.dropWhile, sp1, sp2,
        sp3, sp4]
    have ht : reClock.test (String.mk [x, y, ':', c, d, 'p', 'm']) = false := by
      simp [reClock, Re.test, Re.search, Re.searchFrom, Re.matchHere, Re.run, Re.cat, Re.opt,
        Re.digit, Re.lit, firstOf, hx, hy, hc, hd, cx, cy, cc, cd]
    have hs : reAmPm.search (String.mk [x, y, ':', c, d, 'p', 'm']) =
        some { pre := [], matched := [x, y, ':', c, d, 'p', 'm'], post := [],
               caps := [(3, ['p', 'm']), (2, [c, d]), (1, [x, y])] } := by
      simp [reAmPm, reDay, Re.test, Re.search, Re.searchFrom, Re.matchHere, Re.run, Re.cat,
        Re.opt, Re.digit, Re.lit, Re.litI, Re.textI, Re.space, Re.star, firstOf, starLoop, hx,
        hy, hc, hd, cx, cy, cc, cd, ax, ay, ac, ad, px, py, pc, pd, sx, sy, sc, sd, sp1, sp2,
        sp3, sp4]
    have e1 : lower "pm" = "pm" := by decide
    rw [parseReminderTime]
    by_cases h12 : digitsToNat [x, y] = 12 <;>
      simp [toStr_str, hl, ht, hs, ReMatch.group, JsVal.truthy, mk_cons_ne_empty, e1, h12]

theorem canonical_of_hour (input hh : String) (c d : Char)
    (e : parseReminderTime (str input) = hh ++ ":" ++ String.mk [c, d])
    (hcan : isCanonicalTime (hh ++ ":00") = true) (hc : c.isDigit = true)
    (hd : d.isDigit = true) (hr : digitsToNat [c, d] ≤ 59) :
    isCanonicalTime (parseReminderTime (str input)) = true := by
  rw [e]
  rcases hh with ⟨_ | ⟨a, _ | ⟨b, _ | ⟨x, r⟩⟩⟩⟩
  · simp [isCanonicalTime] at hcan
  · simp [isCanonicalTime] at hcan
  · have h1 : isCanonicalTime (String.mk [a, b, ':', '0', '0']) = true := hcan
    have h2 : (String.mk [a, b] ++ ":" ++ String.mk [c, d]) = String.mk [a, b, ':', c, d] := rfl
    rw [h2]
    simp only [isCanonicalTime, Bool.and_eq_true, decide_eq_true_eq] at h1 ⊢
    exact ⟨⟨⟨⟨⟨h1.1.1.1.1.1, h1.1.1.1.1.2⟩, hc⟩, hd⟩, h1.1.2⟩, hr⟩
  · have h1 : isCanonicalTime (String.mk (a :: b :: x :: (r ++ [':', '0', '0']))) = true := hcan
    cases r with
    | nil => simp [isCanonicalTime] at h1
    | cons y r2 => cases r2 <;> simp [isCanonicalTime] at h1

theorem hours_with_minutes (h : Nat) (h1 : 1 ≤ h) (h12 : h ≤ 12) (c d : Char)
    (hc : c.isDigit = true) (hd : d.isDigit = true) (hr : digitsToNat [c, d] ≤ 59) :
    isCanonicalTime (parseReminderTime
        (str (toString h ++ ":" ++ String.mk [c, d] ++ "am"))) = true ∧
      isCanonicalTime (parseReminderTime
        (str (toString h ++ ":" ++ String.mk [c, d] ++ "pm"))) = true := by
  interval_cases h
  · rw [show toString (1 : Nat) = "1" from by decide]
    exact ⟨canonical_of_hour (String.mk ['1', ':', c, d, 'a', 'm']) _ c d
        (ampm_one '1' c d 'a' (by decide) hc hd (Or.inl rfl)) (by decide) hc hd hr,
      canonical_of_hour (String.mk ['1', ':', c, d, 'p', 'm']) _ c d
        (ampm_one '1' c d 'p' (by decide) hc hd (Or.inr rfl)) (by decide) hc hd hr⟩
  · rw [show toString (2 : Nat) = "2" from by decide]
    exact ⟨canonical_of_hour (String.mk ['2', ':', c, d, 'a', 'm']) _ c d
        (ampm_one '2' c d 'a' (by decide) hc hd (Or.inl rfl)) (by decide) hc hd hr,
      canonical_of_hour (String.mk ['2', ':', c, d, 'p', 'm']) _ c d
        (ampm_one '2' c d 'p' (by decide) hc hd (Or.inr rfl)) (by decide) hc hd hr⟩
  · rw [show toString (3 : Nat) = "3" from by decide]
    exact ⟨canonical_of_hour (String.mk ['3', ':', c, d, 'a', 'm']) _ c d
        (ampm_one '3' c d 'a' (by decide) hc hd (Or.inl rfl)) (by decide) hc hd hr,
      canonical_of_hour (String.mk ['3', ':', c, d, 'p', 'm']) _ c d
        (ampm_one '3' c d 'p' (by decide) hc hd (Or.inr rfl)) (by decide) hc hd hr⟩
  · rw [show toString (4 : Nat) = "4" from by decide]
    exact ⟨canonical_of_hour (String.mk ['4', ':', c, d, 'a', 'm']) _ c d
        (ampm_one '4' c d 'a' (by decide) hc hd (Or.inl rfl)) (by decide) hc hd hr,
      canonical_of_hour (String.mk ['4', ':', c, d, 'p', 'm']) _ c d
        (ampm_one '4' c d 'p' (by decide) hc hd (Or.inr rfl)) (by decide) hc hd hr⟩
  · rw [show toString (5 : Nat) = "5" from by decide]
    exact ⟨canonical_of_hour (String.mk ['5', ':', c, d, 'a', 'm']) _ c d
        (ampm_one '5' c d 'a' (by decide) hc hd (Or.inl rfl)) (by decide) hc hd hr,
      canonical_of_hour (String.mk ['5', ':', c, d, 'p', 'm']) _ c d
        (ampm_one '5' c d 'p' (by decide) hc hd (Or.inr rfl)) (by decide) hc hd hr⟩
  · rw [show toString (6 : Nat) = "6" from by decide]
    exact ⟨canonical_of_hour (String.mk ['6', ':', c, d, 'a', 'm']) _ c d
        (ampm_one '6' c d 'a' (by decide) hc hd (Or.inl rfl)) (by decide) hc hd hr,
      canonical_of_hour (String.mk ['6', ':', c, d, 'p', 'm']) _ c d
        (ampm_one '6' c d 'p' (by decide) hc hd (Or.inr rfl)) (by decide) hc hd hr⟩
  · rw [show toString (7 : Nat) = "7" from by decide]
    exact ⟨canonical_of_hour (String.mk ['7', ':', c, d, 'a', 'm']) _ c d
        (ampm_one '7' c d 'a' (by decide) hc hd (Or.inl rfl)) (by decide) hc hd hr,
      canonical_of_hour (String.mk ['7', ':', c, d, 'p', 'm']) _ c d
        (ampm_one '7' c d 'p' (by decide) hc hd (Or.inr rfl)) (by decide) hc hd hr⟩
  · rw [show toString (8 : Nat) = "8" from by decide]
    exact ⟨canonical_of_hour (String.mk ['8', ':', c, d, 'a', 'm']) _ c d
        (ampm_one '8' c d 'a' (by decide) hc hd (Or.inl rfl)) (by decide) hc hd hr,
      canonical_of_hour (String.mk ['8', ':', c, d, 'p', 'm']) _ c d
        (ampm_one '8' c d 'p' (by decide) hc hd (Or.inr rfl)) (by decide) hc hd hr⟩
  · rw [show toString (9 : Nat) = "9" from by decide]
    exact ⟨canonical_of_hour (String.mk ['9', ':', c, d, 'a', 'm']) _ c d
        (ampm_one '9' c d 'a' (by decide) hc hd (Or.inl rfl)) (by decide) hc hd hr,
      canonical_of_hour (String.mk ['9', ':', c, d, 'p', 'm']) _ c d
        (ampm_one '9' c d 'p' (by decide) hc hd (Or.inr rfl)) (by decide) hc hd hr⟩
  · rw [show toString (10 : Nat) = "10" from by decide]
    exact ⟨canonical_of_hour (String.mk ['1', '0', ':', c, d, 'a', 'm']) _ c d
        (ampm_two '1' '0' c d 'a' (by decide) (by decide) hc hd (Or.inl rfl))
        (by decide) hc hd hr,
      canonical_of_hour (String.mk ['1', '0', ':', c, d, 'p', 'm']) _ c d
        (ampm_two '1' '0' c d 'p' (by decide) (by decide) hc hd (Or.inr rfl))
        (by decide) hc hd hr⟩
  · rw [show toString (11 : Nat) = "11" from by decide]
    exact ⟨canonical_of_hour (String.mk ['1', '1', ':', c, d, 'a', 'm']) _ c d
        (ampm_two '1' '1' c d 'a' (by decide) (by decide) hc hd (Or.inl rfl))
        (by decide) hc hd hr,
      canonical_of_hour (String.mk ['1', '1', ':', c, d, 'p', 'm']) _ c d
        (ampm_two '1' '1' c d 'p' (by decide) (by decide) hc hd (Or.inr rfl))
        (by decide) hc hd hr⟩
  · rw [show toString (12 : Nat) = "12" from by decide]
    exact ⟨canonical_of_hour (String.mk ['1', '2', ':', c, d, 'a', 'm']) _ c d
        (ampm_two '1' '2' c d 'a' (by decide) (by decide) hc hd (Or.inl rfl))
        (by decide) hc hd hr,
      canonical_of_hour (String.mk ['1', '2', ':', c, d, 'p', 'm']) _ c d
        (ampm_two '1' '2' c d 'p' (by decide) (by decide) hc hd (Or.inr rfl))
        (by decide) hc hd hr⟩

/-- C11, amended. `parseReminderTime` carries the digits of its input into the
result without a range check: for all digits `a`, `b`, `c`, `d` the inputs
"ab:cd", "b:cd" and "abcd" give "ab:cd", "0b:cd" and "ab:cd", and "ab:cd" is
canonical exactly when `ab` is at most 23 and `cd` at most 59.  For every hour
`h` from 1 to 12, "<h>am" and "<h>pm" give a canonical time, and so do
"<h>:cd am/pm" written without a blank when `cd` is at most 59.  An input that
passes none of the three recognisers gives "09:00", which is canonical. -/
theorem parseReminderTime_canonical_in_range :
    (∀ a b c d : Char, a.isDigit = true → b.isDigit = true → c.isDigit = true →
      d.isDigit = true →
        parseReminderTime (str (String.mk [a, b, ':', c, d])) = String.mk [a, b, ':', c, d] ∧
        parseReminderTime (str (String.mk [b, ':', c, d])) = String.mk ['0', b, ':', c, d] ∧
        parseReminderTime (str (String.mk [a, b, c, d])) = String.mk [a, b, ':', c, d] ∧
        (isCanonicalTime (String.mk [a, b, ':', c, d]) = true ↔
          digitsToNat [a, b] ≤ 23 ∧ digitsToNat [c, d] ≤ 59)) ∧
    (∀ h : Nat, 1 ≤ h → h ≤ 12 →
        isCanonicalTime (parseReminderTime (str (toString h ++ "am"))) = true ∧
        isCanonicalTime (parseReminderTime (str (toString h ++ "pm"))) = true ∧
        ∀ c d : Char, c.isDigit = true → d.isDigit = true → digitsToNat [c, d] ≤ 59 →
          isCanonicalTime (parseReminderTime
              (str (toString h ++ ":" ++ String.mk [c, d] ++ "am"))) = true ∧
            isCanonicalTime (parseReminderTime
              (str (toString h ++ ":" ++ String.mk [c, d] ++ "pm"))) = true) ∧
    (∀ v : JsVal, reClock.test (trim (lower v.toStr)) = false →
      reAmPm.test (trim (lower v.toStr)) = false →
      reFourDigits.test (trim (lower v.toStr)) = false → parseReminderTime v = "09:00") ∧
    isCanonicalTime "09:00" = true := by
  refine ⟨?_, ?_, parseReminderTime_unrecognised, by decide⟩
  · intro a b c d ha hb hc hd
    obtain ⟨e1, e2, e3⟩ := clock_digits a b c d ha hb hc hd
    refine ⟨e1, e2, e3, ?_⟩
    simp [isCanonicalTime, ha, hb, hc, hd]
  · intro h h1 h12
    refine ⟨?_, ?_, hours_with_minutes h h1 h12⟩
    · interval_cases h <;> decide
    · interval_cases h <;> decide

/-- C11, witness: "07:45", "7:45" and "0745" give "07:45", a canonical time. -/
theorem parseReminderTime_canonical_in_range_witness :
    parseReminderTime (str "07:45") = "07:45" ∧ parseReminderTime (str "7:45") = "07:45" ∧
      parseReminderTime (str "0745") = "07:45" ∧ isCanonicalTime "07:45" = true :=
  ⟨(parseReminderTime_canonical_in_range.1 '0' '7' '4' '5' (by decide) (by decide) (by decide)
      (by decide)).1,
    (parseReminderTime_canonical_in_range.1 '0' '7' '4' '5' (by decide) (by decide) (by decide)
      (by decide)).2.1,
    (parseReminderTime_canonical_in_range.1 '0' '7' '4' '5' (by decide) (by decide) (by decide)
      (by decide)).2.2.1,
    (parseReminderTime_canonical_in_range.1 '0' '7' '4' '5' (by decide) (by decide) (by decide)
      (by decide)).2.2.2.2 ⟨by decide, by decide⟩⟩

theorem lower_ne_empty (W : String) (h : lower W ≠ "") : W ≠ "" := by
  intro hW
  subst hW
  exact h rfl

theorem dayName_cases (W : String) (i : Nat) (h : dayNames[i]? = some (lower W)) :
    i < 7 ∧ indexOf dayNames (lower W) = some i ∧ trim (lower W) = lower W ∧
      lower W ≠ "" ∧ lower W ≠ "today" ∧ lower W ≠ "now" ∧ lower W ≠ "yesterday" ∧
      lower W ≠ "tomorrow" ∧
      String.mk (dropFirst "next ".data (lower W).data) = lower W ∧
      includes (lower W) "next" = false := by
  have hi : i < 7 := by
    by_contra hc
    have : dayNames[i]? = none := by
      apply List.getElem?_eq_none
      simp only [dayNames, List.length_cons, List.length_nil]
      omega
    rw [this] at h
    simp at h
  have hall : ∀ j, j < 7 → ∀ n, dayNames[j]? = some n →
      indexOf dayNames n = some j ∧ trim n = n ∧ n ≠ "" ∧ n ≠ "today" ∧ n ≠ "now" ∧
        n ≠ "yesterday" ∧ n ≠ "tomorrow" ∧ String.mk (dropFirst "next ".data n.data) = n ∧
        includes n "next" = false := by
    intro j hj n hn
    interval_cases j <;> simp [dayNames] at hn <;> subst hn <;> decide
  exact ⟨hi, hall i hi _ h⟩

/-- C12. For every current instant and every weekday name `W` in any letter
case (its lower-cased form is entry `i` of the list of day names), `parseDate`
returns the instant now when `W` is the weekday of today, and otherwise an
instant, at the same time of day, of a day 1 to 7 days after today whose
weekday is `W`. -/
theorem parseDate_weekday (env : Env) (W : String) (i : Nat)
    (h : dayNames[i]? = some (lower W)) :
    (parseDate env (str W)).ms = env.now.ms ∧
      (i = env.now.getDay → parseDate env (str W) = env.now) ∧
      (i ≠ env.now.getDay →
        1 ≤ (parseDate env (str W)).day - env.now.day ∧
          (parseDate env (str W)).day - env.now.day ≤ 7 ∧
          (parseDate env (str W)).getDay = i) := by
  obtain ⟨hi, hidx, htrim, hne, h1, h2, h3, h4, -, -⟩ := dayName_cases W i h
  have ht : (str W).truthy = true := truthy_str W (lower_ne_empty W hne)
  have hp : parseDate env (str W) = env.now.addDays
      (if i = env.now.getDay then 0
        else if (i : Int) - (env.now.getDay : Int) ≤ 0 then (i : Int) - env.now.getDay + 7
        else (i : Int) - env.now.getDay) := by
    simp [parseDate, ht, toStr_str, htrim, h1, h2, h3, h4, hidx]
  rw [hp]
  refine ⟨rfl, ?_, ?_⟩
  · intro hd
    simp [hd, JsDate.addDays]
  · intro hd
    simp only [hd, if_false, JsDate.addDays, JsDate.getDay] at *
    split_ifs <;> omega

/-- C12, witness: on Thursday 29 February 2024, "MONDAY" gives a Monday 1 to
7 days after today. -/
theorem parseDate_weekday_witness :
    dayNames[1]? = some (lower "MONDAY") ∧ 1 ≠ demoEnv.now.getDay ∧
      1 ≤ (parseDate demoEnv (str "MONDAY")).day - demoEnv.now.day ∧
      (parseDate demoEnv (str "MONDAY")).day - demoEnv.now.day ≤ 7 ∧
      (parseDate demoEnv (str "MONDAY")).getDay = 1 :=
  ⟨by decide, by decide, (parseDate_weekday demoEnv "MONDAY" 1 (by decide)).2.2 (by decide)⟩


/-- When `W` names the weekday of today, `parseReminderDate` answers the date
seven days after today. -/
theorem parseReminderDate_same_weekday (env : Env) (W : String)
    (h : dayNames[env.now.getDay]? = some (lower W)) :
    parseReminderDate env (str W) = formatDateLocal (env.now.addDays 7) := by
  obtain ⟨-, hidx, htrim, hne, h1, h2, h3, h4, h5, h6⟩ := dayName_cases W _ h
  have ht : (str W).truthy = true := truthy_str W (lower_ne_empty W hne)
  simp [parseReminderDate, ht, toStr_str, htrim, h1, h2, h3, h4, h5, h6, hidx]

/-- C13, failing input: on Thursday 29 February 2024 `parseReminderDate` of
"Thursday" is 7 March 2024, seven days after the answer for "today", while
`parseDate` of "Thursday" is today. -/
theorem parseReminderDate_today_weekday_plus_seven :
    getDayName demoEnv.now = "Thursday" ∧
      parseReminderDate demoEnv (str "today") = "2024-02-29" ∧
      parseReminderDate demoEnv (str "Thursday") = "2024-03-07" ∧
      formatDateLocal (parseDate demoEnv (str "Thursday")) = "2024-02-29" := by
  decide

/-- C14, failing input: at 10:00 on 15 March 2024, `parseReminderDate` of
"15 march", "15th march", "march 15" and "march 15th" is 15 March 2025, the
date of today moved to the next year; "16 march" stays in 2024, and at
midnight sharp "15 march" does too. -/
theorem parseReminderDate_today_rolls_over :
    formatDateLocal marchEnv.now = "2024-03-15" ∧
      parseReminderDate marchEnv (str "15 march") = "2025-03-15" ∧
      parseReminderDate marchEnv (str "15th march") = "2025-03-15" ∧
      parseReminderDate marchEnv (str "march 15") = "2025-03-15" ∧
      parseReminderDate marchEnv (str "march 15th") = "2025-03-15" ∧
      parseReminderDate marchEnv (str "16 march") = "2024-03-16" ∧
      parseReminderDate { marchEnv with now := { day := 19797, ms := 0 } } (str "15 march") =
        "2024-03-15" := by
  decide

/-! ## The deterministic extractors -/

/-- The deterministic classifier and the extractor of `intentClassifier.js`
on "Remind me to take vitamins at 8am". -/
theorem vitamins_classifier :
    (fallbackClassification demoEnv "Remind me to take vitamins at 8am").intent = str "add" ∧
      (fallbackClassification demoEnv "Remind me to take vitamins at 8am").entity =
        str "reminder" ∧
      (fallbackClassification demoEnv "Remind me to take vitamins at 8am").details.get
          "extracted_values" =
        obj [("reminder_name", str "take vitamins"), ("reminder_time", str "08:00")] ∧
      extractValuesWithRegex "Remind me to take vitamins at 8am" "reminder" =
        obj [("reminder_time", str "08:00"), ("reminder_name", str "take vitamins")] :=
  ⟨rfl, rfl, rfl, rfl⟩

/-- C15, failing input: `fallbackExtraction` of the chat controller, for the
entity reminder, answers "Remind me to take vitamins at 8am" with the reminder
name "Remind me to take vitamins"; and the extractor of `intentClassifier.js`
answers "Remind me to call attorney at 5pm" with the name "call". -/
theorem vitamins_controller_keeps_prefix :
    fallbackExtraction "Remind me to take vitamins at 8am" (ofEntity "reminder") =
        obj [("reminder_name", str "Remind me to take vitamins"),
          ("reminder_time", str "08:00")] ∧
      extractValuesWithRegex "Remind me to call attorney at 5pm" "reminder" =
        obj [("reminder_time", str "17:00"), ("reminder_name", str "call")] :=
  ⟨rfl, rfl⟩

/-- The extractor of `intentClassifier.js` on "Add milk, eggs and bread to
shopping list". -/
theorem shopping_items_classifier :
    extractValuesWithRegex "Add milk, eggs and bread to shopping list" "shopping" =
      obj [("items", arr [str "milk", str "eggs", str "bread"])] :=
  rfl

/-- C16, failing input: `fallbackExtraction` of the chat controller, for the
entity shopping, answers "Add milk, eggs and bread to shopping list" with the
items "milk", "eggs" and "bread to": the text left after the removals is
"milk, eggs and bread to". -/
theorem shopping_items_controller_keeps_to :
    cleanedOf "Add milk, eggs and bread to shopping list" = "milk, eggs and bread to" ∧
      fallbackExtraction "Add milk, eggs and bread to shopping list" (ofEntity "shopping") =
        obj [("items", arr [str "milk", str "eggs", str "bread to"])] :=
  ⟨by decide, rfl⟩

/-- The deterministic classifier and the extractor of the chat controller on
"Change my chest to 40". -/
theorem chest_classifier_and_controller :
    (fallbackClassification demoEnv "Change my chest to 40").intent = str "update" ∧
      (fallbackClassification demoEnv "Change my chest to 40").entity = str "measurement" ∧
      (fallbackClassification demoEnv "Change my chest to 40").details.get "extracted_values" =
        obj [("name", str "chest"), ("value", num 40)] ∧
      fallbackExtraction "Change my chest to 40" (ofEntity "measurement") =
        obj [("name", str "chest"), ("value", num 40)] ∧
      getMeasurementColumn (str "chest") = .ok (.own "chest") :=
  ⟨rfl, rfl, rfl, rfl, rfl⟩

/-- C18, failing input: `extractValuesWithRegex`, for the entity measurement,
answers "Change my chest to 40" with the name "my_chest", which
`getMeasurementColumn` does not resolve. -/
theorem chest_regex_keeps_my :
    extractValuesWithRegex "Change my chest to 40" "measurement" =
        obj [("name", str "my_chest"), ("value", num 40)] ∧
      getMeasurementColumn (str "my_chest") = .ok .absent :=
  ⟨rfl, rfl⟩

/-! ## The measurement columns -/

/-- Every name that does not lead to a member of `Object.prototype` resolves
to nothing or to one of the 20 measurement columns. -/
theorem getMeasurementColumn_closed (name : String) (r : Looked String)
    (h : getMeasurementColumn (str name) = .ok r) :
    r = .absent ∨ (∃ c, r = .own c ∧ c ∈ measurementColumns) ∨
      (∃ p, r = .inherited p ∧ p ∈ objectProtoNames ∧ p = trim (lower name)) := by
  have hvals : ∀ c ∈ measurementColumnMap.map Prod.snd, c ∈ measurementColumns := by decide
  unfold getMeasurementColumn at h
  split at h
  · simp only [Except.ok.injEq] at h
    exact Or.inl h.symm
  · simp only [toLowerCase, Except.ok.injEq] at h
    subst h
    unfold literalGet
    cases hk : ownGet measurementColumnMap (trim (lower name)) with
    | some c =>
      exact Or.inr (Or.inl ⟨c, rfl, hvals c (ownGet_mem _ _ _ hk)⟩)
    | none =>
      by_cases hp : objectProtoNames.contains (trim (lower name)) = true
      · simp only [hp, if_true]
        exact Or.inr (Or.inr ⟨_, rfl, by simpa using hp, rfl⟩)
      · simp only [hp, Bool.false_eq_true, if_false]
        exact Or.inl trivial

/-- C19, failing input: for the names "constructor" and "__proto__"
`getMeasurementColumn` returns the member of `Object.prototype` of that name,
which is neither `null` nor one of the 20 columns, and `updateMeasurement`
then fails on the statement it builds from it. -/
theorem getMeasurementColumn_inherited :
    getMeasurementColumn (str "constructor") = .ok (.inherited "constructor") ∧
      getMeasurementColumn (str "__proto__") = .ok (.inherited "__proto__") ∧
      (updateMeasurement (obj [("name", str "constructor"), ("value", num 40)])
          demoMeasureStore).1.success = false ∧
      (updateMeasurement (obj [("name", str "constructor"), ("value", num 40)])
          demoMeasureStore).1.error = some badColumn :=
  ⟨rfl, rfl, rfl, rfl⟩


/-! ## Shopping items -/

theorem setTable_log (db : Store) (t : Tbl) (x : Table) : (db.setTable t x).log = db.log := by
  cases t <;> rfl

theorem grocery_newRow (id now : Nat) (item a p d e : JsVal) :
    colGet (newRow .shopping_list id now
      [("grocery_name", item), ("amount", a), ("price_rupees", p), ("day", d), ("date", e)])
      "grocery_name" = toSql item := by
  simp [newRow, colGet]

theorem insertItems_spec (dayName dateStr : String) (items : List JsVal) :
    ∀ (db : Store) (acc : List Row), ∃ rows : List Row,
      (insertItems dayName dateStr items db acc).1 = acc ++ rows ∧
      rows.length = items.length ∧
      rows.map (fun r => colGet r "grocery_name") = items.map toSql ∧
      ((insertItems dayName dateStr items db acc).2.table .shopping_list).rows =
        (db.table .shopping_list).rows ++ rows ∧
      (insertItems dayName dateStr items db acc).2.log =
        db.log ++ List.replicate items.length (Op.insert, Tbl.shopping_list) ∧
      ∀ t, t ≠ Tbl.shopping_list →
        (insertItems dayName dateStr items db acc).2.table t = db.table t := by
  induction items with
  | nil =>
    intro db acc
    exact ⟨[], by simp [insertItems]⟩
  | cons item rest ih =>
    intro db acc
    obtain ⟨rows, h1, h2, h3, h4, h5, h6⟩ := ih
      (db.insert .shopping_list
        [("grocery_name", item), ("amount", str "1 unit"), ("price_rupees", num 0),
          ("day", str dayName), ("date", str dateStr)]).2
      (acc ++ [(db.insert .shopping_list
        [("grocery_name", item), ("amount", str "1 unit"), ("price_rupees", num 0),
          ("day", str dayName), ("date", str dateStr)]).1])
    refine ⟨(db.insert .shopping_list
        [("grocery_name", item), ("amount", str "1 unit"), ("price_rupees", num 0),
          ("day", str dayName), ("date", str dateStr)]).1 :: rows, ?_, ?_, ?_, ?_, ?_, ?_⟩
    · simp only [insertItems]
      rw [h1]
      simp
    · simp [h2]
    · simp only [List.map_cons, h3, insert_fst, grocery_newRow]
    · simp only [insertItems]
      rw [h4]
      simp
    · simp only [insertItems]
      rw [h5]
      simp [List.replicate_succ, setTable_log]
    · intro t ht
      simp only [insertItems]
      rw [h6 t ht]
      simp [table_setTable_ne _ _ _ _ (Ne.symm ht)]

theorem toSql_str_map (names : List String) : (names.map str).map toSql = names.map str := by
  induction names with
  | nil => rfl
  | cons a r ih => simp [toSql]

/-- C17. For every non-empty list of item names, `addShoppingItem` on the
mapping that holds this list as `items` issues exactly one `INSERT` into
`shopping_list` per name and no other statement, appends one row per name in
list order, each with that name as its `grocery_name`, leaves the rows already
in the table and every other table as they were, and returns success with the
action added and exactly these rows as data. -/
theorem addShoppingItem_inserts_each (env : Env) (names : List String) (db : Store)
    (hn : names ≠ []) :
    ∃ rows : List Row,
      (addShoppingItem env (obj [("items", arr (names.map str))]) db).1.success = true ∧
      (addShoppingItem env (obj [("items", arr (names.map str))]) db).1.action = some "added" ∧
      (addShoppingItem env (obj [("items", arr (names.map str))]) db).1.data = rowsVal rows ∧
      rows.length = names.length ∧
      rows.map (fun r => colGet r "grocery_name") = names.map str ∧
      ((addShoppingItem env (obj [("items", arr (names.map str))]) db).2.table
          .shopping_list).rows = (db.table .shopping_list).rows ++ rows ∧
      (addShoppingItem env (obj [("items", arr (names.map str))]) db).2.log =
        db.log ++ List.replicate names.length (Op.insert, Tbl.shopping_list) ∧
      ∀ t, t ≠ Tbl.shopping_list →
        (addShoppingItem env (obj [("items", arr (names.map str))]) db).2.table t =
          db.table t := by
  obtain ⟨a, r, rfl⟩ := List.exists_cons_of_ne_nil hn
  obtain ⟨rows, h1, h2, h3, h4, h5, h6⟩ := insertItems_spec (getDayName env.now)
    (formatDateLocal env.now) ((a :: r).map str) db []
  have hbody : addShoppingItemBody env (obj [("items", arr ((a :: r).map str))]) db =
      (.ret { success := true, action := some "added",
              data := rowsVal (insertItems (getDayName env.now) (formatDateLocal env.now)
                ((a :: r).map str) db []).1,
              message := some ("Added " ++ toString ((a :: r).map str).length ++
                " items to shopping list: " ++ joinWith ", " ((a :: r).map str)) },
        (insertItems (getDayName env.now) (formatDateLocal env.now)
          ((a :: r).map str) db []).2) := by
    simp [addShoppingItemBody, JsVal.get, JsVal.lookup, JsVal.orElse, JsVal.truthy]
  have hout : addShoppingItem env (obj [("items", arr ((a :: r).map str))]) db =
      ({ success := true, action := some "added",
         data := rowsVal (insertItems (getDayName env.now) (formatDateLocal env.now)
           ((a :: r).map str) db []).1,
         message := some ("Added " ++ toString ((a :: r).map str).length ++
           " items to shopping list: " ++ joinWith ", " ((a :: r).map str)) },
        (insertItems (getDayName env.now) (formatDateLocal env.now)
          ((a :: r).map str) db []).2) := by
    rw [addShoppingItem, hbody]
    rfl
  rw [hout]
  refine ⟨rows, rfl, rfl, ?_, ?_, ?_, h4, ?_, h6⟩
  · simp only [h1, List.nil_append]
  · rw [h2, List.length_map]
  · rw [h3, toSql_str_map]
  · rw [h5, List.length_map]

/-- C17, witness: "milk", "eggs" and "bread" on the empty store: three
inserts, three rows. -/
theorem addShoppingItem_inserts_each_witness :
    ∃ rows : List Row,
      (addShoppingItem demoEnv (obj [("items", arr (["milk", "eggs", "bread"].map str))])
        emptyStore).1.data = rowsVal rows ∧ rows.length = 3 ∧
      rows.map (fun r => colGet r "grocery_name") = [str "milk", str "eggs", str "bread"] ∧
      (addShoppingItem demoEnv (obj [("items", arr (["milk", "eggs", "bread"].map str))])
        emptyStore).2.log =
        [(Op.insert, Tbl.shopping_list), (Op.insert, Tbl.shopping_list),
          (Op.insert, Tbl.shopping_list)] := by
  obtain ⟨rows, -, -, h3, h4, h5, -, h7, -⟩ :=
    addShoppingItem_inserts_each demoEnv ["milk", "eggs", "bread"] emptyStore (by decide)
  exact ⟨rows, h3, h4, h5, h7⟩


/-! ## Spellings of measurement names -/

/-- C20, counterexample: "wei ght" and "weight" are equal after lower-casing
and deleting spaces and underscores, yet the first resolves to nothing and the
second to the column `weight`. -/
theorem squashed_names_differ :
    squashName "wei ght" = squashName "weight" ∧
      getMeasurementColumn (str "wei ght") = .ok .absent ∧
      getMeasurementColumn (str "weight") = .ok (.own "weight") :=
  ⟨by decide, rfl, rfl⟩

theorem getMeasurementColumn_blank (b : String) (h : trim (lower b) = "") :
    getMeasurementColumn (str b) = .ok .absent := by
  unfold getMeasurementColumn
  split
  · rfl
  · simp only [toLowerCase, h]
    rfl

/-- C20, amended. Any two names that are equal after lower-casing and removing
the white space around them get the same answer from `getMeasurementColumn`;
and the spellings the map lists resolve alike: "bench press", "benchpress" and
"Bench Press" to `bench_max`, "overhead press" and "overheadpress" to
`overhead_press_max`, "left bicep", "leftbicep" and "left_bicep" to
`left_bicep`. -/
theorem getMeasurementColumn_case_and_trim :
    (∀ a b : String, trim (lower a) = trim (lower b) →
        getMeasurementColumn (str a) = getMeasurementColumn (str b)) ∧
      (getMeasurementColumn (str "bench press") = .ok (.own "bench_max") ∧
        getMeasurementColumn (str "benchpress") = .ok (.own "bench_max") ∧
        getMeasurementColumn (str "Bench Press") = .ok (.own "bench_max")) ∧
      (getMeasurementColumn (str "overhead press") = .ok (.own "overhead_press_max") ∧
        getMeasurementColumn (str "overheadpress") = .ok (.own "overhead_press_max")) ∧
      (getMeasurementColumn (str "left bicep") = .ok (.own "left_bicep") ∧
        getMeasurementColumn (str "leftbicep") = .ok (.own "left_bicep") ∧
        getMeasurementColumn (str "left_bicep") = .ok (.own "left_bicep")) := by
  refine ⟨?_, ⟨rfl, rfl, rfl⟩, ⟨rfl, rfl⟩, ⟨rfl, rfl, rfl⟩⟩
  intro a b h
  by_cases ha : a = ""
  · subst ha
    have hb : trim (lower b) = "" := by
      rw [← h]
      decide
    rw [getMeasurementColumn_blank b hb, getMeasurementColumn_blank "" (by decide)]
  · by_cases hb : b = ""
    · subst hb
      have ha2 : trim (lower a) = "" := by
        rw [h]
        decide
      rw [getMeasurementColumn_blank a ha2, getMeasurementColumn_blank "" (by decide)]
    · simp [getMeasurementColumn, truthy_str a ha, truthy_str b hb, toLowerCase, h]

/-- C20, witness: "  CHEST " and "chest". -/
theorem getMeasurementColumn_case_and_trim_witness :
    trim (lower "  CHEST ") = trim (lower "chest") ∧
      getMeasurementColumn (str "  CHEST ") = getMeasurementColumn (str "chest") :=
  ⟨by decide, getMeasurementColumn_case_and_trim.1 "  CHEST " "chest" (by decide)⟩


/-! ## The week and day of a meal -/

theorem getDate_range (d : JsDate) : 1 ≤ d.getDate ∧ d.getDate ≤ 31 := by
  unfold JsDate.getDate civilFromDays
  simp only
  omega

theorem weekOf_ceil (d : Nat) (h1 : 1 ≤ d) : weekOf d = ⌈(d : ℚ) / 7⌉₊ := by
  unfold weekOf
  symm
  rw [Nat.ceil_eq_iff (by omega)]
  constructor
  · rw [lt_div_iff₀ (by norm_num)]
    have : ((d + 6) / 7 - 1) * 7 < d := by omega
    exact_mod_cast this
  · rw [div_le_iff₀ (by norm_num)]
    have : d ≤ (d + 6) / 7 * 7 := by omega
    exact_mod_cast this

theorem week_day_of_month (d : Nat) (h1 : 1 ≤ d) (h31 : d ≤ 31) :
    1 ≤ weekOf d ∧ weekOf d ≤ 5 ∧ 1 ≤ dayInWeekOf d ∧ dayInWeekOf d ≤ 7 ∧
      (weekOf d - 1) * 7 + dayInWeekOf d = d ∧
      dayStrOf d = "Day " ++ toString (dayInWeekOf d) ∧
      recipeDayOfMonth (weekOf d) (dayStrOf d) = d := by
  interval_cases d <;> decide

/-- C30. For every day of the month `d` from 1 to 31: the week that
`markMealAsEaten` and `deleteDietLog` compute is the ceiling of `d / 7` and lies
in 1 to 5, the day index lies in 1 to 7, `(week - 1) * 7 + index` is `d`, and
the `day_of_month` that `foodRecipeModel.js` computes from the week and the
day text is `d` again.  Consequently the keys (week, day text) of two instants
are equal exactly when their days of the month are equal. -/
theorem week_day_key_bijective :
    (∀ d : Nat, 1 ≤ d → d ≤ 31 →
      weekOf d = ⌈(d : ℚ) / 7⌉₊ ∧ 1 ≤ weekOf d ∧ weekOf d ≤ 5 ∧
        1 ≤ dayInWeekOf d ∧ dayInWeekOf d ≤ 7 ∧ (weekOf d - 1) * 7 + dayInWeekOf d = d ∧
        recipeDayOfMonth (weekOf d) (dayStrOf d) = d) ∧
    (∀ a b : JsDate,
      (weekOf a.getDate = weekOf b.getDate ∧ dayStrOf a.getDate = dayStrOf b.getDate) ↔
        a.getDate = b.getDate) := by
  constructor
  · intro d h1 h31
    obtain ⟨a1, a2, a3, a4, a5, -, a7⟩ := week_day_of_month d h1 h31
    exact ⟨weekOf_ceil d h1, a1, a2, a3, a4, a5, a7⟩
  · intro a b
    constructor
    · rintro ⟨hw, hd⟩
      have e1 := (week_day_of_month a.getDate (getDate_range a).1 (getDate_range a).2).2.2.2.2.2.2
      have e2 := (week_day_of_month b.getDate (getDate_range b).1 (getDate_range b).2).2.2.2.2.2.2
      rw [hw, hd, e2] at e1
      exact_mod_cast e1.symm
    · intro h
      rw [h]
      exact ⟨rfl, rfl⟩

/-- C30, witness: the 17th is day 3 of week 3. -/
theorem week_day_key_bijective_witness :
    weekOf 17 = 3 ∧ dayInWeekOf 17 = 3 ∧ recipeDayOfMonth (weekOf 17) (dayStrOf 17) = 17 := by
  have h := week_day_key_bijective.1 17 (by decide) (by decide)
  exact ⟨by decide, by decide, h.2.2.2.2.2.2⟩

/-! ## Names of measurements among the extractors -/

/-- Every name of the schema other than "overhead_press" resolves to a column,
every name that `fallbackClassification` can emit does, and so does every name
that `fallbackExtraction` can emit other than "overhead_press" and
"bench_press" (which it never emits, "bench" coming first in its list). -/
theorem emitted_names_resolve :
    (∀ n ∈ schemaMeasurementNames, n ≠ "overhead_press" → resolves n = true) ∧
      (∀ part ∈ measurementParts, resolves (emittedName part) = true) ∧
      (∀ part ∈ controllerMeasurementParts, part ≠ "overhead press" →
        part ≠ "bench press" →
        resolves (emittedName part) = true) := by
  decide

/-- C21, failing input: "overhead_press" is a name of the schema, and
`fallbackExtraction` emits it for "Set overhead press to 50"; yet
`getMeasurementColumn` resolves it to nothing and `updateMeasurement` answers
`Unknown measurement`. -/
theorem overhead_press_unknown :
    "overhead_press" ∈ schemaMeasurementNames ∧
      fallbackExtraction "Set overhead press to 50" (ofEntity "measurement") =
        obj [("name", str "overhead_press"), ("value", num 50)] ∧
      getMeasurementColumn (str "overhead_press") = .ok .absent ∧
      (updateMeasurement (obj [("name", str "overhead_press"), ("value", num 50)])
          demoMeasureStore).1.error =
        some ("Unknown measurement: overhead_press" ++ validMeasurements) :=
  ⟨by decide, rfl, rfl, rfl⟩

/-! ## The ladders of the deterministic classifier -/

/-- When the message has "today's" followed by one of the eight words that
the intent rule lists, the intent is query. -/
theorem todays_listed_word_query (env : Env) (message : String)
    (h : reTodaysIntent.test (lower message) = true) :
    (fallbackClassification env message).intent = str "query" := by
  have h2 : (Re.seq reTodays (reWords ["workout", "meal", "food", "diet", "analytic",
      "reminder", "calorie", "macro"])).test (lower message) = true := h
  simp [fallbackClassification, fallbackIntent, h2]

/-- C22, failing input: "add today's exercise" gets its entity workout from
the rule for "today's workout/exercise", and its intent is add; "today's
exercise" gets chat and "delete today's summary" gets delete. -/
theorem todays_exercise_not_query :
    reCaloriesBurnt.test (lower "add today's exercise") = false ∧
      (Re.seq reTodays (reWords ["workout", "exercise"])).test (lower "add today's exercise") =
        true ∧
      (fallbackClassification demoEnv "add today's exercise").entity = str "workout" ∧
      (fallbackClassification demoEnv "add today's exercise").intent = str "add" ∧
      (fallbackClassification demoEnv "today's exercise").intent = str "chat" ∧
      (fallbackClassification demoEnv "delete today's summary").entity = str "analytics" ∧
      (fallbackClassification demoEnv "delete today's summary").intent = str "delete" :=
  ⟨by decide, by decide, rfl, rfl, rfl, rfl, rfl⟩

/-- For the entity reminder the intent is one of query, add, update and
delete, never chat. -/
theorem reminder_intent_never_chat (lowerMessage : String) :
    fallbackIntent lowerMessage "reminder" ∈ ["query", "add", "update", "delete"] := by
  unfold fallbackIntent
  split_ifs <;> simp_all

/-- C23, failing input: "remove water reminder", an exemplar that the corpus
labels delete, has the entity reminder and no "today's" phrasing, and gets the
intent update, the pattern for update finding "move" inside "remove"; "cancel
my reminder" gets delete. -/
theorem remove_reminder_is_update :
    ({ text := "remove water reminder", intent := "delete", entity := "reminder" } :
        CorpusItem) ∈ INTENT_CORPUS ∧
      reTodaysIntent.test (lower "remove water reminder") = false ∧
      (reWords ["update", "change", "modify", "edit", "move", "reschedule"]).test
        (lower "remove water reminder") = true ∧
      (fallbackClassification demoEnv "remove water reminder").entity = str "reminder" ∧
      (fallbackClassification demoEnv "remove water reminder").intent = str "update" ∧
      (fallbackClassification demoEnv "cancel my reminder").intent = str "delete" :=
  ⟨by decide, by decide, by decide, rfl, rfl, rfl⟩

/-- C29, failing input: for every body-part keyword `P` the message
"update P to 72" gets the entity diet, the diet rule finding "ate" inside
"update"; so do the corpus exemplars "update height to 175cm" and "update left
bicep to 14 inches", which the corpus labels measurement. -/
theorem update_measurement_is_diet :
    (∀ P ∈ bodyPartKeywords,
        reDietEntity.test (lower ("update " ++ P ++ " to 72")) = true ∧
        fallbackEntity (lower ("update " ++ P ++ " to 72")) = "diet" ∧
        fallbackIntent (lower ("update " ++ P ++ " to 72")) "diet" = "update") ∧
      (fallbackClassification demoEnv "update weight to 72").entity = str "diet" ∧
      ({ text := "update height to 175cm", intent := "update", entity := "measurement" } :
        CorpusItem) ∈ INTENT_CORPUS ∧
      (fallbackClassification demoEnv "update height to 175cm").entity = str "diet" ∧
      (fallbackClassification demoEnv "update left bicep to 14 inches").entity = str "diet" :=
  ⟨by decide, rfl, by decide, rfl, rfl⟩

/-! ## The vector index -/

theorem singleFlight_initial (corpus : List CorpusItem) :
    SingleFlight corpus IndexState.initial :=
  Or.inl ⟨rfl, rfl, rfl, rfl⟩

theorem singleFlight_call (corpus : List CorpusItem) (st : IndexState)
    (h : SingleFlight corpus st) : SingleFlight corpus (initializeOver corpus st).2 := by
  rcases h with ⟨h1, h2, h3, h4⟩ | ⟨b, h1, h2, h3⟩
  · cases corpus with
    | nil =>
      refine Or.inr ⟨{ next := 0, promise := .fulfilled true }, ?_, ?_, Or.inr (Or.inl ?_)⟩
      · simp [initializeOver, h1, h2, h3]
      · simp [initializeOver, h1, h2, h3]
      · simp [initializeOver, h1, h2, h3]
    | cons c cs =>
      refine Or.inr ⟨{ next := 0, promise := .pending }, ?_, ?_, Or.inl ?_⟩
      · simp [initializeOver, h1, h2, h3]
      · simp [initializeOver, h1, h2, h3]
      · simp [initializeOver, h1, h2, h3]
  · have : (initializeOver corpus st).2 = st := by
      unfold initializeOver
      split
      · rfl
      · simp [h2]
    rw [this]
    exact Or.inr ⟨b, h1, h2, h3⟩

theorem take_succ_items (corpus : List CorpusItem) (i : Nat) (item : CorpusItem)
    (h : corpus[i]? = some item) : corpus.take (i + 1) = corpus.take i ++ [item] := by
  rw [List.take_succ, h]
  rfl

theorem singleFlight_resume (corpus : List CorpusItem) (st : IndexState) (k : Nat)
    (r : Except String (List Rat)) (h : SingleFlight corpus st) :
    SingleFlight corpus (resumeOver corpus st k r) := by
  rcases h with ⟨h1, h2, h3, h4⟩ | ⟨b, h1, h2, h3⟩
  · have : resumeOver corpus st k r = st := by
      simp [resumeOver, h1]
    rw [this]
    exact Or.inl ⟨h1, h2, h3, h4⟩
  · cases k with
    | succ n =>
      have : resumeOver corpus st (n + 1) r = st := by
        simp [resumeOver, h1]
      rw [this]
      exact Or.inr ⟨b, h1, h2, h3⟩
    | zero =>
      obtain ⟨i, p⟩ := b
      rcases h3 with ⟨hp, hi, hlt, l, hl, hmap⟩ | ⟨hp, hrest⟩ | ⟨hp, hrest⟩
      · simp only at hp hlt hmap
        subst hp
        obtain ⟨item, hitem⟩ : ∃ item, corpus[i]? = some item :=
          ⟨corpus[i], List.getElem?_eq_getElem hlt⟩
        cases r with
        | error e =>
          refine Or.inr ⟨{ next := i, promise := .fulfilled false }, ?_, ?_, Or.inr (Or.inr ?_)⟩
          · simp [resumeOver, h1]
          · simp [resumeOver, h1, h2]
          · simp [resumeOver, h1]
        | ok embedding =>
          by_cases hnext : i + 1 < corpus.length
          · refine Or.inr ⟨{ next := i + 1, promise := .pending }, ?_, ?_, Or.inl ?_⟩
            · simp [resumeOver, h1, hitem, hl, hnext]
            · simp [resumeOver, h1, hitem, hl, hnext, h2]
            · refine ⟨rfl, ?_, hnext, l ++ [{ item := item, embedding := embedding }], ?_, ?_⟩
              · simp [resumeOver, h1, hitem, hl, hnext, hi]
              · simp [resumeOver, h1, hitem, hl, hnext]
              · simp [hmap, take_succ_items corpus i item hitem]
          · refine Or.inr ⟨{ next := i + 1, promise := .fulfilled true }, ?_, ?_,
              Or.inr (Or.inl ?_)⟩
            · simp [resumeOver, h1, hitem, hl, hnext]
            · simp [resumeOver, h1, hitem, hl, hnext, h2]
            · refine ⟨rfl, ?_, l ++ [{ item := item, embedding := embedding }], ?_, ?_⟩
              · simp [resumeOver, h1, hitem, hl, hnext]
              · simp [resumeOver, h1, hitem, hl, hnext]
              · have hfull : corpus.take (i + 1) = corpus :=
                  List.take_of_length_le (by omega)
                rw [List.map_append, hmap]
                simp only [List.map_cons, List.map_nil]
                rw [← take_succ_items corpus i item hitem, hfull]
      · simp only at hp
        subst hp
        have : resumeOver corpus st 0 r = st := by
          simp [resumeOver, h1]
        rw [this]
        exact Or.inr ⟨_, h1, h2, Or.inr (Or.inl ⟨rfl, hrest⟩)⟩
      · simp only at hp
        subst hp
        have : resumeOver corpus st 0 r = st := by
          simp [resumeOver, h1]
        rw [this]
        exact Or.inr ⟨_, h1, h2, Or.inr (Or.inr ⟨rfl, hrest⟩)⟩

theorem singleFlight_run (corpus : List CorpusItem) (events : List IndexEvent) :
    ∀ st, SingleFlight corpus st → SingleFlight corpus (runOver corpus st events) := by
  induction events with
  | nil => exact fun st h => h
  | cons e es ih =>
    intro st h
    apply ih
    cases e with
    | call => exact singleFlight_call corpus st h
    | embedded k r => exact singleFlight_resume corpus st k r h

theorem entriesWith_take_succ (embed : String → List Rat) (corpus : List CorpusItem) (k : Nat)
    (hk : k < corpus.length) :
    entriesWith embed (corpus.take (k + 1)) =
      entriesWith embed (corpus.take k) ++
        [{ item := corpus[k], embedding := embed corpus[k].text }] := by
  unfold entriesWith
  rw [take_succ_items corpus k corpus[k] (List.getElem?_eq_getElem hk), List.map_append]
  rfl

theorem run_build (embed : String → List Rat) (corpus : List CorpusItem) :
    ∀ n k, corpus.length - k = n → k < corpus.length →
      runOver corpus
          { corpusEmbeddings := some (entriesWith embed (corpus.take k)), isInitialized := false,
            initializationPromise := some 0, builds := [{ next := k, promise := .pending }] }
          ((corpus.drop k).map (fun item => IndexEvent.embedded 0 (.ok (embed item.text)))) =
        { corpusEmbeddings := some (entriesWith embed corpus), isInitialized := true,
          initializationPromise := some 0,
          builds := [{ next := corpus.length, promise := .fulfilled true }] } := by
  intro n
  induction n with
  | zero =>
    intro k h1 h2
    omega
  | succ n ih =>
    intro k h1 h2
    rw [List.drop_eq_getElem_cons h2]
    simp only [List.map_cons, runOver, List.foldl_cons]
    by_cases hnext : k + 1 < corpus.length
    · have hstep : stepOver corpus
          { corpusEmbeddings := some (entriesWith embed (corpus.take k)), isInitialized := false,
            initializationPromise := some 0, builds := [{ next := k, promise := .pending }] }
          (IndexEvent.embedded 0 (.ok (embed corpus[k].text))) =
          { corpusEmbeddings := some (entriesWith embed (corpus.take (k + 1))),
            isInitialized := false, initializationPromise := some 0,
            builds := [{ next := k + 1, promise := .pending }] } := by
        simp [stepOver, resumeOver, List.getElem?_eq_getElem h2, hnext,
          entriesWith_take_succ embed corpus k h2]
      rw [hstep]
      exact ih (k + 1) (by omega) hnext
    · have hstep : stepOver corpus
          { corpusEmbeddings := some (entriesWith embed (corpus.take k)), isInitialized := false,
            initializationPromise := some 0, builds := [{ next := k, promise := .pending }] }
          (IndexEvent.embedded 0 (.ok (embed corpus[k].text))) =
          { corpusEmbeddings := some (entriesWith embed corpus),
            isInitialized := true, initializationPromise := some 0,
            builds := [{ next := corpus.length, promise := .fulfilled true }] } := by
        have hfull : corpus.take (k + 1) = corpus := List.take_of_length_le (by omega)
        have hlen : k + 1 = corpus.length := by omega
        simp [stepOver, resumeOver, List.getElem?_eq_getElem h2, hnext, hlen]
        rw [← entriesWith_take_succ embed corpus k h2, hfull]
      rw [hstep]
      have hdrop : corpus.drop (k + 1) = [] := List.drop_of_length_le (by omega)
      rw [hdrop]
      rfl

theorem builtWith_state (embed : String → List Rat) :
    builtWith embed =
      { corpusEmbeddings := some (entriesWith embed INTENT_CORPUS), isInitialized := true,
        initializationPromise := some 0,
        builds := [{ next := INTENT_CORPUS.length, promise := .fulfilled true }] } := by
  have hne : 0 < INTENT_CORPUS.length := by
    rw [INTENT_CORPUS, workoutExemplars]
    simp
  have h := run_build embed INTENT_CORPUS INTENT_CORPUS.length 0 (Nat.sub_zero _) hne
  simp only [List.take_zero, List.drop_zero] at h
  unfold builtWith IndexState.run buildEvents
  rw [← h]
  simp only [runOver, List.foldl_cons]
  rfl

theorem bestLoop_spec (sqrt : Rat → Rat) (q : List Rat) :
    ∀ (l : List Embedded) (b0 : Option Embedded) (s0 : Rat) (b : Option Embedded) (s : Rat),
      bestLoop sqrt q l (b0, s0) = (b, s) →
      ((∀ e ∈ l, ∀ x, cosineSimilarity sqrt q e.embedding = some x → x ≤ s0) ∧
          b = b0 ∧ s = s0) ∨
        ∃ (i : Nat) (e : Embedded), l[i]? = some e ∧
          cosineSimilarity sqrt q e.embedding = some s ∧ b = some e ∧
          s0 < s ∧
          (∀ e' ∈ l, ∀ x, cosineSimilarity sqrt q e'.embedding = some x → x ≤ s) ∧
          ∀ (j : Nat) (e' : Embedded) (x : Rat), j < i → l[j]? = some e' →
            cosineSimilarity sqrt q e'.embedding = some x → x < s := by
  intro l
  induction l with
  | nil =>
    intro b0 s0 b s h
    simp only [bestLoop, Prod.mk.injEq] at h
    exact Or.inl ⟨by simp, h.1.symm, h.2.symm⟩
  | cons a l ih =>
    intro b0 s0 b s h
    cases hc : cosineSimilarity sqrt q a.embedding with
    | none =>
      simp only [bestLoop, hc] at h
      rcases ih b0 s0 b s h with ⟨h1, h2, h3⟩ | ⟨i, e, h1, h2, h3, h4, h5, h6⟩
      · refine Or.inl ⟨?_, h2, h3⟩
        intro e he x hx
        rcases List.mem_cons.mp he with rfl | he
        · rw [hc] at hx
          cases hx
        · exact h1 e he x hx
      · refine Or.inr ⟨i + 1, e, by simpa using h1, h2, h3, h4, ?_, ?_⟩
        · intro e' he' x hx
          rcases List.mem_cons.mp he' with rfl | he'
          · rw [hc] at hx
            cases hx
          · exact h5 e' he' x hx
        · intro j e' x hj hje hx
          cases j with
          | zero =>
            simp only [List.getElem?_cons_zero, Option.some.injEq] at hje
            subst hje
            rw [hc] at hx
            cases hx
          | succ j =>
            exact h6 j e' x (by omega) (by simpa using hje) hx
    | some y =>
      by_cases hy : y > s0
      · simp only [bestLoop, hc, hy, if_true] at h
        rcases ih (some a) y b s h with ⟨h1, h2, h3⟩ | ⟨i, e, h1, h2, h3, h4, h5, h6⟩
        · subst h2 h3
          refine Or.inr ⟨0, a, by simp, hc, rfl, hy, ?_, ?_⟩
          · intro e' he' x hx
            rcases List.mem_cons.mp he' with rfl | he'
            · rw [hc] at hx
              cases hx
              exact le_refl _
            · exact h1 e' he' x hx
          · intro j e' x hj
            omega
        · refine Or.inr ⟨i + 1, e, by simpa using h1, h2, h3, lt_trans hy h4, ?_, ?_⟩
          · intro e' he' x hx
            rcases List.mem_cons.mp he' with rfl | he'
            · rw [hc] at hx
              cases hx
              exact le_of_lt h4
            · exact h5 e' he' x hx
          · intro j e' x hj hje hx
            cases j with
            | zero =>
              simp only [List.getElem?_cons_zero, Option.some.injEq] at hje
              subst hje
              rw [hc] at hx
              cases hx
              exact h4
            | succ j =>
              exact h6 j e' x (by omega) (by simpa using hje) hx
      · simp only [bestLoop, hc, hy, if_false] at h
        have hy2 : y ≤ s0 := not_lt.mp hy
        rcases ih b0 s0 b s h with ⟨h1, h2, h3⟩ | ⟨i, e, h1, h2, h3, h4, h5, h6⟩
        · refine Or.inl ⟨?_, h2, h3⟩
          intro e he x hx
          rcases List.mem_cons.mp he with rfl | he
          · rw [hc] at hx
            cases hx
            exact hy2
          · exact h1 e he x hx
        · refine Or.inr ⟨i + 1, e, by simpa using h1, h2, h3, h4, ?_, ?_⟩
          · intro e' he' x hx
            rcases List.mem_cons.mp he' with rfl | he'
            · rw [hc] at hx
              cases hx
              exact le_of_lt (lt_of_le_of_lt hy2 h4)
            · exact h5 e' he' x hx
          · intro j e' x hj hje hx
            cases j with
            | zero =>
              simp only [List.getElem?_cons_zero, Option.some.injEq] at hje
              subst hje
              rw [hc] at hx
              cases hx
              exact lt_of_le_of_lt hy2 h4
            | succ j =>
              exact h6 j e' x (by omega) (by simpa using hje) hx

theorem findBestMatch_loop (svc : Embedder) (st : IndexState) (query : String) (threshold : Rat)
    (entries : List Embedded) (q : List Rat) (hi : st.isInitialized = true)
    (hc : st.corpusEmbeddings = some entries) (hq : svc.getEmbedding (lower query) = .ok q) :
    findBestMatch svc st query threshold =
      match (bestLoop svc.sqrt q entries (none, -1)).1 with
      | some bestMatch =>
        if (bestLoop svc.sqrt q entries (none, -1)).2 ≥ threshold then
          some { intent := bestMatch.item.intent, entity := bestMatch.item.entity,
                 similarity := (bestLoop svc.sqrt q entries (none, -1)).2,
                 matchedText := bestMatch.item.text,
                 confidence := (bestLoop svc.sqrt q entries (none, -1)).2 }
        else none
      | none => none := by
  simp [findBestMatch, hi, hc, hq]

/-- C24, counterexample: with the threshold -1 and an index whose only entry
has the similarity -1 with the query, `findBestMatch` returns nothing, although
the greatest similarity is not below the threshold. -/
theorem findBestMatch_sentinel :
    cosineSimilarity unitSqrt [1] [-1] = some (-1) ∧
      findBestMatch { getEmbedding := fun _ => .ok [1], sqrt := unitSqrt } oppositeIndex
        "add push ups" (-1) = none := by
  have hcos : cosineSimilarity unitSqrt [1] [-1] = some (-1) := by
    simp [cosineSimilarity, cosineSums, unitSqrt]
  refine ⟨hcos, ?_⟩
  rw [findBestMatch_loop _ oppositeIndex "add push ups" (-1)
    [{ item := ⟨"add push ups", "add", "workout"⟩, embedding := [-1] }] [1] rfl rfl rfl]
  simp [bestLoop, hcos]

/-- C24, amended. `findBestMatch` returns nothing when the index is not
initialised or embedding the query fails.  On an initialised index, with the
query embedded and a threshold above -1: it returns nothing exactly when every
similarity between the query and an entry is below the threshold; otherwise it
returns the intent, entity and text of an entry whose similarity is greatest
over all entries, the first such entry in the order of the index, with a
confidence equal to that similarity. -/
theorem findBestMatch_argmax (svc : Embedder) (st : IndexState) (query : String)
    (threshold : Rat) :
    (st.isInitialized = false → findBestMatch svc st query threshold = none) ∧
    (st.corpusEmbeddings = none → findBestMatch svc st query threshold = none) ∧
    (∀ msg, svc.getEmbedding (lower query) = .error msg →
      findBestMatch svc st query threshold = none) ∧
    (∀ (entries : List Embedded) (q : List Rat), st.isInitialized = true →
      st.corpusEmbeddings = some entries → svc.getEmbedding (lower query) = .ok q →
      -1 < threshold →
        (findBestMatch svc st query threshold = none ↔
          ∀ e ∈ entries, ∀ x, cosineSimilarity svc.sqrt q e.embedding = some x →
            x < threshold) ∧
        ∀ m, findBestMatch svc st query threshold = some m →
          ∃ (i : Nat) (e : Embedded), entries[i]? = some e ∧
            cosineSimilarity svc.sqrt q e.embedding = some m.confidence ∧
            m.intent = e.item.intent ∧ m.entity = e.item.entity ∧
            m.matchedText = e.item.text ∧ threshold ≤ m.confidence ∧
            (∀ e' ∈ entries, ∀ x, cosineSimilarity svc.sqrt q e'.embedding = some x →
              x ≤ m.confidence) ∧
            ∀ (j : Nat) (e' : Embedded) (x : Rat), j < i → entries[j]? = some e' →
              cosineSimilarity svc.sqrt q e'.embedding = some x → x < m.confidence) := by
  refine ⟨?_, ?_, ?_, ?_⟩
  · intro h
    simp [findBestMatch, h]
  · intro h
    simp [findBestMatch, h]
  · intro msg h
    unfold findBestMatch
    split
    · rfl
    · split
      · rfl
      · simp [h]
  · intro entries q hi hc hq ht
    rw [findBestMatch_loop svc st query threshold entries q hi hc hq]
    cases hb : bestLoop svc.sqrt q entries (none, -1) with
    | mk b s =>
      rcases bestLoop_spec svc.sqrt q entries none (-1) b s hb with
        ⟨h1, h2, h3⟩ | ⟨i, e, h1, h2, h3, h4, h5, h6⟩
      · subst h2 h3
        refine ⟨⟨fun _ e he x hx => lt_of_le_of_lt (h1 e he x hx) ht, fun _ => rfl⟩, ?_⟩
        intro m hm
        cases hm
      · subst h3
        by_cases hs : s ≥ threshold
        · have hres : (match (some e, s).1 with
              | some bestMatch =>
                if (some e, s).2 ≥ threshold then
                  some ({ intent := bestMatch.item.intent, entity := bestMatch.item.entity,
                          similarity := (some e, s).2, matchedText := bestMatch.item.text,
                          confidence := (some e, s).2 } : BestMatch)
                else none
              | none => none) =
              some { intent := e.item.intent, entity := e.item.entity, similarity := s,
                     matchedText := e.item.text, confidence := s } := if_pos hs
          rw [hres]
          refine ⟨⟨fun h => Option.noConfusion h, fun h => ?_⟩, ?_⟩
          · exact absurd (h e (List.getElem?_mem h1) s h2) (not_lt.mpr hs)
          · intro m hm
            simp only [Option.some.injEq] at hm
            subst hm
            exact ⟨i, e, h1, h2, rfl, rfl, rfl, hs, h5, h6⟩
        · have hres : (match (some e, s).1 with
              | some bestMatch =>
                if (some e, s).2 ≥ threshold then
                  some ({ intent := bestMatch.item.intent, entity := bestMatch.item.entity,
                          similarity := (some e, s).2, matchedText := bestMatch.item.text,
                          confidence := (some e, s).2 } : BestMatch)
                else none
              | none => none) = none := if_neg hs
          rw [hres]
          refine ⟨⟨fun _ e' he' x hx => lt_of_le_of_lt (h5 e' he' x hx) (not_le.mp hs),
            fun _ => rfl⟩, ?_⟩
          intro m hm
          cases hm

/-- C24, witness: a two-entry index, the query nearer to the second entry. -/
theorem findBestMatch_argmax_witness :
    ∃ m, findBestMatch { getEmbedding := fun _ => .ok [0, 1], sqrt := unitSqrt }
        { corpusEmbeddings := some [{ item := ⟨"add push ups", "add", "workout"⟩,
                                      embedding := [1, 0] },
                                    { item := ⟨"show my steps", "query", "steps"⟩,
                                      embedding := [0, 1] }],
          isInitialized := true, initializationPromise := some 0,
          builds := [{ next := 2, promise := .fulfilled true }] }
        "show my steps" (65 / 100) = some m ∧ m.intent = "query" ∧ m.entity = "steps" := by
  have h := (findBestMatch_argmax { getEmbedding := fun _ => .ok [0, 1], sqrt := unitSqrt }
    { corpusEmbeddings := some [{ item := ⟨"add push ups", "add", "workout"⟩,
                                  embedding := [1, 0] },
                                { item := ⟨"show my steps", "query", "steps"⟩,
                                  embedding := [0, 1] }],
      isInitialized := true, initializationPromise := some 0,
      builds := [{ next := 2, promise := .fulfilled true }] }
    "show my steps" (65 / 100)).2.2.2 _ [0, 1] rfl rfl rfl (by norm_num)
  have hcos2 : cosineSimilarity unitSqrt [0, 1] [0, 1] = some 1 := by
    simp [cosineSimilarity, cosineSums, unitSqrt]
  cases hf : findBestMatch { getEmbedding := fun _ => .ok [0, 1], sqrt := unitSqrt }
    { corpusEmbeddings := some [{ item := ⟨"add push ups", "add", "workout"⟩,
                                  embedding := [1, 0] },
                                { item := ⟨"show my steps", "query", "steps"⟩,
                                  embedding := [0, 1] }],
      isInitialized := true, initializationPromise := some 0,
      builds := [{ next := 2, promise := .fulfilled true }] }
    "show my steps" (65 / 100) with
  | none =>
    have := h.1.mp hf _ (List.mem_cons_of_mem _ (List.mem_singleton_self _)) 1 hcos2
    norm_num at this
  | some m =>
    obtain ⟨i, e, h1, h2, h3, h4, -, h6, -, -⟩ := h.2 m hf
    have hcos1 : cosineSimilarity unitSqrt [0, 1] [1, 0] = some 0 := by
      simp [cosineSimilarity, cosineSums, unitSqrt]
    match i, h1 with
    | 0, h1 =>
      simp only [List.getElem?_cons_zero, Option.some.injEq] at h1
      subst h1
      rw [hcos1] at h2
      simp only [Option.some.injEq] at h2
      rw [← h2] at h6
      norm_num at h6
    | 1, h1 =>
      simp only [List.getElem?_cons_succ, List.getElem?_cons_zero, Option.some.injEq] at h1
      subst h1
      exact ⟨m, rfl, h3, h4⟩
    | n + 2, h1 =>
      simp at h1

/-- C26. Over every sequence of calls of `initializeEmbeddings` and of
outcomes of the embedding requests, from the state of the loaded module: at
most one build has been started; a call in a state where none has been started
starts the first; a call in any later state, the build being in flight,
succeeded or failed, changes nothing and returns the promise of the first
build, or `true` when that build has succeeded; `findBestMatch` returns nothing
unless the build has succeeded, and then the index holds one entry for each
exemplar of the corpus, in the order of the corpus. -/
theorem single_flight (events : List IndexEvent) :
    (IndexState.initial.run events).builds.length ≤ 1 ∧
    ((IndexState.initial.run events).builds = [] →
      (initializeEmbeddings (IndexState.initial.run events)).2.builds.length = 1 ∧
        (initializeEmbeddings (IndexState.initial.run events)).1 = .promise 0) ∧
    ((IndexState.initial.run events).builds ≠ [] →
      (initializeEmbeddings (IndexState.initial.run events)).2 = IndexState.initial.run events ∧
        ((initializeEmbeddings (IndexState.initial.run events)).1 = .promise 0 ∨
          ((initializeEmbeddings (IndexState.initial.run events)).1 = .value true ∧
            (IndexState.initial.run events).builds.map (fun b => b.promise) =
              [.fulfilled true]))) ∧
    ((IndexState.initial.run events).isInitialized = false →
      ∀ svc query threshold,
        findBestMatch svc (IndexState.initial.run events) query threshold = none) ∧
    ((IndexState.initial.run events).isInitialized = true →
      (IndexState.initial.run events).builds.map (fun b => b.promise) = [.fulfilled true] ∧
        ∃ l, (IndexState.initial.run events).corpusEmbeddings = some l ∧
          l.map (fun e => e.item) = INTENT_CORPUS) := by
  have hinv : SingleFlight INTENT_CORPUS (IndexState.initial.run events) :=
    singleFlight_run INTENT_CORPUS events _ (singleFlight_initial _)
  have hne : INTENT_CORPUS ≠ [] := by
    rw [INTENT_CORPUS, workoutExemplars]
    simp
  generalize IndexState.initial.run events = st at hinv
  obtain ⟨c, cs, hcs⟩ := List.exists_cons_of_ne_nil hne
  rcases hinv with ⟨h1, h2, h3, h4⟩ | ⟨b, h1, h2, h3⟩
  · refine ⟨by simp [h1], fun _ => ?_, fun h => absurd h1 h, fun _ svc query threshold => ?_,
      fun h => ?_⟩
    · simp [initializeEmbeddings, initializeOver, h1, h2, h3, hcs]
    · simp [findBestMatch, h3]
    · rw [h3] at h
      cases h
  · refine ⟨by simp [h1], fun h => ?_, fun _ => ?_, fun h svc query threshold => ?_,
      fun h => ?_⟩
    · rw [h1] at h
      cases h
    · rcases h3 with ⟨hp, hi, -⟩ | ⟨hp, hi, -⟩ | ⟨hp, hi⟩
      · simp [initializeEmbeddings, initializeOver, hi, h2]
      · simp [initializeEmbeddings, initializeOver, hi, h1, hp]
      · simp [initializeEmbeddings, initializeOver, hi, h2]
    · simp [findBestMatch, h]
    · rcases h3 with ⟨hp, hi, -⟩ | ⟨hp, hi, hl⟩ | ⟨hp, hi⟩
      · rw [hi] at h
        cases h
      · exact ⟨by simp [h1, hp], hl⟩
      · rw [hi] at h
        cases h

theorem cosineSums_acc (v : List Rat) :
    ∀ a b c : Rat,
      (v.zip v).foldl
          (fun s p => (s.1 + p.1 * p.2, s.2.1 + p.1 * p.1, s.2.2 + p.2 * p.2)) (a, b, c) =
        (a + sumSquares v, b + sumSquares v, c + sumSquares v) := by
  induction v with
  | nil =>
    intro a b c
    simp [sumSquares]
  | cons x v ih =>
    intro a b c
    simp only [List.zip_cons_cons, List.foldl_cons]
    rw [ih]
    simp [sumSquares, add_assoc]

theorem sumSquares_nonneg (v : List Rat) : 0 ≤ sumSquares v := by
  induction v with
  | nil => simp [sumSquares]
  | cons x v ih =>
    have : sumSquares (x :: v) = x * x + sumSquares v := by simp [sumSquares]
    rw [this]
    exact add_nonneg (mul_self_nonneg x) ih

theorem sumSquares_pos (v : List Rat) (h : ∃ x ∈ v, x ≠ 0) : 0 < sumSquares v := by
  induction v with
  | nil =>
    obtain ⟨x, hx, -⟩ := h
    cases hx
  | cons y v ih =>
    have e : sumSquares (y :: v) = y * y + sumSquares v := by simp [sumSquares]
    rw [e]
    obtain ⟨x, hx, hx0⟩ := h
    rcases List.mem_cons.mp hx with rfl | hx
    · exact add_pos_of_pos_of_nonneg (mul_self_pos.mpr hx0) (sumSquares_nonneg v)
    · exact add_pos_of_nonneg_of_pos (mul_self_nonneg y) (ih ⟨x, hx, hx0⟩)

/-- A vector that is not zero has the similarity 1 with itself, when the
square root is exact on the sum of its squares. -/
theorem cosineSimilarity_self (sqrt : Rat → Rat) (v : List Rat) (h : ∃ x ∈ v, x ≠ 0)
    (hs : sqrt (sumSquares v) * sqrt (sumSquares v) = sumSquares v) :
    cosineSimilarity sqrt v v = some 1 := by
  have hpos := sumSquares_pos v h
  have hsum : cosineSums v v = (sumSquares v, sumSquares v, sumSquares v) := by
    unfold cosineSums
    rw [cosineSums_acc]
    simp
  simp only [cosineSimilarity, lt_irrefl, if_false, hsum, hs]
  rw [if_neg (ne_of_gt hpos), div_self (ne_of_gt hpos)]

/-! ## The match of an exemplar with itself -/

theorem mem_entriesWith (embed : String → List Rat) (corpus : List CorpusItem) (e : Embedded)
    (h : e ∈ entriesWith embed corpus) :
    e.item ∈ corpus ∧ e.embedding = embed e.item.text := by
  unfold entriesWith at h
  obtain ⟨item, hi, rfl⟩ := List.mem_map.mp h
  exact ⟨hi, rfl⟩

/-- C25, counterexample: with the embedding function that sends every text to
the vector `[1]`, `findBestMatch` of the exemplar "show my workouts", labelled
query, returns the labels add and workout of the first exemplar. -/
theorem constant_embedding_first_entry :
    (⟨"show my workouts", "query", "workout"⟩ : CorpusItem) ∈ INTENT_CORPUS ∧
      ∃ m, findBestMatch { getEmbedding := fun _ => .ok [1], sqrt := unitSqrt }
          (builtWith (fun _ => [1])) "show my workouts" (99 / 100) = some m ∧
        m.intent = "add" ∧ m.entity = "workout" := by
  refine ⟨by decide, ?_⟩
  have hcos : cosineSimilarity unitSqrt [1] [1] = some 1 := by
    simp [cosineSimilarity, cosineSums, unitSqrt]
  have hst := builtWith_state (fun _ => [1])
  have h := (findBestMatch_argmax { getEmbedding := fun _ => .ok [1], sqrt := unitSqrt }
    (builtWith (fun _ => [1])) "show my workouts" (99 / 100)).2.2.2
    (entriesWith (fun _ => [1]) INTENT_CORPUS) [1] (by rw [hst]) (by rw [hst]) rfl
    (by norm_num)
  have h0 : (entriesWith (fun _ => [1]) INTENT_CORPUS)[0]? =
      some { item := ⟨"add push ups", "add", "workout"⟩, embedding := [1] } := by
    rw [INTENT_CORPUS, workoutExemplars]
    simp [entriesWith]
  cases hf : findBestMatch { getEmbedding := fun _ => .ok [1], sqrt := unitSqrt }
      (builtWith (fun _ => [1])) "show my workouts" (99 / 100) with
  | none =>
    have := h.1.mp hf _ (List.getElem?_mem h0) 1 hcos
    norm_num at this
  | some m =>
    obtain ⟨i, e, h1, h2, h3, h4, -, -, -, h8⟩ := h.2 m hf
    have he := mem_entriesWith _ _ e (List.getElem?_mem h1)
    have hconf : m.confidence = 1 := by
      have h2' : cosineSimilarity unitSqrt [1] e.embedding = some m.confidence := h2
      rw [he.2, hcos] at h2'
      simp only [Option.some.injEq] at h2'
      exact h2'.symm
    cases i with
    | zero =>
      rw [h0] at h1
      simp only [Option.some.injEq] at h1
      subst h1
      exact ⟨m, rfl, h3, h4⟩
    | succ n =>
      have := h8 0 _ 1 (Nat.succ_pos n) h0 hcos
      rw [hconf] at this
      exact absurd this (lt_irrefl _)

/-- C25, amended. For every exemplar `E` of the corpus whose text is in lower
case, once the index has been built with a deterministic embedding function:
if the vector of `E` is not zero, the square root is exact on the sum of its
squares, and every exemplar whose intent or entity differs from that of `E`
has a similarity below 1 with `E`, then `findBestMatch` of the text of `E`
with the threshold 0.99 returns the intent and the entity of `E`. -/
theorem corpus_self_match (embed : String → List Rat) (sqrt : Rat → Rat) (E : CorpusItem)
    (hE : E ∈ INTENT_CORPUS) (hlow : lower E.text = E.text)
    (hnz : ∃ x ∈ embed E.text, x ≠ 0)
    (hsq : sqrt (sumSquares (embed E.text)) * sqrt (sumSquares (embed E.text)) =
      sumSquares (embed E.text))
    (hsep : ∀ E' ∈ INTENT_CORPUS, (E'.intent ≠ E.intent ∨ E'.entity ≠ E.entity) →
      ∀ x, cosineSimilarity sqrt (embed E.text) (embed E'.text) = some x → x < 1) :
    ∃ m, findBestMatch { getEmbedding := fun t => .ok (embed t), sqrt := sqrt }
        (builtWith embed) E.text (99 / 100) = some m ∧
      m.intent = E.intent ∧ m.entity = E.entity := by
  have hcos := cosineSimilarity_self sqrt (embed E.text) hnz hsq
  have hst := builtWith_state embed
  have h := (findBestMatch_argmax { getEmbedding := fun t => .ok (embed t), sqrt := sqrt }
    (builtWith embed) E.text (99 / 100)).2.2.2
    (entriesWith embed INTENT_CORPUS) (embed E.text) (by rw [hst]) (by rw [hst])
    (by simp only [hlow]) (by norm_num)
  have hmem : ({ item := E, embedding := embed E.text } : Embedded) ∈
      entriesWith embed INTENT_CORPUS := List.mem_map.mpr ⟨E, hE, rfl⟩
  cases hf : findBestMatch { getEmbedding := fun t => .ok (embed t), sqrt := sqrt }
      (builtWith embed) E.text (99 / 100) with
  | none =>
    have := h.1.mp hf _ hmem 1 hcos
    norm_num at this
  | some m =>
    obtain ⟨i, e, h1, h2, h3, h4, -, -, h7, -⟩ := h.2 m hf
    have he := mem_entriesWith _ _ e (List.getElem?_mem h1)
    have hge : (1 : Rat) ≤ m.confidence := h7 _ hmem 1 hcos
    refine ⟨m, rfl, ?_, ?_⟩
    · by_contra hne
      have hlt := hsep e.item he.1 (Or.inl (fun heq => hne (h3.trans heq))) m.confidence
        (by rw [← he.2]; exact h2)
      exact absurd hge (not_le.mpr hlt)
    · by_contra hne
      have hlt := hsep e.item he.1 (Or.inr (fun heq => hne (h4.trans heq))) m.confidence
        (by rw [← he.2]; exact h2)
      exact absurd hge (not_le.mpr hlt)

theorem push_ups_labels : ∀ I ∈ INTENT_CORPUS, I.text = "add push ups" →
    I.intent = "add" ∧ I.entity = "workout" := by
  intro I hI ht
  simp only [INTENT_CORPUS, workoutExemplars, dietExemplars, recipeExemplars, stepsExemplars,
    measurementExemplars, reminderExemplars, shoppingExemplars, wishlistExemplars,
    analyticsExemplars, generalExemplars, List.mem_append, List.mem_cons, List.mem_singleton,
    List.not_mem_nil, or_false] at hI
  rcases I with ⟨t, i, e⟩
  simp only [CorpusItem.mk.injEq] at hI
  simp only at ht
  subst ht
  simp at hI
  exact hI

/-- C25, witness: the first exemplar, under the embedding that sends its text
to `[1, 0]` and every other text to `[0, 1]`. -/
theorem corpus_self_match_witness :
    ∃ m, findBestMatch
        { getEmbedding := fun t => .ok (if t = "add push ups" then [1, 0] else [0, 1]),
          sqrt := unitSqrt }
        (builtWith (fun t => if t = "add push ups" then [1, 0] else [0, 1]))
        "add push ups" (99 / 100) = some m ∧
      m.intent = "add" ∧ m.entity = "workout" := by
  have h := corpus_self_match (fun t => if t = "add push ups" then [1, 0] else [0, 1]) unitSqrt
    ⟨"add push ups", "add", "workout"⟩ (by decide) (by decide) ⟨1, by simp, by norm_num⟩
    (by simp [sumSquares, unitSqrt]) ?_
  · exact h
  · intro E' hE' hne x hx
    by_cases ht : E'.text = "add push ups"
    · exfalso
      have := push_ups_labels E' hE' ht
      rcases hne with hne | hne
      · exact hne this.1
      · exact hne this.2
    · simp only [ht, if_false, if_true] at hx
      have hcos : cosineSimilarity unitSqrt [1, 0] [0, 1] = some 0 := by
        simp [cosineSimilarity, cosineSums, unitSqrt]
      rw [hcos] at hx
      simp only [Option.some.injEq] at hx
      rw [← hx]
      norm_num

/-! ## The model calls of a request -/

theorem classifyIntentCalls_cases (up : Upstream) :
    (vectorAction up ∧ classifyIntentCalls up = [.extractor]) ∨
      (¬ vectorAction up ∧
        (classifyIntentCalls up = [] ∨ classifyIntentCalls up = [.classifier])) := by
  by_cases hv : vectorAction up
  · left
    refine ⟨hv, ?_⟩
    obtain ⟨hr, m, hb, hc, hi⟩ := hv
    have hi2 : ["add", "update", "delete"].contains m.intent = true := by simpa using hi
    simp only [classifyIntentCalls, hr, hb, hc, hi2, if_true]
  · right
    refine ⟨hv, ?_⟩
    cases hr : up.ready
    · right
      simp only [classifyIntentCalls, hr, Bool.false_eq_true, if_false]
    · cases hb : up.best with
      | none =>
        right
        simp only [classifyIntentCalls, hr, hb, if_true]
      | some m =>
        by_cases hc : m.confidence ≥ 65 / 100
        · by_cases hi : ["add", "update", "delete"].contains m.intent = true
          · exact absurd ⟨hr, m, hb, hc, by simpa using hi⟩ hv
          · left
            simp only [classifyIntentCalls, hr, hb, hc, hi, if_true, if_false,
              Bool.false_eq_true]
        · right
          simp only [classifyIntentCalls, hr, hb, hc, if_true, if_false]

theorem actionDetailCalls_cases (c : Classification) :
    actionDetailCalls c = [] ∨ actionDetailCalls c = [.extractor] := by
  unfold actionDetailCalls
  split_ifs <;> simp

theorem semanticTier_action (up : Upstream) (message : String) (h : vectorAction up) :
    ∃ c, semanticTier up message = some c ∧ c.fallback = undefined ∧
      (c.intent.isStr "add" || c.intent.isStr "update" || c.intent.isStr "delete") = true := by
  obtain ⟨hr, m, hb, hc, hi⟩ := h
  have hi2 : ["add", "update", "delete"].contains m.intent = true := by simpa using hi
  have hi3 : ((str m.intent).isStr "add" || (str m.intent).isStr "update" ||
      (str m.intent).isStr "delete") = true := by
    simp only [List.mem_cons, List.mem_singleton, List.not_mem_nil, or_false] at hi
    rcases hi with h | h | h <;> simp [isStr, h]
  unfold semanticTier
  simp only [hr, if_true, hb, hc, hi2]
  split <;> exact ⟨_, rfl, rfl, hi3⟩

theorem classifyIntent_total_ok (up : Upstream) (env : Env) (message : String) :
    ∃ c, classifyIntent up env message = .ok c := by
  unfold classifyIntent
  split
  · exact ⟨_, rfl⟩
  · split <;> exact ⟨_, rfl⟩

theorem handleChatCalls_run (up : Upstream) (env : Env) (req : ChatRequest) (message : String)
    (hm : req.message = str message) (hne : message ≠ "") (hf : req.fixedAnswer = false) :
    ∃ c, classifyIntent up env message = .ok c ∧
      handleChatCalls up env req = classifyIntentCalls up ++
        (if req.contextBuilt then actionDetailCalls c else []) := by
  obtain ⟨c, hc⟩ := classifyIntent_total_ok up env message
  refine ⟨c, hc, ?_⟩
  unfold handleChatCalls
  rw [hm]
  simp only [hne, if_false, hf, Bool.false_eq_true, hc]

theorem vector_action_calls (up : Upstream) (env : Env) (req : ChatRequest) (message : String)
    (hv : vectorAction up) (hm : req.message = str message) (hne : message ≠ "")
    (hf : req.fixedAnswer = false) (hctx : req.contextBuilt = true) :
    classifyIntentCalls up = [.extractor] ∧
      handleChatCalls up env req = [.extractor, .extractor] := by
  have h1 : classifyIntentCalls up = [.extractor] := by
    rcases classifyIntentCalls_cases up with ⟨-, h1⟩ | ⟨h0, -⟩
    · exact h1
    · exact absurd hv h0
  refine ⟨h1, ?_⟩
  obtain ⟨c, hc, hcalls⟩ := handleChatCalls_run up env req message hm hne hf
  obtain ⟨c1, hs, hfb, hint⟩ := semanticTier_action up message hv
  have hcc : c = c1 := by
    unfold classifyIntent at hc
    rw [hs] at hc
    simp only [Except.ok.injEq] at hc
    exact hc.symm
  subst hcc
  rw [hcalls, h1, hctx]
  simp only [if_true]
  have : actionDetailCalls c = [.extractor] := by
    unfold actionDetailCalls
    rw [hint]
    simp [hasFallbackValues, hfb, truthy]
  rw [this]
  rfl

theorem semanticTier_llm (up : Upstream) (message : String) (m : SemanticMatch)
    (fs : List (String × JsVal)) (hr : up.ready = true) (hb : up.best = some m)
    (hc : m.confidence ≥ 65 / 100) (hi : ["add", "update", "delete"].contains m.intent = true)
    (hx : extractValuesWithLLM up = .ok (obj fs)) :
    semanticTier up message =
      some { intent := str m.intent, entity := str m.entity,
             details := detailsOf (obj fs)
               ((((obj fs).get "date").orElse ((obj fs).get "time_reference")).orElse null)
               message,
             confidence := .score m.confidence, method := str "semantic+llm" } := by
  simp only [semanticTier, hr, hb, hc, hi, hx, if_true]

/-- C27, counterexample: the vector tier matches an exemplar labelled add and
steps, `classifyIntent` calls the extractor model and returns the values that
the model gave under the method semantic+llm, and `handleChat` then calls the
extractor model a second time. -/
theorem vector_action_two_extractions :
    (∃ c, classifyIntent vectorHit demoEnv "add 5000 steps" = .ok c ∧
        c.method = str "semantic+llm" ∧
        c.details.get "extracted_values" = obj [("steps", num 5000)]) ∧
      classifyIntentCalls vectorHit = [.extractor] ∧
      handleChatCalls vectorHit demoEnv
        { message := str "add 5000 steps", fixedAnswer := false, contextBuilt := true } =
        [.extractor, .extractor] := by
  have hc : ((9 : Rat) / 10 ≥ 65 / 100) := by norm_num
  have hs := semanticTier_llm vectorHit "add 5000 steps"
    { intent := "add", entity := "steps", confidence := 9 / 10 } [("steps", num 5000)]
    rfl rfl hc (by decide) rfl
  have hv : vectorAction vectorHit := ⟨rfl, _, rfl, hc, by decide⟩
  refine ⟨?_, vector_action_calls vectorHit demoEnv _ "add 5000 steps" hv rfl (by decide)
    rfl rfl⟩
  rw [classifyIntent, hs]
  exact ⟨_, rfl, rfl, rfl⟩

/-- C27, amended. For every request and every behaviour of the upstream
services, the request issues at most one classifier-model call and at most two
extractor-model calls, and never more than two of both together.  Unless the
vector tier matches an exemplar whose intent is add, update or delete, it
issues at most one extractor-model call.  When the vector tier matches such an
exemplar, `classifyIntent` calls the extractor model once and issues no
classifier-model call, and `handleChat` calls the extractor model once more
whenever `buildContext` returns. -/
theorem request_model_calls (up : Upstream) (env : Env) (req : ChatRequest) :
    (handleChatCalls up env req).count .classifier ≤ 1 ∧
      (handleChatCalls up env req).count .extractor ≤ 2 ∧
      (handleChatCalls up env req).length ≤ 2 ∧
      (¬ vectorAction up → (handleChatCalls up env req).count .extractor ≤ 1) ∧
      (vectorAction up → classifyIntentCalls up = [.extractor] ∧
        (handleChatCalls up env req).count .classifier = 0 ∧
        ∀ message, req.message = str message → message ≠ "" → req.fixedAnswer = false →
          req.contextBuilt = true →
          handleChatCalls up env req = [.extractor, .extractor]) := by
  have hcases := classifyIntentCalls_cases up
  have hmain := handleChatCalls_run up env req
  have hshape : handleChatCalls up env req = [] ∨
      ∃ message c, req.message = str message ∧ message ≠ "" ∧ req.fixedAnswer = false ∧
        classifyIntent up env message = .ok c ∧
        handleChatCalls up env req = classifyIntentCalls up ++
          (if req.contextBuilt then actionDetailCalls c else []) := by
    cases hm : req.message with
    | str message =>
      by_cases hne : message = ""
      · left
        unfold handleChatCalls
        rw [hm]
        simp [hne]
      · cases hf : req.fixedAnswer
        · right
          obtain ⟨c, hc, hcalls⟩ := hmain message hm hne hf
          exact ⟨message, c, rfl, hne, rfl, hc, hcalls⟩
        · left
          unfold handleChatCalls
          rw [hm]
          simp [hne, hf]
    | _ => left; unfold handleChatCalls; rw [hm]
  have htail : ∀ c, (if req.contextBuilt then actionDetailCalls c else []) = [] ∨
      (if req.contextBuilt then actionDetailCalls c else []) = [ModelCall.extractor] := by
    intro c
    cases req.contextBuilt
    · left; rfl
    · simpa using actionDetailCalls_cases c
  refine ⟨?_, ?_, ?_, ?_, ?_⟩
  · rcases hshape with h | ⟨message, c, -, -, -, -, h⟩
    · simp [h]
    · rw [h]
      rcases hcases with ⟨-, h1⟩ | ⟨-, h1 | h1⟩ <;> rcases htail c with h2 | h2 <;>
        rw [h1, h2] <;> decide
  · rcases hshape with h | ⟨message, c, -, -, -, -, h⟩
    · simp [h]
    · rw [h]
      rcases hcases with ⟨-, h1⟩ | ⟨-, h1 | h1⟩ <;> rcases htail c with h2 | h2 <;>
        rw [h1, h2] <;> decide
  · rcases hshape with h | ⟨message, c, -, -, -, -, h⟩
    · simp [h]
    · rw [h]
      rcases hcases with ⟨-, h1⟩ | ⟨-, h1 | h1⟩ <;> rcases htail c with h2 | h2 <;>
        rw [h1, h2] <;> decide
  · intro hv
    rcases hshape with h | ⟨message, c, -, -, -, -, h⟩
    · simp [h]
    · rw [h]
      rcases hcases with ⟨h0, -⟩ | ⟨-, h1 | h1⟩
      · exact absurd h0 hv
      · rcases htail c with h2 | h2 <;> rw [h1, h2] <;> decide
      · rcases htail c with h2 | h2 <;> rw [h1, h2] <;> decide
  · intro hv
    have h1 : classifyIntentCalls up = [.extractor] := by
      rcases hcases with ⟨-, h1⟩ | ⟨h0, -⟩
      · exact h1
      · exact absurd hv h0
    refine ⟨h1, ?_, ?_⟩
    · rcases hshape with h | ⟨message, c, -, -, -, -, h⟩
      · simp [h]
      · rw [h]
        rcases htail c with h2 | h2 <;> rw [h1, h2] <;> decide
    · intro message hm hne hf hctx
      exact (vector_action_calls up env req message hv hm hne hf hctx).2

/-! ## The corpus and the dispatch table -/

theorem corpus_registered : INTENT_CORPUS.all actionRegistered = true := by
  have h1 : workoutExemplars.all actionRegistered = true := by decide
  have h2 : dietExemplars.all actionRegistered = true := by decide
  have h3 : recipeExemplars.all actionRegistered = true := by decide
  have h4 : stepsExemplars.all actionRegistered = true := by decide
  have h5 : measurementExemplars.all actionRegistered = true := by decide
  have h6 : reminderExemplars.all actionRegistered = true := by decide
  have h7 : shoppingExemplars.all actionRegistered = true := by decide
  have h8 : wishlistExemplars.all actionRegistered = true := by decide
  have h9 : analyticsExemplars.all actionRegistered = true := by decide
  have h10 : generalExemplars.all actionRegistered = true := by decide
  rw [INTENT_CORPUS]
  simp only [List.all_append, h1, h2, h3, h4, h5, h6, h7, h8, h9, h10, Bool.and_self]

/-- Every exemplar of the corpus whose intent is add, update or delete, other
than those labelled steps and delete, has a handler in the dispatch table. -/
theorem action_exemplars_registered (E : CorpusItem) (hE : E ∈ INTENT_CORPUS)
    (hi : E.intent ∈ ["add", "update", "delete"])
    (hne : ¬ (E.entity = "steps" ∧ E.intent = "delete")) :
    registered E.entity E.intent = true := by
  have h := List.all_eq_true.mp corpus_registered E hE
  have hi2 : ["add", "update", "delete"].contains E.intent = true := by simpa using hi
  simp only [actionRegistered, hi2, Bool.not_true, Bool.false_or, Bool.or_eq_true,
    Bool.and_eq_true, beq_iff_eq] at h
  rcases h with h | h
  · exact absurd h hne
  · exact h

/-- C28, failing input: the corpus holds the exemplars "delete today's steps"
and "clear step count" under the intent delete and the entity steps, the
dispatch table has no handler for that pair, and `executeAction` answers
"Unknown action: delete for steps". -/
theorem steps_delete_unregistered :
    (⟨"delete today's steps", "delete", "steps"⟩ : CorpusItem) ∈ INTENT_CORPUS ∧
      (⟨"clear step count", "delete", "steps"⟩ : CorpusItem) ∈ INTENT_CORPUS ∧
      registered "steps" "delete" = false ∧
      registered "steps" "add" = true ∧ registered "steps" "update" = true ∧
      (executeAction demoEnv (str "delete") (str "steps")
          (detailsOf (obj []) null "delete today's steps") (obj []) emptyStore).completion =
        .result (unknownAction (str "delete") (str "steps")) ∧
      (unknownAction (str "delete") (str "steps")).error =
        some "Unknown action: delete for steps" :=
  ⟨by decide, by decide, by decide, by decide, by decide, rfl, by decide⟩

end Isha
